import Mathlib

/-!
# SIL Kit / IntegrationBus: a verification development

Shallow embedding of parts of the participant runtime and of its configuration
layer, followed by the theorems that were checked against them.

Definitions:

* `ib.mw` embeds `IntegrationBus/source/mw/comadapter/ComAdapter_impl.hpp`.
  The connection (`IbConnectionT`), the logger and the service discovery are
  collaborators of the ComAdapter; each is embedded as the ordered record of
  the calls the ComAdapter makes on it.
* `SilKit.Core.Orchestration` embeds `SilKit/source/core/sync/SyncSerdes.cpp`
  over the `MessageBuffer` primitives, which are parameters.
* `ib.mw.service` and `ib.mw.sync` hold the service discovery and the
  participant controller. Their implementations are not among the sources, so
  both are modelled from the specification and checked against their tests.
* `YAML` and `ib.cfg` embed `IntegrationBus/source/cfg/YamlConversion.cpp` (the
  decoders of `Sink`, `Logging` and `Registry`) and
  `IntegrationBus/source/cfg/YamlSchema.cpp`.

An exception is embedded as a result in `Except`; where the state of an object
matters after an exception, the operation returns the state next to the result.
-/

set_option autoImplicit false

/-- Equality of results is decidable when equality of errors and of values is. -/
instance instDecidableEqExcept {ε α : Type} [DecidableEq ε] [DecidableEq α] :
    DecidableEq (Except ε α) := fun a b =>
  match a, b with
  | .error e1, .error e2 =>
    if h : e1 = e2 then isTrue (by rw [h]) else isFalse (fun h' => h (Except.error.inj h'))
  | .ok v1, .ok v2 =>
    if h : v1 = v2 then isTrue (by rw [h]) else isFalse (fun h' => h (Except.ok.inj h'))
  | .error _, .ok _ => isFalse (fun h => Except.noConfusion h)
  | .ok _, .error _ => isFalse (fun h => Except.noConfusion h)

namespace ib

/-- Exceptions thrown by the embedded code. -/
inductive Exception where
  | Misconfiguration (what : String)
deriving DecidableEq, Repr

namespace cfg

/-- The values of `cfg::Link::Type` that the ComAdapter mentions. -/
inductive LinkType where
  | Undefined | CAN | LIN | Ethernet | FlexRay | DataMessage | Rpc
deriving DecidableEq, Repr

/-- The fields of `cfg::Link` that the ComAdapter reads. -/
structure Link where
  id : Int
  name : String
  type : LinkType
  historyLength : Nat
deriving DecidableEq, Repr

/-- The fields of a controller configuration that `CreateControllerForLinkNew`
and `AddTraceSinksToSource` read. -/
structure ControllerConfig where
  name : String
  network : String
  useTraceSinks : List String
deriving DecidableEq, Repr

end cfg

namespace mw

/-- The values of `mw::ServiceType`. -/
inductive ServiceType where
  | Undefined | Link | Controller | SimulatedController | InternalController
deriving DecidableEq, Repr

/-- Embeds `mw::SupplementalData`, a map from string keys to string values. -/
abbrev SupplementalData := List (String × String)

/-- Width of `EndpointId`, the type of the service id (16 bits). -/
def endpointIdBits : Nat := 16

/-- Embeds `mw::ServiceDescriptor` as filled in by `CreateController`. -/
structure ServiceDescriptor where
  participantName : String
  networkName : String
  serviceName : String
  networkType : cfg.LinkType
  serviceId : Nat
  serviceType : ServiceType
  supplementalData : SupplementalData
deriving DecidableEq, Repr

/-- The template argument `ControllerT` of the controller functions: the class
that is constructed, the controller map of `_controllers` that
`tt::predicative_get<IsControllerMap>` selects for it, and whether
`dynamic_cast<extensions::ITraceMessageSource*>` succeeds on it. -/
structure ControllerT where
  className : String
  mapName : String
  isTraceSource : Bool
deriving DecidableEq, Repr

/-- The controller object: `addr` is the identity of the object returned by
`std::make_unique` (its position in the order of construction). -/
structure Controller where
  addr : Nat
  type : ControllerT
  descriptor : ServiceDescriptor
deriving DecidableEq, Repr

/-- The message types for which `SendIbMessage` overloads exist. -/
inductive MessageKind where
  | CanMessage | CanTransmitAcknowledge | CanControllerStatus | CanConfigureBaudrate
  | CanSetControllerMode
  | EthMessage | EthTransmitAcknowledge | EthStatus | EthSetMode
  | FrMessage | FrMessageAck | FrSymbol | FrSymbolAck | CycleStart | HostCommand
  | FrControllerConfig | TxBufferConfigUpdate | TxBufferUpdate | PocStatus
  | SendFrameRequest | SendFrameHeaderRequest | Transmission | WakeupPulse
  | LinControllerConfig | ControllerStatusUpdate | FrameResponseUpdate
  | GenericMessage | DataMessage | FunctionCall | FunctionCallResponse
  | NextSimTask | ParticipantStatus | ParticipantCommand | SystemCommand
  | LogMsg | ServiceAnnouncement | ServiceDiscoveryEvent
deriving DecidableEq, Repr

/-- A message handed to `SendIbMessage`: its C++ type and its content. -/
structure IbMessage where
  kind : MessageKind
  content : String
deriving DecidableEq, Repr

/-- One call made on `_ibConnection`. -/
inductive ConnectionCall where
  | RegisterIbService (networkName : String) (endpointId : Nat) (receiver : Nat)
  | SetHistoryLengthForLink (networkName : String) (history : Nat) (receiver : Nat)
  | SendIbMessage (sender : ServiceDescriptor) (msg : IbMessage)
  | SendIbMessageTo (sender : ServiceDescriptor) (targetParticipantName : String)
      (msg : IbMessage)
deriving DecidableEq, Repr

/-- One call made on `_logger`. -/
inductive LogCall where
  | Trace (text : String) (sender : ServiceDescriptor) (msg : IbMessage)
  | Debug (text : String)
  | Error (text : String)
deriving DecidableEq, Repr

/-- The state of a `ComAdapter<IbConnectionT>`.

`constructed` lists every controller object made by `std::make_unique`, in
order of construction; `_controllers` is the tuple of controller maps, keyed
here by the name of the map and the qualified name; `announced` lists the
descriptors passed to `NotifyServiceCreated`; `addedSinks` lists the calls of
`AddSink` as (address of the trace source, name of the sink). -/
structure ComAdapter where
  _participantName : String
  links : List cfg.Link
  _traceSinks : List String
  _localEndpointId : Nat
  _controllers : List ((String × String) × Controller)
  constructed : List Controller
  _ibConnection : List ConnectionCall
  announced : List ServiceDescriptor
  addedSinks : List (Nat × String)
  _logger : List LogCall
deriving DecidableEq, Repr

/-- Embeds `controllerMap[qualifiedName] = std::move(controller)` on an
`unordered_map`: the entry for the key is replaced or added. -/
def assign (m : List ((String × String) × Controller)) (key : String × String)
    (c : Controller) : List ((String × String) × Controller) :=
  (key, c) :: m.filter (fun e => e.1 ≠ key)

/-- The link that `CreateController(serviceName, ...)` provides for internal
services. -/
def defaultLink : cfg.Link :=
  { id := -1, name := "default", type := cfg.LinkType.Undefined, historyLength := 0 }

/-- The class `service::ServiceDiscovery` as a template argument. -/
def serviceDiscoveryT : ControllerT :=
  { className := "ServiceDiscovery", mapName := "ServiceDiscovery", isTraceSource := false }

/-- The supplemental data `GetServiceDiscovery` gives to the service discovery:
`controllerType` mapped to `controllerTypeServiceDiscovery`. -/
def serviceDiscoverySupplementalData : SupplementalData :=
  [("controllerType", "controllerTypeServiceDiscovery")]

namespace ComAdapter

/-- Embeds `ComAdapter::GetController<ControllerT>(networkName, serviceName)`. -/
def GetController (self : ComAdapter) (T : ControllerT) (networkName serviceName : String) :
    Option Controller :=
  let qualifiedName := networkName ++ "/" ++ serviceName
  self._controllers.lookup (T.mapName, qualifiedName)

/-- Embeds `ComAdapter::CreateController(link, serviceName, ...)` from its first line
up to and including `controllerMap[qualifiedName] = std::move(controller)`. -/
def CreateController_store (self : ComAdapter) (T : ControllerT) (link : cfg.Link)
    (serviceName : String) (serviceType : ServiceType) (supplementalData : SupplementalData) :
    Except Exception Controller × ComAdapter :=
  if serviceName = "" then
    (.error (.Misconfiguration "Services must have a non-empty name."), self)
  else
    let localEndpoint := self._localEndpointId
    let descriptor : ServiceDescriptor :=
      { networkName := link.name
        participantName := self._participantName
        serviceName := serviceName
        networkType := link.type
        serviceId := localEndpoint
        serviceType := serviceType
        supplementalData := supplementalData }
    let controller : Controller :=
      { addr := self.constructed.length, type := T, descriptor := descriptor }
    let qualifiedName := link.name ++ "/" ++ serviceName
    (.ok controller,
      { self with
        _localEndpointId := (localEndpoint + 1) % 2 ^ endpointIdBits
        constructed := self.constructed ++ [controller]
        _ibConnection := self._ibConnection ++
          [ConnectionCall.RegisterIbService link.name localEndpoint controller.addr,
           ConnectionCall.SetHistoryLengthForLink link.name link.historyLength controller.addr]
        _controllers := assign self._controllers (T.mapName, qualifiedName) controller })

/-- Embeds `IServiceDiscovery::NotifyServiceCreated` as called by the ComAdapter. -/
def NotifyServiceCreated (self : ComAdapter) (d : ServiceDescriptor) : ComAdapter :=
  { self with announced := self.announced ++ [d] }

/-- Embeds `ComAdapter::GetServiceDiscovery`. When the service discovery does not exist
yet it is made by a nested `CreateController`; that call stores the new
controller under `default/ServiceDiscovery` before it asks for the service
discovery itself, so its own request finds the controller (see
`GetController_CreateController_store`) and what is left of the nested call is
the notification of the new service. -/
def GetServiceDiscovery (self : ComAdapter) : ComAdapter :=
  match self.GetController serviceDiscoveryT "default" "ServiceDiscovery" with
  | some _ => self
  | none =>
    match self.CreateController_store serviceDiscoveryT defaultLink "ServiceDiscovery"
        ServiceType.InternalController serviceDiscoverySupplementalData with
    | (.ok controller, self1) => self1.NotifyServiceCreated controller.descriptor
    -- not reached: the name `ServiceDiscovery` is not empty
    | (.error _, self1) => self1

/-- Embeds `ComAdapter::CreateController(link, serviceName, serviceType,
supplementalData, arg...)`. -/
def CreateController (self : ComAdapter) (T : ControllerT) (link : cfg.Link)
    (serviceName : String) (serviceType : ServiceType) (supplementalData : SupplementalData) :
    Except Exception Controller × ComAdapter :=
  match self.CreateController_store T link serviceName serviceType supplementalData with
  | (.error e, self1) => (.error e, self1)
  | (.ok controller, self1) =>
    (.ok controller, (self1.GetServiceDiscovery).NotifyServiceCreated controller.descriptor)

/-- Embeds `ComAdapter::CreateController(serviceName, serviceType, supplementalData,
arg...)`, the overload for internal services. -/
def CreateControllerInternal (self : ComAdapter) (T : ControllerT) (serviceName : String)
    (serviceType : ServiceType) (supplementalData : SupplementalData) :
    Except Exception Controller × ComAdapter :=
  let link : cfg.Link :=
    { id := -1, name := "default", type := cfg.LinkType.Undefined, historyLength := 0 }
  self.CreateController T link serviceName serviceType supplementalData

/-- Embeds `ComAdapter::GetNetworkByName`. -/
def GetNetworkByName (self : ComAdapter) (networkName : String) : Except Exception cfg.Link :=
  match self.links.find? (fun link => link.name = networkName) with
  | some link => .ok link
  | none => .error (.Misconfiguration ("Invalid linkId " ++ networkName))

/-- The loop of `AddTraceSinksToSource` over `config.useTraceSinks`. -/
def addSinks (self : ComAdapter) (traceSource : Nat) (configName : String) :
    List String → Except Exception Unit × ComAdapter
  | [] => (.ok (), self)
  | sinkName :: rest =>
    if sinkName ∈ self._traceSinks then
      addSinks { self with addedSinks := self.addedSinks ++ [(traceSource, sinkName)] }
        traceSource configName rest
    else
      let ss := "Controller " ++ configName ++ " refers to non-existing sink " ++ sinkName
      (.error (.Misconfiguration ss), { self with _logger := self._logger ++ [LogCall.Error ss] })

/-- Embeds `ComAdapter::AddTraceSinksToSource`. -/
def AddTraceSinksToSource (self : ComAdapter) (traceSource : Nat) (config : cfg.ControllerConfig) :
    Except Exception Unit × ComAdapter :=
  if config.useTraceSinks = [] then
    (.ok (), { self with _logger := self._logger ++
      [LogCall.Debug ("Tracer on " ++ self._participantName ++ "/" ++ config.name ++
        " not enabled, skipping")] })
  else
    self.addSinks traceSource config.name config.useTraceSinks

/-- Embeds `ComAdapter::CreateControllerForLinkNew`. -/
def CreateControllerForLinkNew (self : ComAdapter) (T : ControllerT)
    (config : cfg.ControllerConfig) (serviceType : ServiceType)
    (supplementalData : SupplementalData) : Except Exception Controller × ComAdapter :=
  match self.GetNetworkByName config.network with
  | .error e => (.error e, self)
  | .ok linkCfg =>
    match self.GetController T linkCfg.name config.name with
    | some controllerPtr => (.ok controllerPtr, self)
    | none =>
      match self.CreateController T linkCfg config.name serviceType supplementalData with
      | (.error e, self1) => (.error e, self1)
      | (.ok controller, self1) =>
        if T.isTraceSource then
          match self1.AddTraceSinksToSource controller.addr config with
          | (.error e, self2) => (.error e, self2)
          | (.ok _, self2) => (.ok controller, self2)
        else
          (.ok controller, self1)

/-- The overload `TraceTx(ILogger*, const IIbServiceEndpoint*, const IbMessageT&)`
of `MessageTracing.hpp`, a template over the message type. -/
def TraceTx_template (logger : List LogCall) (addr : ServiceDescriptor) (msg : IbMessage) :
    List LogCall :=
  logger ++ [LogCall.Trace "Send from" addr msg]

/-- The overload `TraceTx(ILogger*, IIbServiceEndpoint*, const logging::LogMsg&)`
of `MessageTracing.hpp`, with an empty body. -/
def TraceTx_LogMsg (logger : List LogCall) (_addr : ServiceDescriptor) (_msg : IbMessage) :
    List LogCall :=
  logger

/-- A call `TraceTx(logger, addr, msg)`. The overload for `LogMsg` takes a pointer
to a non-const endpoint, so it is viable only when the message is a `LogMsg` and
the argument `addr` is not a pointer to const; every other call goes to the
template. -/
def TraceTx (addrIsConst : Bool) (logger : List LogCall) (addr : ServiceDescriptor)
    (msg : IbMessage) : List LogCall :=
  if msg.kind = MessageKind.LogMsg ∧ addrIsConst = false then TraceTx_LogMsg logger addr msg
  else TraceTx_template logger addr msg

/-- Embeds `ComAdapter::SendIbMessageImpl(from, msg)`; `from` is a
`const IIbServiceEndpoint*`. -/
def SendIbMessageImpl (self : ComAdapter) (sender : ServiceDescriptor) (msg : IbMessage) :
    ComAdapter :=
  { self with
    _logger := TraceTx true self._logger sender msg
    _ibConnection := self._ibConnection ++ [ConnectionCall.SendIbMessage sender msg] }

/-- Embeds `ComAdapter::SendIbMessageImpl(from, targetParticipantName, msg)`; `from` is
a `const IIbServiceEndpoint*`. -/
def SendIbMessageImplTo (self : ComAdapter) (sender : ServiceDescriptor)
    (targetParticipantName : String) (msg : IbMessage) : ComAdapter :=
  { self with
    _logger := TraceTx true self._logger sender msg
    _ibConnection := self._ibConnection ++
      [ConnectionCall.SendIbMessageTo sender targetParticipantName msg] }

/-- The overloads `ComAdapter::SendIbMessage(from, msg)`, one per message type,
each with the body `SendIbMessageImpl(from, msg)`. -/
def SendIbMessage (self : ComAdapter) (sender : ServiceDescriptor) (msg : IbMessage) :
    ComAdapter :=
  self.SendIbMessageImpl sender msg

/-- The overloads `ComAdapter::SendIbMessage(from, targetParticipantName, msg)`,
one per message type. The overloads for `DataMessage`, `FunctionCall` and
`FunctionCallResponse` have the body `SendIbMessageImpl(from, msg)`, all others
the body `SendIbMessageImpl(from, targetParticipantName, msg)`. -/
def SendIbMessageTo (self : ComAdapter) (sender : ServiceDescriptor)
    (targetParticipantName : String) (msg : IbMessage) : ComAdapter :=
  match msg.kind with
  | MessageKind.DataMessage => self.SendIbMessageImpl sender msg
  | MessageKind.FunctionCall => self.SendIbMessageImpl sender msg
  | MessageKind.FunctionCallResponse => self.SendIbMessageImpl sender msg
  | _ => self.SendIbMessageImplTo sender targetParticipantName msg

/-- The targeted sends in a record of connection calls. -/
def targetedSends (calls : List ConnectionCall) :
    List (ServiceDescriptor × String × IbMessage) :=
  calls.filterMap (fun c =>
    match c with
    | ConnectionCall.SendIbMessageTo s t m => some (s, t, m)
    | _ => none)

/-- The broadcast sends in a record of connection calls. -/
def broadcastSends (calls : List ConnectionCall) : List (ServiceDescriptor × IbMessage) :=
  calls.filterMap (fun c =>
    match c with
    | ConnectionCall.SendIbMessage s m => some (s, m)
    | _ => none)

/-- The arguments of one call of `CreateController`. -/
structure CreateRequest where
  type : ControllerT
  link : cfg.Link
  serviceName : String
  serviceType : ServiceType
  supplementalData : SupplementalData
deriving DecidableEq, Repr

/-- A sequence of `CreateController` calls on one ComAdapter, in order; a call
that throws leaves the ComAdapter to the next call as it is then. -/
def CreateControllers (self : ComAdapter) : List CreateRequest → ComAdapter
  | [] => self
  | r :: rest =>
    CreateControllers
      (self.CreateController r.type r.link r.serviceName r.serviceType r.supplementalData).2 rest

/-- The service ids written into the descriptors of the controllers constructed
so far, in order of construction. -/
def serviceIds (self : ComAdapter) : List Nat :=
  self.constructed.map (fun c => c.descriptor.serviceId)

/-- Modelled from the spec: the state of a ComAdapter after its constructor. The
member initialiser of `_localEndpointId` is in `ComAdapter.hpp`, which is not
among the sources; the spec says that service ids start at 1. No controller
exists yet, nothing was sent, logged or announced. -/
def init (participantName : String) (links : List cfg.Link) (traceSinks : List String) :
    ComAdapter :=
  { _participantName := participantName
    links := links
    _traceSinks := traceSinks
    _localEndpointId := 1
    _controllers := []
    constructed := []
    _ibConnection := []
    announced := []
    addedSinks := []
    _logger := [] }

/-- A ComAdapter with the link `CAN1` and the trace sink `Sink1`, used in the
examples. -/
def example1 : ComAdapter :=
  init "P1" [{ id := 1, name := "CAN1", type := cfg.LinkType.CAN, historyLength := 0 }] ["Sink1"]

/-- The class `can::CanControllerFacade` as a template argument. -/
def canControllerFacadeT : ControllerT :=
  { className := "CanControllerFacade", mapName := "ICanController", isTraceSource := true }

/-- A request for a CAN controller named `CanCtrl` on the link `CAN1`. -/
def canRequest : CreateRequest :=
  { type := canControllerFacadeT
    link := { id := 1, name := "CAN1", type := cfg.LinkType.CAN, historyLength := 0 }
    serviceName := "CanCtrl"
    serviceType := ServiceType.Controller
    supplementalData := [("controllerType", "controllerTypeCan")] }

/-- A list of 65537 requests for CAN controllers with the distinct names `CanCtrl0`,
`CanCtrl1`, ... on the link `CAN1`. -/
def manyRequests : List CreateRequest :=
  (List.range 65537).map (fun i => { canRequest with serviceName := "CanCtrl" ++ toString i })

/-- The service-id counter and the ids given out so far, for a ComAdapter whose
counter started at 1: the id of the k-th controller constructed (from 0) is
`(1 + k) mod 2^16`. -/
def CounterInv (s : ComAdapter) : Prop :=
  s.serviceIds = (List.range s.constructed.length).map (fun k => (1 + k) % 2 ^ endpointIdBits)
    ∧ s._localEndpointId = (1 + s.constructed.length) % 2 ^ endpointIdBits

end ComAdapter

end mw
end ib


/-! ## `SilKit/source/core/sync/SyncSerdes.cpp` -/

namespace SilKit
namespace Core

/-- Modelled from the spec: `SilKit::Core::MessageBuffer`, declared in
`MessageBuffer.hpp`, which is not among the sources. The spec describes the
wire form of a message as a stream of bytes that is written field after field
and read back in the same direction; the buffer is the sequence of bytes that
were written and are not yet read. -/
abbrev MessageBuffer := List Nat

/-- The pair of `MessageBuffer` operators `<<` and `>>` for one primitive type,
also declared in `MessageBuffer.hpp`: the bytes that `<<` appends for a value,
and what `>>` reads from the front of the unread bytes, with the bytes that
remain (`none` when `>>` throws). They are parameters of the embedding. -/
structure Primitive (α : Type) where
  bytes : α → List Nat
  parse : List Nat → Option (α × List Nat)

namespace Primitive

/-- The operator `buffer << value`. -/
def write {α : Type} (p : Primitive α) (buffer : MessageBuffer) (value : α) : MessageBuffer :=
  buffer ++ p.bytes value

/-- The operator `buffer >> value`. -/
def read {α : Type} (p : Primitive α) (buffer : MessageBuffer) : Option (α × MessageBuffer) :=
  p.parse buffer

/-- The primitive round-trips: reading what was written for a value gives the
value back and leaves what follows it. -/
def RoundTrips {α : Type} (p : Primitive α) : Prop :=
  ∀ (value : α) (rest : List Nat), p.parse (p.bytes value ++ rest) = some (value, rest)

end Primitive

namespace Orchestration

/-- Modelled from the spec: the participant states of the spec (data model,
participant state); the enum is declared in a header that is not among the
sources. -/
inductive ParticipantState where
  | Invalid | ServicesCreated | CommunicationInitializing | CommunicationInitialized
  | ReadyToRun | Running | Paused | Stopping | Stopped | Error | ShuttingDown | Shutdown
  | Aborting
deriving DecidableEq, Repr

/-- Modelled from the spec: the kinds of `ParticipantCommand` named by the spec
(`Initialize`, `Restart`, `Shutdown`) and `Invalid`; the enum is declared in a
header that is not among the sources. -/
inductive ParticipantCommandKind where
  | Invalid | Initialize | Restart | Shutdown
deriving DecidableEq, Repr

/-- Modelled from the spec: the kinds of `SystemCommand` named by the spec (`Run`,
`Stop`, `Shutdown`, `AbortSimulation`) and `Invalid`; the enum is declared in a
header that is not among the sources. -/
inductive SystemCommandKind where
  | Invalid | Run | Stop | Shutdown | AbortSimulation
deriving DecidableEq, Repr

/-- Embeds `NextSimTask`: the fields written by `SyncSerdes.cpp`, both durations in
nanoseconds. -/
structure NextSimTask where
  timePoint : Int
  duration : Int
deriving DecidableEq, Repr

/-- Embeds `ParticipantCommand`: the fields written by `SyncSerdes.cpp`. -/
structure ParticipantCommand where
  participant : Nat
  kind : ParticipantCommandKind
deriving DecidableEq, Repr

/-- Embeds `SystemCommand`: the field written by `SyncSerdes.cpp`. -/
structure SystemCommand where
  kind : SystemCommandKind
deriving DecidableEq, Repr

/-- Embeds `ParticipantStatus`: the fields written by `SyncSerdes.cpp`; the two time
points count nanoseconds. -/
structure ParticipantStatus where
  participantName : String
  state : ParticipantState
  enterReason : String
  enterTime : Int
  refreshTime : Int
deriving DecidableEq, Repr

/-- Embeds `WorkflowConfiguration`: the field written by `SyncSerdes.cpp`. -/
structure WorkflowConfiguration where
  requiredParticipantNames : List String
deriving DecidableEq, Repr

/-- The `MessageBuffer` primitives that `SyncSerdes.cpp` uses: integers, the
three enums, strings, durations, time points and lists of strings. -/
structure Primitives where
  integer : Primitive Nat
  participantCommandKind : Primitive ParticipantCommandKind
  systemCommandKind : Primitive SystemCommandKind
  participantState : Primitive ParticipantState
  string : Primitive String
  duration : Primitive Int
  timePoint : Primitive Int
  stringList : Primitive (List String)

/-- Every primitive round-trips. -/
def Primitives.RoundTrip (P : Primitives) : Prop :=
  P.integer.RoundTrips ∧ P.participantCommandKind.RoundTrips ∧ P.systemCommandKind.RoundTrips
    ∧ P.participantState.RoundTrips ∧ P.string.RoundTrips ∧ P.duration.RoundTrips
    ∧ P.timePoint.RoundTrips ∧ P.stringList.RoundTrips

/-- Embeds `operator<<(MessageBuffer&, const NextSimTask&)`. -/
def writeNextSimTask (P : Primitives) (buffer : MessageBuffer) (task : NextSimTask) :
    MessageBuffer :=
  P.duration.write (P.duration.write buffer task.timePoint) task.duration

/-- Embeds `operator>>(MessageBuffer&, NextSimTask&)`. -/
def readNextSimTask (P : Primitives) (buffer : MessageBuffer) :
    Option (NextSimTask × MessageBuffer) :=
  match P.duration.read buffer with
  | none => none
  | some (timePoint, b1) =>
    match P.duration.read b1 with
    | none => none
    | some (duration, b2) => some ({ timePoint := timePoint, duration := duration }, b2)

/-- Embeds `operator<<(MessageBuffer&, const ParticipantCommand&)`. -/
def writeParticipantCommand (P : Primitives) (buffer : MessageBuffer) (cmd : ParticipantCommand) :
    MessageBuffer :=
  P.participantCommandKind.write (P.integer.write buffer cmd.participant) cmd.kind

/-- Embeds `operator>>(MessageBuffer&, ParticipantCommand&)`. -/
def readParticipantCommand (P : Primitives) (buffer : MessageBuffer) :
    Option (ParticipantCommand × MessageBuffer) :=
  match P.integer.read buffer with
  | none => none
  | some (participant, b1) =>
    match P.participantCommandKind.read b1 with
    | none => none
    | some (kind, b2) => some ({ participant := participant, kind := kind }, b2)

/-- Embeds `operator<<(MessageBuffer&, const SystemCommand&)`. -/
def writeSystemCommand (P : Primitives) (buffer : MessageBuffer) (cmd : SystemCommand) :
    MessageBuffer :=
  P.systemCommandKind.write buffer cmd.kind

/-- Embeds `operator>>(MessageBuffer&, SystemCommand&)`. -/
def readSystemCommand (P : Primitives) (buffer : MessageBuffer) :
    Option (SystemCommand × MessageBuffer) :=
  match P.systemCommandKind.read buffer with
  | none => none
  | some (kind, b1) => some ({ kind := kind }, b1)

/-- Embeds `operator<<(MessageBuffer&, const ParticipantStatus&)`. -/
def writeParticipantStatus (P : Primitives) (buffer : MessageBuffer) (status : ParticipantStatus) :
    MessageBuffer :=
  P.timePoint.write
    (P.timePoint.write
      (P.string.write
        (P.participantState.write (P.string.write buffer status.participantName) status.state)
        status.enterReason)
      status.enterTime)
    status.refreshTime

/-- Embeds `operator>>(MessageBuffer&, ParticipantStatus&)`. -/
def readParticipantStatus (P : Primitives) (buffer : MessageBuffer) :
    Option (ParticipantStatus × MessageBuffer) :=
  match P.string.read buffer with
  | none => none
  | some (participantName, b1) =>
    match P.participantState.read b1 with
    | none => none
    | some (state, b2) =>
      match P.string.read b2 with
      | none => none
      | some (enterReason, b3) =>
        match P.timePoint.read b3 with
        | none => none
        | some (enterTime, b4) =>
          match P.timePoint.read b4 with
          | none => none
          | some (refreshTime, b5) =>
            some ({ participantName := participantName, state := state,
                    enterReason := enterReason, enterTime := enterTime,
                    refreshTime := refreshTime }, b5)

/-- Embeds `operator<<(MessageBuffer&, const WorkflowConfiguration&)`. -/
def writeWorkflowConfiguration (P : Primitives) (buffer : MessageBuffer)
    (workflowConfiguration : WorkflowConfiguration) : MessageBuffer :=
  P.stringList.write buffer workflowConfiguration.requiredParticipantNames

/-- Embeds `operator>>(MessageBuffer&, WorkflowConfiguration&)`. -/
def readWorkflowConfiguration (P : Primitives) (buffer : MessageBuffer) :
    Option (WorkflowConfiguration × MessageBuffer) :=
  match P.stringList.read buffer with
  | none => none
  | some (names, b1) => some ({ requiredParticipantNames := names }, b1)

/-- The messages that `SyncSerdes.cpp` serialises. -/
inductive Message where
  | participantCommand (msg : ParticipantCommand)
  | systemCommand (msg : SystemCommand)
  | participantStatus (msg : ParticipantStatus)
  | workflowConfiguration (msg : WorkflowConfiguration)
  | nextSimTask (msg : NextSimTask)
deriving DecidableEq, Repr

/-- The overloads of `Serialize(MessageBuffer&, const T&)`: each is `buffer << msg`. -/
def Serialize (P : Primitives) (buffer : MessageBuffer) : Message → MessageBuffer
  | .participantCommand msg => writeParticipantCommand P buffer msg
  | .systemCommand msg => writeSystemCommand P buffer msg
  | .participantStatus msg => writeParticipantStatus P buffer msg
  | .workflowConfiguration msg => writeWorkflowConfiguration P buffer msg
  | .nextSimTask msg => writeNextSimTask P buffer msg

/-- The overloads of `Deserialize(MessageBuffer&, T&)`, selected by the type of
the message that is asked for: each is `buffer >> out`. -/
inductive MessageType where
  | participantCommand | systemCommand | participantStatus | workflowConfiguration | nextSimTask
deriving DecidableEq, Repr

/-- The type of a message. -/
def Message.type : Message → MessageType
  | .participantCommand _ => .participantCommand
  | .systemCommand _ => .systemCommand
  | .participantStatus _ => .participantStatus
  | .workflowConfiguration _ => .workflowConfiguration
  | .nextSimTask _ => .nextSimTask

/-- Embeds `Deserialize(MessageBuffer&, T& out)` for the message type `T`. -/
def Deserialize (P : Primitives) (buffer : MessageBuffer) :
    MessageType → Option (Message × MessageBuffer)
  | .participantCommand =>
    (readParticipantCommand P buffer).map (fun r => (Message.participantCommand r.1, r.2))
  | .systemCommand =>
    (readSystemCommand P buffer).map (fun r => (Message.systemCommand r.1, r.2))
  | .participantStatus =>
    (readParticipantStatus P buffer).map (fun r => (Message.participantStatus r.1, r.2))
  | .workflowConfiguration =>
    (readWorkflowConfiguration P buffer).map (fun r => (Message.workflowConfiguration r.1, r.2))
  | .nextSimTask =>
    (readNextSimTask P buffer).map (fun r => (Message.nextSimTask r.1, r.2))

/-! A concrete set of primitives, used to run the serialisation on examples. -/

/-- One cell that holds the number. -/
def natPrimitive : Primitive Nat :=
  { bytes := fun n => [n]
    parse := fun buffer =>
      match buffer with
      | [] => none
      | x :: rest => some (x, rest) }

/-- A sign cell followed by the magnitude. -/
def intPrimitive : Primitive Int :=
  { bytes := fun i => [if i < 0 then 1 else 0, i.natAbs]
    parse := fun buffer =>
      match buffer with
      | s :: m :: rest => some (if s = 1 then -(m : Int) else (m : Int), rest)
      | _ => none }

/-- A length cell followed by the code points of the characters. -/
def stringPrimitive : Primitive String :=
  { bytes := fun s => s.length :: s.data.map Char.toNat
    parse := fun buffer =>
      match buffer with
      | [] => none
      | n :: rest =>
        if n ≤ rest.length then some (String.mk ((rest.take n).map Char.ofNat), rest.drop n)
        else none }

/-- Reads `n` strings one after the other. -/
def parseStrings : Nat → List Nat → Option (List String × List Nat)
  | 0, buffer => some ([], buffer)
  | n + 1, buffer =>
    match stringPrimitive.parse buffer with
    | none => none
    | some (s, rest) =>
      match parseStrings n rest with
      | none => none
      | some (l, rest') => some (s :: l, rest')

/-- A count cell followed by the strings. -/
def stringListPrimitive : Primitive (List String) :=
  { bytes := fun l => l.length :: (l.map stringPrimitive.bytes).flatten
    parse := fun buffer =>
      match buffer with
      | [] => none
      | n :: rest => parseStrings n rest }

/-- The position of a participant state in the enumeration. -/
def ParticipantState.position : ParticipantState → Nat
  | .Invalid => 0 | .ServicesCreated => 1 | .CommunicationInitializing => 2
  | .CommunicationInitialized => 3 | .ReadyToRun => 4 | .Running => 5 | .Paused => 6
  | .Stopping => 7 | .Stopped => 8 | .Error => 9 | .ShuttingDown => 10 | .Shutdown => 11
  | .Aborting => 12

/-- The participant state at a position of the enumeration. -/
def ParticipantState.atPosition : Nat → Option ParticipantState
  | 0 => some .Invalid | 1 => some .ServicesCreated | 2 => some .CommunicationInitializing
  | 3 => some .CommunicationInitialized | 4 => some .ReadyToRun | 5 => some .Running
  | 6 => some .Paused | 7 => some .Stopping | 8 => some .Stopped | 9 => some .Error
  | 10 => some .ShuttingDown | 11 => some .Shutdown | 12 => some .Aborting | _ => none

/-- The position of a command kind in the enumeration. -/
def ParticipantCommandKind.position : ParticipantCommandKind → Nat
  | .Invalid => 0 | .Initialize => 1 | .Restart => 2 | .Shutdown => 3

/-- The command kind at a position of the enumeration. -/
def ParticipantCommandKind.atPosition : Nat → Option ParticipantCommandKind
  | 0 => some .Invalid | 1 => some .Initialize | 2 => some .Restart | 3 => some .Shutdown
  | _ => none

/-- The position of a command kind in the enumeration. -/
def SystemCommandKind.position : SystemCommandKind → Nat
  | .Invalid => 0 | .Run => 1 | .Stop => 2 | .Shutdown => 3 | .AbortSimulation => 4

/-- The command kind at a position of the enumeration. -/
def SystemCommandKind.atPosition : Nat → Option SystemCommandKind
  | 0 => some .Invalid | 1 => some .Run | 2 => some .Stop | 3 => some .Shutdown
  | 4 => some .AbortSimulation | _ => none

/-- One cell that holds the position of an enum value. -/
def enumPrimitive {α : Type} (toNat : α → Nat) (ofNat : Nat → Option α) : Primitive α :=
  { bytes := fun a => [toNat a]
    parse := fun buffer =>
      match buffer with
      | [] => none
      | x :: rest => (ofNat x).map (fun a => (a, rest)) }

/-- The concrete primitives. -/
def examplePrimitives : Primitives :=
  { integer := natPrimitive
    participantCommandKind := enumPrimitive ParticipantCommandKind.position ParticipantCommandKind.atPosition
    systemCommandKind := enumPrimitive SystemCommandKind.position SystemCommandKind.atPosition
    participantState := enumPrimitive ParticipantState.position ParticipantState.atPosition
    string := stringPrimitive
    duration := intPrimitive
    timePoint := intPrimitive
    stringList := stringListPrimitive }

/-- A participant status used in the examples. -/
def exampleStatus : ParticipantStatus :=
  { participantName := "P1", state := ParticipantState.Running, enterReason := "run",
    enterTime := 5, refreshTime := -7 }

end Orchestration
end Core
end SilKit

/-! ## Service discovery (`ib::mw::service::ServiceDiscovery`)

`ServiceDiscovery.cpp` is not among the sources; only the interface
`IServiceDiscovery.hpp` and the test `ServiceDiscoveryTest.cpp` are. -/

namespace ib
namespace mw
namespace service

/-- Embeds `ServiceDiscoveryEvent::Type`. -/
inductive EventType where
  | ServiceCreated | ServiceRemoved
deriving DecidableEq, Repr

/-- Embeds `ServiceDiscoveryEvent`. -/
structure ServiceDiscoveryEvent where
  type : EventType
  service : ServiceDescriptor
deriving DecidableEq, Repr

/-- One invocation of a registered discovery handler: which handler (its position
in the order of registration), and the arguments it was called with. -/
structure HandlerCall where
  handler : Nat
  type : EventType
  service : ServiceDescriptor
deriving DecidableEq, Repr

/-- Modelled from the spec: the state of the service discovery of one participant,
whose implementation `ServiceDiscovery.cpp` is missing. It keeps the local index
of the services the participant created, the local epoch, the remote index of
the services announced by others, and the number of registered handlers; `sent`
records the events it broadcasts through the ComAdapter and `calls` the handler
invocations, both in order. -/
structure ServiceDiscovery where
  participantName : String
  handlers : Nat
  localIndex : List ServiceDescriptor
  epoch : Nat
  remoteIndex : List ServiceDescriptor
  sent : List ServiceDiscoveryEvent
  calls : List HandlerCall
deriving DecidableEq, Repr

namespace ServiceDiscovery

/-- Modelled from the spec: the constructor `ServiceDiscovery(comAdapter,
participantName)` of the missing implementation; nothing is indexed, registered
or sent yet. -/
def create (participantName : String) : ServiceDiscovery :=
  { participantName := participantName, handlers := 0, localIndex := [], epoch := 0,
    remoteIndex := [], sent := [], calls := [] }

/-- Modelled from the spec: `RegisterServiceDiscoveryHandler` of the missing
implementation; the handler is added behind the handlers registered before. -/
def RegisterServiceDiscoveryHandler (self : ServiceDiscovery) : ServiceDiscovery :=
  { self with handlers := self.handlers + 1 }

/-- Modelled from the spec: the invocation of every registered discovery handler,
in registration order (part of the missing implementation). -/
def callHandlers (self : ServiceDiscovery) (type : EventType) (d : ServiceDescriptor) :
    ServiceDiscovery :=
  { self with
    calls := self.calls ++
      (List.range self.handlers).map (fun h => { handler := h, type := type, service := d }) }

/-- Modelled from the spec: `NotifyServiceCreated` of the missing implementation.
The spec: the discovery component inserts the descriptor into the local index,
increments the local epoch, and broadcasts a `ServiceDiscoveryEvent` with
`Created` and the descriptor to all connected peers. -/
def NotifyServiceCreated (self : ServiceDiscovery) (d : ServiceDescriptor) : ServiceDiscovery :=
  { self with
    localIndex := self.localIndex ++ [d]
    epoch := self.epoch + 1
    sent := self.sent ++ [{ type := EventType.ServiceCreated, service := d }] }

/-- Modelled from the spec: `ReceiveIbMessage(from, ServiceDiscoveryEvent)` of the
missing implementation. The spec: on receiving a `Created`, the component
inserts the descriptor into the remote index and invokes every registered
discovery handler; a duplicate `Created` for an already-indexed descriptor is
suppressed; a `Removed` deletes the entry and fires handlers; a `Removed` for an
unknown descriptor is ignored. -/
def ReceiveIbMessage (self : ServiceDiscovery) (_sender : ServiceDescriptor)
    (msg : ServiceDiscoveryEvent) : ServiceDiscovery :=
  match msg.type with
  | EventType.ServiceCreated =>
    if msg.service ∈ self.remoteIndex then self
    else
      callHandlers { self with remoteIndex := self.remoteIndex ++ [msg.service] }
        EventType.ServiceCreated msg.service
  | EventType.ServiceRemoved =>
    if msg.service ∈ self.remoteIndex then
      callHandlers { self with remoteIndex := self.remoteIndex.filter (fun d => d ≠ msg.service) }
        EventType.ServiceRemoved msg.service
    else self

/-- The descriptor of the service discovery of `ParticipantA` in the test
`service_creation_notification`. -/
def senderDescriptor : ServiceDescriptor :=
  { participantName := "ParticipantA", networkName := "Link1", serviceName := "ServiceDiscovery",
    networkType := cfg.LinkType.Undefined, serviceId := 0, serviceType := ServiceType.Undefined,
    supplementalData := [] }

/-- The descriptor that the test receives from the other participant. -/
def otherDescriptor : ServiceDescriptor :=
  { senderDescriptor with participantName := "ParticipantOther" }

/-- The discovery of the test `service_creation_notification`: `ParticipantA` with
two registered handlers. -/
def testDiscovery : ServiceDiscovery :=
  ((create "ParticipantA").RegisterServiceDiscoveryHandler).RegisterServiceDiscoveryHandler

end ServiceDiscovery
end service
end mw
end ib

/-! ## Participant controller (`ib::mw::sync::ParticipantController`)

`ParticipantController.cpp` is not among the sources; only the test
`ParticipantControllerTest.cpp` is. -/

namespace ib
namespace mw
namespace sync

/-- Modelled from the spec: the participant states; the names are those that
`ParticipantControllerTest.cpp` uses, with `Paused` from the spec. The enum is
declared in a header that is not among the sources. -/
inductive ParticipantState where
  | Invalid | Idle | Initializing | Initialized | Running | Paused | Stopping | Stopped
  | Error | ShuttingDown | Shutdown
deriving DecidableEq, Repr

/-- Modelled from the spec: the kinds of `SystemCommand` that the test sends. -/
inductive SystemCommandKind where
  | Invalid | Run | Stop | Shutdown
deriving DecidableEq, Repr

/-- Embeds `SystemCommand`. -/
structure SystemCommand where
  kind : SystemCommandKind
deriving DecidableEq, Repr

/-- Embeds `ParticipantStatus` without its two time stamps, which are wall-clock times. -/
structure ParticipantStatus where
  participantName : String
  state : ParticipantState
  enterReason : String
deriving DecidableEq, Repr

/-- What a user-supplied handler does, as far as the controller is concerned: it
calls `ReportError` on the controller, or it does work of its own. -/
inductive HandlerAction where
  | ReportError (errorMsg : String)
  | Work
deriving DecidableEq, Repr

/-- The error message of a `ReportError` action. -/
def HandlerAction.reported : HandlerAction → Option String
  | .ReportError errorMsg => some errorMsg
  | .Work => none

/-- Modelled from the spec: the state of a participant controller, whose
implementation `ParticipantController.cpp` is missing: its current status, the
stop handler if one is set (the actions it performs, in order), and the
statuses it has published with `SendIbMessage`, in order. -/
structure ParticipantController where
  status : ParticipantStatus
  stopHandler : Option (List HandlerAction)
  sent : List ParticipantStatus
deriving DecidableEq, Repr

namespace ParticipantController

/-- Embeds `ParticipantController::State`. -/
def State (self : ParticipantController) : ParticipantState :=
  self.status.state

/-- Modelled from the spec: a transition of the missing implementation. The spec:
any transition emits a fresh `ParticipantStatus` with the name, the state and
the enter reason on the bus before invoking user hooks. -/
def ChangeState (self : ParticipantController) (newState : ParticipantState)
    (reason : String) : ParticipantController :=
  let status : ParticipantStatus :=
    { participantName := self.status.participantName, state := newState, enterReason := reason }
  { self with status := status, sent := self.sent ++ [status] }

/-- Modelled from the spec: `ReportError` of the missing implementation, the
out-of-band transition to `Error`. -/
def ReportError (self : ParticipantController) (errorMsg : String) : ParticipantController :=
  self.ChangeState ParticipantState.Error errorMsg

/-- Runs the actions of a user handler on the controller. -/
def runHandler (self : ParticipantController) : List HandlerAction → ParticipantController
  | [] => self
  | HandlerAction.ReportError errorMsg :: rest => runHandler (self.ReportError errorMsg) rest
  | HandlerAction.Work :: rest => runHandler self rest

/-- Modelled from the spec: `SetStopHandler` of the missing implementation. -/
def SetStopHandler (self : ParticipantController) (handler : List HandlerAction) :
    ParticipantController :=
  { self with stopHandler := some handler }

/-- Modelled from the spec: `Stop` of the missing implementation. The controller
enters `Stopping`, runs the stop hook, and then enters `Stopped`; the spec:
stop hooks that themselves call `ReportError` leave the state at `Error`, not
`Stopped`. -/
def Stop (self : ParticipantController) (reason : String) : ParticipantController :=
  let stopping := self.ChangeState ParticipantState.Stopping reason
  let afterHook :=
    match stopping.stopHandler with
    | some handler => stopping.runHandler handler
    | none => stopping
  if afterHook.State = ParticipantState.Error then afterHook
  else afterHook.ChangeState ParticipantState.Stopped reason

/-- Modelled from the spec: `ReceiveIbMessage(from, SystemCommand)` of the missing
implementation. The spec: transitions must follow the order of the states, and
any deviation forces the state to `Error` with an enter reason that names the
attempted transition; `Run` leads from the initialised state to `Running`
and `Stop` is handled in `Running`. -/
def ReceiveIbMessage (self : ParticipantController) (command : SystemCommand) :
    ParticipantController :=
  match command.kind with
  | SystemCommandKind.Run =>
    if self.State = ParticipantState.Initialized then
      self.ChangeState ParticipantState.Running "Received SystemCommand::Run"
    else
      self.ReportError "Received SystemCommand::Run in an invalid state"
  | SystemCommandKind.Stop =>
    if self.State = ParticipantState.Running then
      self.Stop "Received SystemCommand::Stop"
    else
      self.ReportError "Received SystemCommand::Stop in an invalid state"
  | _ => self

/-- The controller of the test `dont_switch_to_stopped_if_stop_handler_reported_an_error`
when the stop command arrives: participant `SUT` in state `Running`,
with a stop handler that calls `ReportError`. -/
def testController : ParticipantController :=
  { status := { participantName := "SUT", state := ParticipantState.Running,
                enterReason := "Received SystemCommand::Run" }
    stopHandler := some [HandlerAction.ReportError "StopHandlerFailed!!"]
    sent := [] }

end ParticipantController
end sync
end mw
end ib

/-! ## `IntegrationBus/source/cfg/YamlConversion.cpp` -/

namespace YAML

/-- A valid yaml-cpp node: null, a scalar, a sequence or a map with string keys. -/
inductive Node where
  | Null
  | Scalar (value : String)
  | Sequence (items : List Node)
  | Map (entries : List (String × Node))

/-- The exceptions of the conversion: `ConversionError` of the configuration
layer, with its message, and the exceptions of yaml-cpp. -/
inductive Exception where
  | ConversionError (msg : String)
  | BadSubscript
  | InvalidNode
deriving DecidableEq, Repr

namespace Node

/-- Embeds `Node::IsMap`. -/
def IsMap : Node → Bool
  | Map _ => true
  | _ => false

/-- Embeds `Node::IsScalar`. -/
def IsScalar : Node → Bool
  | Scalar _ => true
  | _ => false

/-- The child of a node under a key when the node is a map that has the key (the
first entry with that key); in every other case the node has no such child. -/
def find? : Node → String → Option Node
  | Map entries, key => entries.lookup key
  | _, _ => none

/-- Embeds `node[key]` on a const node with a string key: a scalar cannot be indexed
(yaml-cpp throws `BadSubscript`); for the other nodes the result is the child,
or an undefined node (`none`) when there is no such child. -/
def index : Node → String → Except Exception (Option Node)
  | Scalar _, _ => .error Exception.BadSubscript
  | node, key => .ok (node.find? key)

end Node

/-- The conversions that come from yaml-cpp and from `YamlConversion.hpp`, neither
of which is among the sources, and the default-constructed configuration
objects of `ParticipantConfiguration.hpp`, also not among the sources. They are
parameters of the embedding: the conversion of the text of a scalar to `int`,
to the integer type of the port and to `bool`, the string that a null node
converts to (`none` when that conversion throws), and the values of `Sink` and
`Logging` after default construction. -/
structure Externals (Sink Logging : Type) where
  asInt : String → Option Int
  asPort : String → Option Nat
  asBool : String → Option Bool
  nullAsString : Option String
  defaultSink : Sink
  defaultLogging : Logging

/-- Embeds `parse_as<std::string>(node)` on a defined node, as yaml-cpp converts to
`std::string`: the text of a scalar; a sequence or a map is not convertible and
the conversion throws. What a null node gives is a parameter. -/
def parse_as_string (nullAsString : Option String) : Node → Except Exception String
  | Node.Scalar value => .ok value
  | Node.Null =>
    match nullAsString with
    | some s => .ok s
    | none => .error (Exception.ConversionError "Cannot convert YAML to string")
  | _ => .error (Exception.ConversionError "Cannot convert YAML to string")

/-- Embeds `parse_as<T>(node)` on a defined node for `bool` or an integer type `T`: the
node must be a scalar, and its text must convert. -/
def parse_as_scalar {α : Type} (conv : String → Option α) : Node → Except Exception α
  | Node.Scalar value =>
    match conv value with
    | some a => .ok a
    | none => .error (Exception.ConversionError "Cannot convert YAML to a scalar value")
  | _ => .error (Exception.ConversionError "Cannot convert YAML to a scalar value")

/-- Embeds `optional_decode(value, node, fieldName)`, a helper template of
`YamlConversion.hpp` (not among the sources): if the node is a map and has the
field, the value is replaced by `parse_as<T>` of the field; if not, the value
stays as it is. -/
def optional_decode {α : Type} (parse : Node → Except Exception α) (value : α) (node : Node)
    (fieldName : String) : Except Exception α :=
  if node.IsMap then
    match node.find? fieldName with
    | some child => parse child
    | none => .ok value
  else .ok value

end YAML

namespace ib
namespace cfg

open YAML

/-- Embeds `Sink::Type`. -/
inductive SinkType where
  | Remote | Stdout | File
deriving DecidableEq, Repr

/-- Embeds `mw::logging::Level`. -/
inductive Level where
  | Critical | Error | Warn | Info | Debug | Trace | Off
deriving DecidableEq, Repr

/-- Embeds `Sink`. -/
structure Sink where
  type : SinkType
  level : Level
  logName : String
deriving DecidableEq, Repr

/-- Embeds `Logging`. -/
structure Logging where
  logFromRemotes : Bool
  flushLevel : Level
  sinks : List Sink
deriving DecidableEq, Repr

/-- Embeds `Registry`. -/
structure Registry where
  hostname : String
  port : Nat
  logging : Logging
  connectAttempts : Int
deriving DecidableEq, Repr

/-- The parameters of the embedding for the configuration types. -/
abbrev Env := Externals Sink Logging

/-- Embeds `Converter::decode(const Node&, Sink::Type&)`. -/
def decodeSinkType (node : Node) : Except YAML.Exception SinkType :=
  match node with
  | Node.Scalar str =>
    if str = "Remote" ∨ str = "" then .ok SinkType.Remote
    else if str = "Stdout" then .ok SinkType.Stdout
    else if str = "File" then .ok SinkType.File
    else .error (Exception.ConversionError ("Unknown Sink::Type: " ++ str ++ "."))
  | _ =>
    .error (Exception.ConversionError "Sink::Type should be a string of Remote|Stdout|File.")

/-- Embeds `Converter::decode(const Node&, mw::logging::Level&)`. -/
def decodeLevel (node : Node) : Except YAML.Exception Level :=
  match node with
  | Node.Scalar str =>
    if str = "Critical" then .ok Level.Critical
    else if str = "Error" then .ok Level.Error
    else if str = "Warn" then .ok Level.Warn
    else if str = "Info" then .ok Level.Info
    else if str = "Debug" then .ok Level.Debug
    else if str = "Trace" then .ok Level.Trace
    else if str = "Off" then .ok Level.Off
    else .error (Exception.ConversionError ("Unknown mw::logging::Level: " ++ str ++ "."))
  | _ =>
    .error (Exception.ConversionError
      "Level should be a string of Critical|Error|Warn|Info|Debug|Trace|Off.")

/-- Embeds `Converter::decode(const Node&, Sink&)`. -/
def decodeSink (E : Env) (node : Node) (obj : Sink) : Except YAML.Exception Sink :=
  match optional_decode decodeSinkType obj.type node "Type" with
  | .error e => .error e
  | .ok type =>
    match optional_decode decodeLevel obj.level node "Level" with
    | .error e => .error e
    | .ok level =>
      if type = SinkType.File then
        match node.index "LogName" with
        | .error e => .error e
        | .ok none =>
          .error (Exception.ConversionError "Sink of type Sink::Type::File requires a LogName")
        | .ok (some logNameNode) =>
          match parse_as_string E.nullAsString logNameNode with
          | .error e => .error e
          | .ok logName => .ok { type := type, level := level, logName := logName }
      else
        .ok { type := type, level := level, logName := obj.logName }

/-- The loop of `parse_as<std::vector<Sink>>` over the items of a sequence: each
item is decoded into a default-constructed `Sink`. -/
def decodeSinks (E : Env) : List Node → Except YAML.Exception (List Sink)
  | [] => .ok []
  | item :: rest =>
    match decodeSink E item E.defaultSink with
    | .error e => .error e
    | .ok sink =>
      match decodeSinks E rest with
      | .error e => .error e
      | .ok sinks => .ok (sink :: sinks)

/-- Embeds `parse_as<std::vector<Sink>>(node)`: the node must be a sequence. -/
def parse_as_sinks (E : Env) : Node → Except YAML.Exception (List Sink)
  | Node.Sequence items => decodeSinks E items
  | _ => .error (Exception.ConversionError "Cannot convert YAML to a sequence")

/-- Embeds `Converter::decode(const Node&, Logging&)`. -/
def decodeLogging (E : Env) (node : Node) (obj : Logging) : Except YAML.Exception Logging :=
  match optional_decode (parse_as_scalar E.asBool) obj.logFromRemotes node "LogFromRemotes" with
  | .error e => .error e
  | .ok logFromRemotes =>
    match optional_decode decodeLevel obj.flushLevel node "FlushLevel" with
    | .error e => .error e
    | .ok flushLevel =>
      match optional_decode (parse_as_sinks E) obj.sinks node "Sinks" with
      | .error e => .error e
      | .ok sinks =>
        .ok { logFromRemotes := logFromRemotes, flushLevel := flushLevel, sinks := sinks }

/-- The four `optional_decode` calls of `Converter::decode(const Node&,
Registry&)`: the decoding of a Registry before `connectAttempts` is clamped. -/
def decodeRegistryFields (E : Env) (node : Node) (obj : Registry) :
    Except YAML.Exception Registry :=
  match optional_decode (parse_as_string E.nullAsString) obj.hostname node "Hostname" with
  | .error e => .error e
  | .ok hostname =>
    match optional_decode (parse_as_scalar E.asPort) obj.port node "Port" with
    | .error e => .error e
    | .ok port =>
      match optional_decode (fun n => decodeLogging E n E.defaultLogging) obj.logging node
          "Logging" with
      | .error e => .error e
      | .ok logging =>
        match optional_decode (parse_as_scalar E.asInt) obj.connectAttempts node
            "ConnectAttempts" with
        | .error e => .error e
        | .ok connectAttempts =>
          .ok { hostname := hostname, port := port, logging := logging,
                connectAttempts := connectAttempts }

/-- Embeds `Converter::decode(const Node&, Registry&)`. -/
def decodeRegistry (E : Env) (node : Node) (obj : Registry) : Except YAML.Exception Registry :=
  match decodeRegistryFields E node obj with
  | .error e => .error e
  | .ok obj1 =>
    if obj1.connectAttempts < 1 then .ok { obj1 with connectAttempts := 1 }
    else .ok obj1

/-! Concrete conversions, used to run the decoders on examples. -/

/-- The value of a string of decimal digits. -/
def digitsValue : List Char → Option Nat
  | [] => none
  | cs => cs.foldl (fun acc c =>
      match acc with
      | none => none
      | some n => if c.isDigit then some (10 * n + (c.toNat - 48)) else none) (some 0)

/-- A decimal integer with an optional minus sign. -/
def decimalInt (s : String) : Option Int :=
  match s.data with
  | '-' :: cs => (digitsValue cs).map (fun n => -(n : Int))
  | cs => (digitsValue cs).map (fun n => (n : Int))

/-- Concrete parameters: decimal numbers, `true` and `false`, a null node that is
not convertible to a string, a default sink of type `Remote` with level `Info`
and a default logging with flush level `Off`. -/
def exampleEnv : Env :=
  { asInt := decimalInt
    asPort := fun s => digitsValue s.data
    asBool := fun s => if s = "true" then some true else if s = "false" then some false else none
    nullAsString := none
    defaultSink := { type := SinkType.Remote, level := Level.Info, logName := "" }
    defaultLogging := { logFromRemotes := false, flushLevel := Level.Off, sinks := [] } }

/-- The Registry before decoding: the defaults named in the spec. -/
def exampleRegistry : Registry :=
  { hostname := "localhost", port := 8500, logging := exampleEnv.defaultLogging,
    connectAttempts := 9 }

/-- A Registry node with `ConnectAttempts: 0`. -/
def registryNode : Node :=
  Node.Map [("Hostname", Node.Scalar "host1"), ("Port", Node.Scalar "8501"),
    ("ConnectAttempts", Node.Scalar "0")]

/-- A sink node of type `File` whose `LogName` is a sequence. -/
def sinkNodeLogNameSequence : Node :=
  Node.Map [("Type", Node.Scalar "File"), ("Level", Node.Scalar "Info"),
    ("LogName", Node.Sequence [Node.Scalar "a.log"])]

/-- A sink node of type `File` with the `LogName` `a.log`. -/
def sinkNodeFile : Node :=
  Node.Map [("Type", Node.Scalar "File"), ("Level", Node.Scalar "Warn"),
    ("LogName", Node.Scalar "a.log")]

end cfg
end ib

/-! ## `IntegrationBus/source/cfg/YamlSchema.cpp` -/

namespace ib
namespace cfg

/-- Embeds `YamlSchemaElem`: the name of an element of the schema and its subelements. -/
inductive YamlSchemaElem where
  | mk (name : String) (subelements : List YamlSchemaElem)

namespace YamlSchemaElem

/-- The name of an element. -/
def name : YamlSchemaElem → String
  | mk n _ => n

/-- The subelements of an element. -/
def subelements : YamlSchemaElem → List YamlSchemaElem
  | mk _ subs => subs

/-- An element without subelements, written `{"Name"}` in the source. -/
def leaf (name : String) : YamlSchemaElem :=
  mk name []

/-- The names of the children of an element, in order. -/
def childNames (e : YamlSchemaElem) : List String :=
  e.subelements.map name

/-- The child of an element with the given name, if there is one. -/
def child? (e : YamlSchemaElem) (childName : String) : Option YamlSchemaElem :=
  e.subelements.find? (fun c => c.name = childName)

/-- The names of the children of the child with the given name. -/
def childNamesOf (e : YamlSchemaElem) (childName : String) : Option (List String) :=
  (e.child? childName).map childNames

end YamlSchemaElem

open YamlSchemaElem

/-- The local `replay` of `MakeYamlSchema`. -/
def replaySchema : YamlSchemaElem :=
  mk "Replay"
    [leaf "UseTraceSource",
     leaf "Direction",
     mk "MdfChannel"
       [leaf "ChannelName", leaf "ChannelSource", leaf "ChannelPath",
        leaf "GroupName", leaf "GroupSource", leaf "GroupPath"]]

/-- The local `traceSinks` of `MakeYamlSchema`. -/
def traceSinksSchema : YamlSchemaElem :=
  mk "TraceSinks" [leaf "Name", leaf "OutputPath", leaf "Type"]

/-- The local `traceSources` of `MakeYamlSchema`. -/
def traceSourcesSchema : YamlSchemaElem :=
  mk "TraceSources" [leaf "Name", leaf "InputPath", leaf "Type"]

/-- The local `logging` of `MakeYamlSchema`. -/
def loggingSchema : YamlSchemaElem :=
  mk "Logging"
    [leaf "LogFromRemotes",
     leaf "FlushLevel",
     mk "Sinks" [leaf "Type", leaf "Level", leaf "LogName"]]

/-- The local `clusterParameters` of `MakeYamlSchema`. -/
def clusterParametersSchema : YamlSchemaElem :=
  mk "ClusterParameters"
    [leaf "gColdstartAttempts", leaf "gCycleCountMax", leaf "gdActionPointOffset",
     leaf "gdDynamicSlotIdlePhase", leaf "gdMiniSlot", leaf "gdMiniSlotActionPointOffset",
     leaf "gdStaticSlot", leaf "gdSymbolWindow", leaf "gdSymbolWindowActionPointOffset",
     leaf "gdTSSTransmitter", leaf "gdWakeupTxActive", leaf "gdWakeupTxIdle",
     leaf "gListenNoise", leaf "gMacroPerCycle", leaf "gMaxWithoutClockCorrectionFatal",
     leaf "gMaxWithoutClockCorrectionPassive", leaf "gNumberOfMiniSlots",
     leaf "gNumberOfStaticSlots", leaf "gPayloadLengthStatic", leaf "gSyncFrameIDCountMax"]

/-- The local `nodeParameters` of `MakeYamlSchema`. -/
def nodeParametersSchema : YamlSchemaElem :=
  mk "NodeParameters"
    [leaf "pAllowHaltDueToClock", leaf "pAllowPassiveToActive", leaf "pChannels",
     leaf "pClusterDriftDamping", leaf "pdAcceptedStartupRange", leaf "pdListenTimeout",
     leaf "pKeySlotId", leaf "pKeySlotOnlyEnabled", leaf "pKeySlotUsedForStartup",
     leaf "pKeySlotUsedForSync", leaf "pLatestTx", leaf "pMacroInitialOffsetA",
     leaf "pMacroInitialOffsetB", leaf "pMicroInitialOffsetA", leaf "pMicroInitialOffsetB",
     leaf "pMicroPerCycle", leaf "pOffsetCorrectionOut", leaf "pOffsetCorrectionStart",
     leaf "pRateCorrectionOut", leaf "pWakeupChannel", leaf "pWakeupPattern",
     leaf "pdMicrotick", leaf "pSamplesPerMicrotick"]

/-- The local `txBufferConfigurations` of `MakeYamlSchema`. -/
def txBufferConfigurationsSchema : YamlSchemaElem :=
  mk "TxBufferConfigurations"
    [leaf "channels", leaf "slotId", leaf "offset", leaf "repetition", leaf "PPindicator",
     leaf "headerCrc", leaf "transmissionMode"]

/-- The local `ethernetControllers` of `MakeYamlSchema`. -/
def ethernetControllersSchema : YamlSchemaElem :=
  mk "EthernetControllers"
    [leaf "Name", leaf "Network", leaf "UseTraceSinks", leaf "MacAddress", leaf "PcapFile",
     leaf "PcapPipe", replaySchema]

/-- Embeds `MakeYamlSchema`: the root element `yamlSchema`, which has no name of its own. -/
def MakeYamlSchema : YamlSchemaElem :=
  mk ""
    [leaf "$schema",
     leaf "SchemaVersion",
     leaf "Description",
     leaf "ParticipantName",
     mk "CanControllers" [leaf "Name", leaf "Network", leaf "UseTraceSinks", replaySchema],
     mk "LinControllers" [leaf "Name", leaf "Network", leaf "UseTraceSinks", replaySchema],
     mk "FlexRayControllers"
       [leaf "Name", leaf "Network", leaf "UseTraceSinks", clusterParametersSchema,
        nodeParametersSchema, txBufferConfigurationsSchema, replaySchema],
     ethernetControllersSchema,
     mk "DataPublishers" [leaf "Name", leaf "UseTraceSinks", replaySchema],
     mk "DataSubscribers" [leaf "Name", leaf "UseTraceSinks", replaySchema],
     mk "RpcClients" [leaf "Name", leaf "UseTraceSinks", replaySchema],
     mk "RpcServers" [leaf "Name", leaf "UseTraceSinks", replaySchema],
     loggingSchema,
     mk "HealthCheck" [leaf "SoftResponseTimeout", leaf "HardResponseTimeout"],
     mk "Tracing" [traceSinksSchema, traceSourcesSchema],
     mk "Extensions" [leaf "SearchPathHints"],
     mk "Middleware"
       [mk "Registry" [leaf "Hostname", leaf "Port", leaf "Logging", leaf "ConnectAttempts"],
        leaf "TcpNoDelay", leaf "TcpQuickAck", leaf "TcpReceiveBufferSize",
        leaf "TcpSendBufferSize", leaf "EnableDomainSockets"]]

/-- The eight controller kinds of the configuration. -/
def controllerKinds : List String :=
  ["CanControllers", "LinControllers", "EthernetControllers", "FlexRayControllers",
   "DataPublishers", "DataSubscribers", "RpcClients", "RpcServers"]

/-- The controller kinds whose schema element has the child with the given name. -/
def kindsWithChild (childName : String) : List String :=
  controllerKinds.filter (fun kind =>
    match MakeYamlSchema.childNamesOf kind with
    | some names => decide (childName ∈ names)
    | none => false)

end cfg
end ib

/-! ## `YamlConversion.cpp`: the converters of the configuration enums -/

namespace ib
namespace cfg

open YAML

/-- The enumerators of `Replay::Direction` that the converters name. -/
inductive ReplayDirection where
  | Undefined | Send | Receive | Both
deriving DecidableEq, Repr

/-- The enumerators of `sim::fr::Channel` that the converters name. -/
inductive Channel where
  | None | A | B | AB
deriving DecidableEq, Repr

/-- The enumerators of `sim::fr::ClockPeriod` that the converters name. -/
inductive ClockPeriod where
  | T12_5NS | T25NS | T50NS
deriving DecidableEq, Repr

/-- The enumerators of `sim::fr::TransmissionMode` that the converters name. -/
inductive TransmissionMode where
  | Continuous | SingleShot
deriving DecidableEq, Repr

/-- The enumerators of `TraceSink::Type` that the converters name. -/
inductive TraceSinkType where
  | Undefined | Mdf4File | PcapFile | PcapPipe
deriving DecidableEq, Repr

/-- The enumerators of `TraceSource::Type` that the converters name. -/
inductive TraceSourceType where
  | Undefined | Mdf4File | PcapFile
deriving DecidableEq, Repr

/-- Embeds `Converter::encode(const Sink::Type&)`; the `default` branch of the
switch is taken by no enumerator. -/
def encodeSinkType : SinkType → Node
  | SinkType.Remote => Node.Scalar "Remote"
  | SinkType.Stdout => Node.Scalar "Stdout"
  | SinkType.File => Node.Scalar "File"

/-- Embeds `Converter::encode(const mw::logging::Level&)`. -/
def encodeLevel : Level → Node
  | Level.Critical => Node.Scalar "Critical"
  | Level.Error => Node.Scalar "Error"
  | Level.Warn => Node.Scalar "Warn"
  | Level.Info => Node.Scalar "Info"
  | Level.Debug => Node.Scalar "Debug"
  | Level.Trace => Node.Scalar "Trace"
  | Level.Off => Node.Scalar "Off"

/-- Embeds `Converter::encode(const Replay::Direction&)`. -/
def encodeReplayDirection : ReplayDirection → Node
  | ReplayDirection.Send => Node.Scalar "Send"
  | ReplayDirection.Receive => Node.Scalar "Receive"
  | ReplayDirection.Both => Node.Scalar "Both"
  | ReplayDirection.Undefined => Node.Scalar "Undefined"

/-- Embeds `Converter::decode(const Node&, Replay::Direction&)`. -/
def decodeReplayDirection (E : Env) (node : Node) : Except YAML.Exception ReplayDirection :=
  match parse_as_string E.nullAsString node with
  | .error e => .error e
  | .ok str =>
    if str = "Undefined" ∨ str = "" then .ok ReplayDirection.Undefined
    else if str = "Send" then .ok ReplayDirection.Send
    else if str = "Receive" then .ok ReplayDirection.Receive
    else if str = "Both" then .ok ReplayDirection.Both
    else .error (Exception.ConversionError ("Unknown Replay::Direction: " ++ str ++ "."))

/-- Embeds `Converter::encode(const sim::fr::Channel&)`. -/
def encodeChannel : Channel → Node
  | Channel.A => Node.Scalar "A"
  | Channel.B => Node.Scalar "B"
  | Channel.AB => Node.Scalar "AB"
  | Channel.None => Node.Scalar "None"

/-- Embeds `Converter::decode(const Node&, sim::fr::Channel&)`. -/
def decodeChannel (E : Env) (node : Node) : Except YAML.Exception Channel :=
  match parse_as_string E.nullAsString node with
  | .error e => .error e
  | .ok str =>
    if str = "A" then .ok Channel.A
    else if str = "B" then .ok Channel.B
    else if str = "AB" then .ok Channel.AB
    else if str = "None" ∨ str = "" then .ok Channel.None
    else .error (Exception.ConversionError ("Unknown sim::fr::Channel: " ++ str))

/-- Embeds `Converter::encode(const sim::fr::ClockPeriod&)`; the `default` branch
of the switch, which throws, is taken by no enumerator. -/
def encodeClockPeriod : ClockPeriod → Node
  | ClockPeriod.T12_5NS => Node.Scalar "12.5ns"
  | ClockPeriod.T25NS => Node.Scalar "25ns"
  | ClockPeriod.T50NS => Node.Scalar "50ns"

/-- Embeds `Converter::decode(const Node&, sim::fr::ClockPeriod&)`. -/
def decodeClockPeriod (E : Env) (node : Node) : Except YAML.Exception ClockPeriod :=
  match parse_as_string E.nullAsString node with
  | .error e => .error e
  | .ok str =>
    if str = "12.5ns" then .ok ClockPeriod.T12_5NS
    else if str = "25ns" then .ok ClockPeriod.T25NS
    else if str = "50ns" then .ok ClockPeriod.T50NS
    else .error (Exception.ConversionError ("Unknown sim::fr::ClockPeriod: " ++ str))

/-- Embeds `Converter::encode(const sim::fr::TransmissionMode&)`; the `default`
branch of the switch, which throws, is taken by no enumerator. -/
def encodeTransmissionMode : TransmissionMode → Node
  | TransmissionMode.Continuous => Node.Scalar "Continuous"
  | TransmissionMode.SingleShot => Node.Scalar "SingleShot"

/-- Embeds `Converter::decode(const Node&, sim::fr::TransmissionMode&)`. -/
def decodeTransmissionMode (E : Env) (node : Node) : Except YAML.Exception TransmissionMode :=
  match parse_as_string E.nullAsString node with
  | .error e => .error e
  | .ok str =>
    if str = "Continuous" then .ok TransmissionMode.Continuous
    else if str = "SingleShot" then .ok TransmissionMode.SingleShot
    else .error (Exception.ConversionError ("Unknown sim::fr::TransmissionMode: " ++ str))

/-- Embeds `Converter::encode(const TraceSink::Type&)`; the `default` branch of the
switch, which throws, is taken by no enumerator. -/
def encodeTraceSinkType : TraceSinkType → Node
  | TraceSinkType.Undefined => Node.Scalar "Undefined"
  | TraceSinkType.Mdf4File => Node.Scalar "Mdf4File"
  | TraceSinkType.PcapFile => Node.Scalar "PcapFile"
  | TraceSinkType.PcapPipe => Node.Scalar "PcapPipe"

/-- Embeds `Converter::decode(const Node&, TraceSink::Type&)`. -/
def decodeTraceSinkType (E : Env) (node : Node) : Except YAML.Exception TraceSinkType :=
  match parse_as_string E.nullAsString node with
  | .error e => .error e
  | .ok str =>
    if str = "Undefined" ∨ str = "" then .ok TraceSinkType.Undefined
    else if str = "Mdf4File" then .ok TraceSinkType.Mdf4File
    else if str = "PcapFile" then .ok TraceSinkType.PcapFile
    else if str = "PcapPipe" then .ok TraceSinkType.PcapPipe
    else .error (Exception.ConversionError ("Unknown TraceSink::Type: " ++ str ++ "."))

/-- Embeds `Converter::encode(const TraceSource::Type&)`; the `default` branch of
the switch, which throws, is taken by no enumerator. -/
def encodeTraceSourceType : TraceSourceType → Node
  | TraceSourceType.Undefined => Node.Scalar "Undefined"
  | TraceSourceType.Mdf4File => Node.Scalar "Mdf4File"
  | TraceSourceType.PcapFile => Node.Scalar "PcapFile"

/-- Embeds `Converter::decode(const Node&, TraceSource::Type&)`. -/
def decodeTraceSourceType (E : Env) (node : Node) : Except YAML.Exception TraceSourceType :=
  match parse_as_string E.nullAsString node with
  | .error e => .error e
  | .ok str =>
    if str = "Undefined" ∨ str = "" then .ok TraceSourceType.Undefined
    else if str = "Mdf4File" then .ok TraceSourceType.Mdf4File
    else if str = "PcapFile" then .ok TraceSourceType.PcapFile
    else .error (Exception.ConversionError ("Unknown TraceSource::Type: " ++ str ++ "."))

end cfg
end ib

/-! ## `SilKit/source/services/can/SimBehaviorTrivial.cpp` -/

namespace SilKit
namespace Services
namespace Can

/-- The states of a CAN controller (`CanControllerState`). -/
inductive CanControllerState where
  | Uninit | Stopped | Started | Sleep
deriving DecidableEq, Repr

/-- The directions of a transmission (`TransmitDirection`). -/
inductive TransmitDirection where
  | Undefined | TX | RX | TXRX
deriving DecidableEq, Repr

/-- The status of a transmission that the trivial simulation reports
(`CanTransmitStatus`). -/
inductive CanTransmitStatus where
  | Transmitted | Canceled | TransmitQueueFull
deriving DecidableEq, Repr

/-- A CAN frame (`CanFrame`). -/
structure CanFrame where
  canId : Nat
  flags : Nat
  dlc : Nat
  dataField : List Nat
deriving DecidableEq, Repr

/-- A frame event (`CanFrameEvent`); the time stamp counts nanoseconds and the user
context is the value of the pointer. -/
structure CanFrameEvent where
  transmitId : Nat
  timestamp : Int
  frame : CanFrame
  direction : TransmitDirection
  userContext : Nat
deriving DecidableEq, Repr

/-- An acknowledgement of a transmission (`CanFrameTransmitEvent`). -/
structure CanFrameTransmitEvent where
  transmitId : Nat
  canId : Nat
  timestamp : Int
  status : CanTransmitStatus
  userContext : Nat
deriving DecidableEq, Repr

/-- What `SimBehaviorTrivial::SendMsg` does to its collaborators, in order:
a trace entry of `_tracer`, a message given to the parent controller with
`ReceiveSilKitMessage`, a message sent with `_participant->SendMsg`, or a
warning written to the logger of the participant. -/
inductive Effect where
  | Trace (direction : TransmitDirection) (timestamp : Int) (msg : CanFrameEvent)
  | ReceiveFrameEvent (msg : CanFrameEvent)
  | ReceiveFrameTransmitEvent (msg : CanFrameTransmitEvent)
  | SendMsg (msg : CanFrameEvent)
  | Warn (text : String)
deriving DecidableEq, Repr

/-- Tells whether an effect is an output of the simulation: a message delivered
to the own controller or sent to the participant. -/
def Effect.isOutput : Effect → Bool
  | Effect.ReceiveFrameEvent _ => true
  | Effect.ReceiveFrameTransmitEvent _ => true
  | Effect.SendMsg _ => true
  | _ => false

/-- What `SimBehaviorTrivial` reads from its collaborators: the state of the parent
controller (`_parentController->GetState()`) and the current time of the time
provider (`_timeProvider->Now()`). -/
structure SimBehaviorTrivial where
  parentState : CanControllerState
  now : Int
deriving DecidableEq, Repr

/-- Embeds `SimBehaviorTrivial::SendMsg(CanFrameEvent&&)`. -/
def SimBehaviorTrivial.SendMsg (self : SimBehaviorTrivial) (canFrameEvent : CanFrameEvent) :
    List Effect :=
  if self.parentState = CanControllerState.Started then
    let now := self.now
    let canFrameEventCpy : CanFrameEvent :=
      { canFrameEvent with direction := TransmitDirection.TX, timestamp := now }
    let canFrameEventCpyRx : CanFrameEvent :=
      { canFrameEventCpy with direction := TransmitDirection.RX }
    let ack : CanFrameTransmitEvent :=
      { canId := canFrameEvent.frame.canId
        status := CanTransmitStatus.Transmitted
        transmitId := canFrameEvent.transmitId
        userContext := canFrameEvent.userContext
        timestamp := now }
    [Effect.Trace TransmitDirection.TX now canFrameEvent,
     Effect.ReceiveFrameEvent canFrameEventCpy,
     Effect.SendMsg canFrameEventCpyRx,
     Effect.ReceiveFrameTransmitEvent ack]
  else
    [Effect.Warn ("ICanController::SendFrame is called although can controller is not in " ++
      "state CanController::Started.")]

/-- The outputs among the effects of `SendMsg`, in order. -/
def SimBehaviorTrivial.outputs (self : SimBehaviorTrivial) (canFrameEvent : CanFrameEvent) :
    List Effect :=
  (self.SendMsg canFrameEvent).filter Effect.isOutput

/-- A frame event used in the examples. -/
def exampleFrameEvent : CanFrameEvent :=
  { transmitId := 7, timestamp := 3,
    frame := { canId := 17, flags := 0, dlc := 2, dataField := [1, 2] },
    direction := TransmitDirection.Undefined, userContext := 99 }

end Can
end Services
end SilKit

/-! ## `SilKit/source/services/lin/LinController.cpp`

The simulation behaviour (`_simulationBehavior`), the logger and the handlers
registered by the user are collaborators of the controller; each is embedded as
the ordered record of the calls the controller makes on it. -/

namespace SilKit
namespace Services
namespace Lin

/-- The values of `LinControllerMode`. -/
inductive LinControllerMode where
  | Inactive | Master | Slave
deriving DecidableEq, Repr

/-- The values of `LinControllerStatus`. -/
inductive LinControllerStatus where
  | Unknown | Operational | Sleep | SleepPending
deriving DecidableEq, Repr

/-- The values of `LinFrameResponseMode`. -/
inductive LinFrameResponseMode where
  | Unused | Rx | TxUnconditional
deriving DecidableEq, Repr

/-- The values of `LinFrameResponseType`. -/
inductive LinFrameResponseType where
  | MasterResponse | SlaveResponse | SlaveToSlave
deriving DecidableEq, Repr

/-- The values of `LinChecksumModel`. -/
inductive LinChecksumModel where
  | Undefined | Enhanced | Classic
deriving DecidableEq, Repr

/-- The values of `LinFrameStatus`. -/
inductive LinFrameStatus where
  | NOT_OK | LIN_TX_OK | LIN_TX_BUSY | LIN_TX_HEADER_ERROR | LIN_TX_ERROR
  | LIN_RX_OK | LIN_RX_BUSY | LIN_RX_ERROR | LIN_RX_NO_RESPONSE
deriving DecidableEq, Repr

/-- A LIN frame (`LinFrame`); `id` is a `LinId`, an 8-bit number. -/
structure LinFrame where
  id : Nat
  checksumModel : LinChecksumModel
  dataLength : Nat
  data : List Nat
deriving DecidableEq, Repr

/-- A frame response (`LinFrameResponse`). -/
structure LinFrameResponse where
  frame : LinFrame
  responseMode : LinFrameResponseMode
deriving DecidableEq, Repr

/-- The configuration given to `Init` (`LinControllerConfig`). -/
structure LinControllerConfig where
  controllerMode : LinControllerMode
  baudRate : Nat
  frameResponses : List LinFrameResponse
deriving DecidableEq, Repr

/-- An endpoint address: the participant and the endpoint, ordered
lexicographically. -/
abbrev EndpointAddress := Nat × Nat

/-- The order of endpoint addresses. -/
def EndpointAddress.lt (a b : EndpointAddress) : Bool :=
  decide (a.1 < b.1) || (decide (a.1 = b.1) && decide (a.2 < b.2))

/-- The bookkeeping of one LIN node (`LinController::LinNode`). -/
structure LinNode where
  address : EndpointAddress
  controllerMode : LinControllerMode
  controllerStatus : LinControllerStatus
  responses : List LinFrameResponse
deriving DecidableEq, Repr

/-- One call on the logger. -/
inductive LogCall where
  | Error (text : String)
  | Warn (text : String)
deriving DecidableEq, Repr

/-- One call on the simulation behaviour: a message handed to it for sending with
`_simulationBehavior.SendMsg`, or one of its other operations. -/
inductive SimCall where
  | SendMsg_LinControllerConfig (msg : LinControllerConfig)
  | SendMsg_LinSendFrameRequest (frame : LinFrame) (responseType : LinFrameResponseType)
  | SendMsg_LinSendFrameHeaderRequest (timestamp : Int) (id : Nat)
  | SendMsg_LinControllerStatusUpdate (status : LinControllerStatus)
  | UpdateTxBuffer (frame : LinFrame)
  | GoToSleep
  | Wakeup
deriving DecidableEq, Repr

/-- One call of `CallHandlers`: the event given to every handler registered for
its type. -/
inductive HandlerCall where
  | LinFrameStatusEvent (timestamp : Int) (frame : LinFrame) (status : LinFrameStatus)
  | LinGoToSleepEvent (timestamp : Int)
  | LinSlaveConfigurationEvent (timestamp : Int)
deriving DecidableEq, Repr

/-- The exceptions that the controller throws. -/
inductive Exception where
  | StateError (what : String)
  | SilKitError (what : String)
  | ConfigurationError (what : String)
deriving DecidableEq, Repr

/-- The state of a `LinController`. The number of entries of the array `responses`
of a node is declared in `LinController.hpp`, which is not among the sources,
and is the parameter `responsesSize`; `now` is the current time of the time
provider. -/
structure LinController where
  address : EndpointAddress
  responsesSize : Nat
  now : Int
  _controllerMode : LinControllerMode
  _controllerStatus : LinControllerStatus
  _linNodes : List LinNode
  _linIdsRespondedBySlaves : List Nat
  _simulationBehavior : List SimCall
  _logger : List LogCall
  handlerCalls : List HandlerCall
deriving DecidableEq, Repr

/-- A default-constructed `LinFrameResponse`. -/
def defaultResponse : LinFrameResponse :=
  { frame := { id := 0, checksumModel := LinChecksumModel.Undefined, dataLength := 0,
               data := List.replicate 8 0 },
    responseMode := LinFrameResponseMode.Unused }

/-- A default-constructed `LinNode` with the given address, as `GetLinNode` inserts
it: an inactive node of unknown status with unused responses. -/
def defaultNode (responsesSize : Nat) (addr : EndpointAddress) : LinNode :=
  { address := addr, controllerMode := LinControllerMode.Inactive,
    controllerStatus := LinControllerStatus.Unknown,
    responses := List.replicate responsesSize defaultResponse }

namespace LinNode

/-- Embeds `LinController::LinNode::UpdateResponses`. -/
def UpdateResponses (node : LinNode) (logger : List LogCall) :
    List LinFrameResponse → LinNode × List LogCall
  | [] => (node, logger)
  | response :: rest =>
    let linId := response.frame.id
    if linId ≥ node.responses.length then
      UpdateResponses node
        (logger ++ [LogCall.Warn ("Ignoring LinFrameResponse update for invalid ID=" ++
          toString linId)]) rest
    else
      UpdateResponses { node with responses := node.responses.set linId response } logger rest

/-- Embeds `LinController::LinNode::UpdateTxBuffer`. -/
def UpdateTxBuffer (node : LinNode) (logger : List LogCall) (linId : Nat) (data : List Nat) :
    LinNode × List LogCall :=
  if linId ≥ node.responses.length then
    (node, logger ++ [LogCall.Warn ("Ignoring LinFrameResponse update for invalid ID=" ++
      toString linId)])
  else
    ({ node with responses :=
        node.responses.modify (fun r => { r with frame := { r.frame with data := data } }) linId },
      logger)

end LinNode

/-- Embeds `LinController::GetLinNode` on the sorted vector `_linNodes`: the position
of the node with the address, after a default node was inserted there when
the vector had none; the result is the vector and the position. -/
def GetLinNode (responsesSize : Nat) : List LinNode → EndpointAddress → List LinNode × Nat
  | [], addr => ([defaultNode responsesSize addr], 0)
  | node :: rest, addr =>
    if EndpointAddress.lt node.address addr then
      ((node :: (GetLinNode responsesSize rest addr).1), (GetLinNode responsesSize rest addr).2 + 1)
    else if node.address = addr then (node :: rest, 0)
    else (defaultNode responsesSize addr :: node :: rest, 0)

namespace LinController

/-- Embeds `LinController::GetThisLinNode`: the node table after the lookup, and the
node of this controller in it. -/
def GetThisLinNode (self : LinController) : List LinNode × Nat × LinNode :=
  let r := GetLinNode self.responsesSize self._linNodes self.address
  (r.1, r.2, r.1.getD r.2 (defaultNode self.responsesSize self.address))

/-- Embeds `LinController::ThrowIfUninitialized`: the state after the call and the
exception, if one is thrown. -/
def ThrowIfUninitialized (self : LinController) (callingMethodName : String) :
    Option Exception × LinController :=
  if self._controllerStatus = LinControllerStatus.Unknown then
    let errorMsg := callingMethodName ++
      " must only be called when the controller is initialized! Check " ++
      "whether a call to LinController::Init is missing."
    (some (Exception.StateError errorMsg),
      { self with _logger := self._logger ++ [LogCall.Error errorMsg] })
  else (none, self)

/-- Embeds `LinController::ThrowIfNotMaster`. -/
def ThrowIfNotMaster (self : LinController) (callingMethodName : String) :
    Option Exception × LinController :=
  if self._controllerMode ≠ LinControllerMode.Master then
    let errorMsg := callingMethodName ++ " must only be called in master mode!"
    (some (Exception.SilKitError errorMsg),
      { self with _logger := self._logger ++ [LogCall.Error errorMsg] })
  else (none, self)

/-- Embeds `LinController::ThrowOnErroneousInitialization`. -/
def ThrowOnErroneousInitialization (self : LinController) : Exception × LinController :=
  let errorMsg := "A LinController can't be initialized with LinControllerMode::Inactive!"
  (Exception.StateError errorMsg, { self with _logger := self._logger ++ [LogCall.Error errorMsg] })

/-- Embeds `LinController::ThrowOnDuplicateInitialization`. -/
def ThrowOnDuplicateInitialization (self : LinController) : Exception × LinController :=
  let errorMsg := "LinController::Init() must only be called once!"
  (Exception.StateError errorMsg, { self with _logger := self._logger ++ [LogCall.Error errorMsg] })

/-- Embeds the template `LinController::SendMsg`: the message is handed to the
simulation behaviour. -/
def SendMsg (self : LinController) (msg : SimCall) : LinController :=
  { self with _simulationBehavior := self._simulationBehavior ++ [msg] }

/-- Embeds the template `LinController::CallHandlers`. -/
def CallHandlers (self : LinController) (msg : HandlerCall) : LinController :=
  { self with handlerCalls := self.handlerCalls ++ [msg] }

/-- Writes a changed node of this controller back: `GetThisLinNode()` returns a
reference into the table. -/
def updateThisLinNode (self : LinController)
    (f : LinNode → List LogCall → LinNode × List LogCall) : LinController :=
  let r := self.GetThisLinNode
  let r' := f r.2.2 self._logger
  { self with _linNodes := r.1.set r.2.1 r'.1, _logger := r'.2 }

/-- Embeds `LinController::Init`. -/
def Init (self : LinController) (config : LinControllerConfig) :
    Except Exception Unit × LinController :=
  if config.controllerMode = LinControllerMode.Inactive then
    (.error self.ThrowOnErroneousInitialization.1, self.ThrowOnErroneousInitialization.2)
  else if self._controllerStatus ≠ LinControllerStatus.Unknown then
    (.error self.ThrowOnDuplicateInitialization.1, self.ThrowOnDuplicateInitialization.2)
  else
    let self1 := self.updateThisLinNode (fun node logger =>
      LinNode.UpdateResponses
        { node with controllerMode := config.controllerMode,
                    controllerStatus := LinControllerStatus.Operational }
        logger config.frameResponses)
    let self2 : LinController :=
      { self1 with _controllerMode := config.controllerMode,
                   _controllerStatus := LinControllerStatus.Operational }
    (.ok (), self2.SendMsg (SimCall.SendMsg_LinControllerConfig config))

/-- Embeds `LinController::Status`. -/
def Status (self : LinController) : LinControllerStatus :=
  self._controllerStatus

/-- Embeds `LinController::HasRespondingSlave`. -/
def HasRespondingSlave (self : LinController) (id : Nat) : Bool :=
  decide (id ∈ self._linIdsRespondedBySlaves)

/-- The response mode that this node has configured for an id,
`GetThisLinNode().responses[id].responseMode`; the array is not checked for
its bounds, and an id beyond it is read here as an unused response. -/
def thisResponseMode (self : LinController) (id : Nat) : LinFrameResponseMode :=
  (self.GetThisLinNode.2.2.responses.getD id defaultResponse).responseMode

/-- The body of `LinController::SendFrame` after the two checks. -/
def SendFrame_checked (self : LinController) (frame : LinFrame)
    (responseType : LinFrameResponseType) : LinController :=
  if responseType = LinFrameResponseType.MasterResponse then
    let self1 :=
      if self.thisResponseMode frame.id ≠ LinFrameResponseMode.TxUnconditional then
        let response : LinFrameResponse :=
          { frame := frame, responseMode := LinFrameResponseMode.TxUnconditional }
        let self' := self.updateThisLinNode (fun node logger =>
          LinNode.UpdateResponses node logger [response])
        { self' with _simulationBehavior :=
            self'._simulationBehavior ++ [SimCall.UpdateTxBuffer frame] }
      else
        { self with _linNodes := self.GetThisLinNode.1 }
    self1.SendMsg (SimCall.SendMsg_LinSendFrameRequest frame responseType)
  else if ¬ self.HasRespondingSlave frame.id then
    self.CallHandlers
      (HandlerCall.LinFrameStatusEvent self.now frame LinFrameStatus.LIN_RX_NO_RESPONSE)
  else
    let self1 :=
      if responseType = LinFrameResponseType.SlaveResponse then
        let response : LinFrameResponse :=
          { frame := frame, responseMode := LinFrameResponseMode.Rx }
        self.updateThisLinNode (fun node logger => LinNode.UpdateResponses node logger [response])
      else self
    self1.SendMsg (SimCall.SendMsg_LinSendFrameRequest frame responseType)

/-- Embeds `LinController::SendFrame`; `__FUNCTION__` is `SendFrame`. -/
def SendFrame (self : LinController) (frame : LinFrame) (responseType : LinFrameResponseType) :
    Except Exception Unit × LinController :=
  match self.ThrowIfUninitialized "SendFrame" with
  | (some e, self1) => (.error e, self1)
  | (none, self1) =>
    match self1.ThrowIfNotMaster "SendFrame" with
    | (some e, self2) => (.error e, self2)
    | (none, self2) => (.ok (), self2.SendFrame_checked frame responseType)

/-- Embeds `LinController::SendFrameHeader`; `__FUNCTION__` is `SendFrameHeader`. -/
def SendFrameHeader (self : LinController) (linId : Nat) :
    Except Exception Unit × LinController :=
  match self.ThrowIfUninitialized "SendFrameHeader" with
  | (some e, self1) => (.error e, self1)
  | (none, self1) =>
    match self1.ThrowIfNotMaster "SendFrameHeader" with
    | (some e, self2) => (.error e, self2)
    | (none, self2) =>
      (.ok (), self2.SendMsg (SimCall.SendMsg_LinSendFrameHeaderRequest self2.now linId))

/-- Embeds `LinController::GoToSleep`; `__FUNCTION__` is `GoToSleep`. -/
def GoToSleep (self : LinController) : Except Exception Unit × LinController :=
  match self.ThrowIfUninitialized "GoToSleep" with
  | (some e, self1) => (.error e, self1)
  | (none, self1) =>
    match self1.ThrowIfNotMaster "GoToSleep" with
    | (some e, self2) => (.error e, self2)
    | (none, self2) =>
      (.ok (),
        { self2 with
          _simulationBehavior := self2._simulationBehavior ++ [SimCall.GoToSleep]
          _controllerStatus := LinControllerStatus.Sleep })

/-- The name of a status, as `to_string` gives it. -/
def statusName : LinControllerStatus → String
  | LinControllerStatus.Unknown => "Unknown"
  | LinControllerStatus.Operational => "Operational"
  | LinControllerStatus.Sleep => "Sleep"
  | LinControllerStatus.SleepPending => "SleepPending"

/-- Embeds `LinController::SetControllerStatusInternal`. -/
def SetControllerStatusInternal (self : LinController) (status : LinControllerStatus) :
    LinController :=
  let self1 :=
    if self._controllerStatus = status then
      { self with _logger := self._logger ++
          [LogCall.Warn ("Invalid LinController status change: controller is already in " ++
            statusName status ++ " mode.")] }
    else self
  let self2 : LinController := { self1 with _controllerStatus := status }
  self2.SendMsg (SimCall.SendMsg_LinControllerStatusUpdate status)

/-- Embeds `LinController::GoToSleepInternal`. -/
def GoToSleepInternal (self : LinController) : Except Exception Unit × LinController :=
  match self.ThrowIfUninitialized "GoToSleepInternal" with
  | (some e, self1) => (.error e, self1)
  | (none, self1) => (.ok (), self1.SetControllerStatusInternal LinControllerStatus.Sleep)

/-- Embeds `LinController::Wakeup`. -/
def Wakeup (self : LinController) : Except Exception Unit × LinController :=
  match self.ThrowIfUninitialized "Wakeup" with
  | (some e, self1) => (.error e, self1)
  | (none, self1) =>
    (.ok (), { self1 with _simulationBehavior := self1._simulationBehavior ++ [SimCall.Wakeup] })

/-- Embeds `LinController::WakeupInternal`. -/
def WakeupInternal (self : LinController) : Except Exception Unit × LinController :=
  match self.ThrowIfUninitialized "WakeupInternal" with
  | (some e, self1) => (.error e, self1)
  | (none, self1) => (.ok (), self1.SetControllerStatusInternal LinControllerStatus.Operational)

/-- The calls of the public interface that write the status of the controller or
hand something on for sending. -/
inductive Call where
  | Init (config : LinControllerConfig)
  | SendFrame (frame : LinFrame) (responseType : LinFrameResponseType)
  | SendFrameHeader (linId : Nat)
  | GoToSleep
  | GoToSleepInternal
  | Wakeup
  | WakeupInternal
deriving DecidableEq, Repr

/-- Makes one call on the controller. -/
def call (self : LinController) : Call → Except Exception Unit × LinController
  | Call.Init config => self.Init config
  | Call.SendFrame frame responseType => self.SendFrame frame responseType
  | Call.SendFrameHeader linId => self.SendFrameHeader linId
  | Call.GoToSleep => self.GoToSleep
  | Call.GoToSleepInternal => self.GoToSleepInternal
  | Call.Wakeup => self.Wakeup
  | Call.WakeupInternal => self.WakeupInternal

/-- Makes a sequence of calls on the controller, one after the other, whether
they throw or not. -/
def calls (self : LinController) : List Call → LinController
  | [] => self
  | c :: rest => calls (self.call c).2 rest

/-- The state of a controller after its constructor: mode `Inactive`, status
`Unknown`, no node, nothing sent. -/
def create (address : EndpointAddress) (responsesSize : Nat) (now : Int) : LinController :=
  { address := address, responsesSize := responsesSize, now := now,
    _controllerMode := LinControllerMode.Inactive,
    _controllerStatus := LinControllerStatus.Unknown,
    _linNodes := [], _linIdsRespondedBySlaves := [], _simulationBehavior := [],
    _logger := [], handlerCalls := [] }

/-- A configuration of a master without frame responses. -/
def masterConfig : LinControllerConfig :=
  { controllerMode := LinControllerMode.Master, baudRate := 20000, frameResponses := [] }

/-- A frame used in the examples. -/
def exampleFrame : LinFrame :=
  { id := 17, checksumModel := LinChecksumModel.Enhanced, dataLength := 2,
    data := [1, 2, 0, 0, 0, 0, 0, 0] }

end LinController

end Lin
end Services
end SilKit

/-! ## `IntegrationBus/source/mw/sync/WatchDog.cpp`

The watch thread and the thread of the job share the atomic `_startTime` only.
One pass of the loop of `WatchDog::Run` is a function of the state of the
watchdog and of the reading of the clock; the handlers are embedded as the
ordered record of their invocations. -/

namespace ib
namespace mw
namespace sync

/-- The local `enum class WatchDogState` of `WatchDog::Run`. -/
inductive WatchDogState where
  | Healthy | Warn | Error
deriving DecidableEq, Repr

/-- One invocation of a handler, with the duration in milliseconds given to it. -/
inductive WatchDogHandlerCall where
  | warnHandler (duration : Int)
  | errorHandler (duration : Int)
deriving DecidableEq, Repr

/-- The state of a `WatchDog`. The timeouts are in milliseconds. `_startTime` is in
ticks of the steady clock, `none` standing for `duration::min()`; `ticksPerMs`
is the number of ticks of the steady clock in a millisecond, a constant of
the platform. `state` is the local variable of `Run`. -/
structure WatchDog where
  ticksPerMs : Nat
  _warnTimeout : Int
  _errorTimeout : Int
  _startTime : Option Int
  state : WatchDogState
  handlerCalls : List WatchDogHandlerCall
deriving DecidableEq, Repr

namespace WatchDog

/-- Embeds the constructor `WatchDog::WatchDog`: it throws a `std::runtime_error`
with the text given when a timeout is not positive. -/
def create (ticksPerMs : Nat) (warnTimeout errorTimeout : Int) : Except String WatchDog :=
  if warnTimeout ≤ 0 then .error "WatchDog requires warnTimeout > 0ms"
  else if errorTimeout ≤ 0 then .error "WatchDog requires errorTimeout > 0ms"
  else .ok { ticksPerMs := ticksPerMs, _warnTimeout := warnTimeout,
             _errorTimeout := errorTimeout, _startTime := none,
             state := WatchDogState.Healthy, handlerCalls := [] }

/-- Embeds `WatchDog::Start`; `now` is the reading of the steady clock. -/
def Start (self : WatchDog) (now : Int) : WatchDog :=
  { self with _startTime := some now }

/-- Embeds `WatchDog::Reset`. -/
def Reset (self : WatchDog) : WatchDog :=
  { self with _startTime := none }

/-- The `duration_cast` to milliseconds of a number of ticks: the quotient rounded
towards zero. -/
def duration_cast_ms (ticksPerMs : Nat) (d : Int) : Int :=
  Int.tdiv d ticksPerMs

/-- The value of `currentRunDuration` in a pass of the loop at the time `now`
while a job that started at `startTime` runs. -/
def currentRunDuration (self : WatchDog) (startTime now : Int) : Int :=
  duration_cast_ms self.ticksPerMs (now - startTime)

/-- Embeds one pass of the loop of `WatchDog::Run` in which the stop was not
signalled; `now` is the reading of the steady clock in that pass. -/
def Run_step (self : WatchDog) (now : Int) : WatchDog :=
  match self._startTime with
  | none => { self with state := WatchDogState.Healthy }
  | some startTime =>
    let currentRunDuration := self.currentRunDuration startTime now
    if currentRunDuration ≤ self._warnTimeout then
      { self with state := WatchDogState.Healthy }
    else if currentRunDuration > self._warnTimeout ∧ currentRunDuration ≤ self._errorTimeout then
      if self.state = WatchDogState.Healthy then
        { self with
          handlerCalls := self.handlerCalls ++ [WatchDogHandlerCall.warnHandler currentRunDuration]
          state := WatchDogState.Warn }
      else self
    else if currentRunDuration > self._errorTimeout then
      if self.state ≠ WatchDogState.Error then
        { self with
          handlerCalls := self.handlerCalls ++ [WatchDogHandlerCall.errorHandler currentRunDuration]
          state := WatchDogState.Error }
      else self
    else self

/-- The passes of the loop at the given readings of the clock, in order. -/
def Run (self : WatchDog) : List Int → WatchDog
  | [] => self
  | now :: rest => Run (self.Run_step now) rest

/-- A watchdog with one tick a millisecond, a warn timeout of 10 ms and an error
timeout of 5 ms, as the constructor makes it, after `Start` at the time 0. -/
def exampleInverted : WatchDog :=
  { ticksPerMs := 1, _warnTimeout := 10, _errorTimeout := 5, _startTime := some 0,
    state := WatchDogState.Healthy, handlerCalls := [] }

/-- A watchdog with a thousand ticks a millisecond, a warn timeout of 5 ms and an
error timeout of 10 ms, as the constructor makes it, after `Start` at the
time 0. -/
def exampleOrdered : WatchDog :=
  { ticksPerMs := 1000, _warnTimeout := 5, _errorTimeout := 10, _startTime := some 0,
    state := WatchDogState.Healthy, handlerCalls := [] }

end WatchDog

end sync
end mw
end ib

/-! ## `ComAdapter::CreateDataPublisher` (`ComAdapter_impl.hpp`) -/

namespace ib
namespace cfg

/-- The fields of `cfg::Replay` that `ControllerUsesReplay` reads. -/
structure Replay where
  useTraceSource : String
  direction : ReplayDirection
deriving DecidableEq, Repr

/-- The field of `sim::data::DataExchangeFormat` that `CreateDataPublisher` reads. -/
structure DataExchangeFormat where
  mediaType : String
deriving DecidableEq, Repr

/-- The fields of `cfg::DataPort` that `CreateDataPublisher` reads or writes. -/
structure DataPort where
  name : String
  dataExchangeFormat : DataExchangeFormat
  history : Nat
  pubUUID : String
  labels : List (String × String)
  replay : Replay
deriving DecidableEq, Repr

end cfg

namespace mw

/-- Embeds `ControllerUsesReplay` of the anonymous namespace. -/
def ControllerUsesReplay (controllerConfig : cfg.DataPort) : Bool :=
  decide (controllerConfig.replay.direction ≠ cfg.ReplayDirection.Undefined) &&
    !(controllerConfig.replay.useTraceSource == "")

/-- Embeds `supplementalData[key] = value` on the map `mw::SupplementalData`: the value
of the key is replaced, or the key is added. -/
def SupplementalData.assign (m : SupplementalData) (key value : String) : SupplementalData :=
  if m.any (fun kv => kv.1 == key) then
    m.map (fun kv => if kv.1 = key then (key, value) else kv)
  else m ++ [(key, value)]

/-- What `CreateDataPublisher` uses and the sources do not hold: the function
`get_by_name` of the configuration, which returns the element of the name or
throws; the string of the UUID that `util::uuid::generate` makes in this
call; `cfg::Serialize` on the labels; and the keys and the value of the
supplemental data that are declared with the service discovery. -/
structure DataPublisherExternals where
  get_by_name : List cfg.DataPort → String → Except Exception cfg.DataPort
  pubUUID : String
  Serialize : List (String × String) → String
  controllerType : String
  controllerTypeDataPublisher : String
  supplKeyDataPublisherTopic : String
  supplKeyDataPublisherPubUUID : String
  supplKeyDataPublisherPubDxf : String
  supplKeyDataPublisherPubLabels : String

/-- The class `sim::data::DataPublisher` as a template argument. -/
def dataPublisherT : ControllerT :=
  { className := "DataPublisher", mapName := "IDataPublisher", isTraceSource := false }

namespace ComAdapter

/-- Embeds `ComAdapter::CreateDataPublisher`. `dataPublishers` is
`_participant.dataPublishers`, a part of the configuration of the
participant, which the function only reads. -/
def CreateDataPublisher (self : ComAdapter) (X : DataPublisherExternals)
    (dataPublishers : List cfg.DataPort) (topic : String)
    (dataExchangeFormat : cfg.DataExchangeFormat) (labels : List (String × String))
    (history : Nat) : Except Exception Controller × ComAdapter :=
  if history > 1 then
    (.error (.Misconfiguration "DataPublishers do not support history > 1."), self)
  else
    match X.get_by_name dataPublishers topic with
    | .error e => (.error e, self)
    | .ok found =>
      let config : cfg.DataPort :=
        { found with
          dataExchangeFormat := dataExchangeFormat
          history := history
          pubUUID := X.pubUUID
          labels := labels
          name := topic }
      if ControllerUsesReplay config then
        (.error (.Misconfiguration "Replay is not supported for DataPublisher/DataSubscriber."),
          self)
      else
        let link : cfg.Link :=
          { id := -1, name := config.pubUUID, type := cfg.LinkType.DataMessage,
            historyLength := history }
        let supplementalData : SupplementalData :=
          ((((SupplementalData.assign [] X.controllerType X.controllerTypeDataPublisher).assign
            X.supplKeyDataPublisherTopic topic).assign
            X.supplKeyDataPublisherPubUUID config.pubUUID).assign
            X.supplKeyDataPublisherPubDxf dataExchangeFormat.mediaType).assign
            X.supplKeyDataPublisherPubLabels (X.Serialize labels)
        self.CreateController dataPublisherT link topic ServiceType.Controller supplementalData

/-- A `get_by_name` for the examples: the first element of the name, or
a `Misconfiguration` when there is none. -/
def exampleGetByName (configs : List cfg.DataPort) (name : String) :
    Except Exception cfg.DataPort :=
  match configs.find? (fun c => c.name = name) with
  | some c => .ok c
  | none => .error (.Misconfiguration ("no element named " ++ name))

/-- The externals of the examples. -/
def exampleExternals : DataPublisherExternals :=
  { get_by_name := exampleGetByName
    pubUUID := "5a0f3a1c-0000-4000-8000-000000000001"
    Serialize := fun labels => String.intercalate ";" (labels.map (fun kv => kv.1 ++ "=" ++ kv.2))
    controllerType := "controller.type"
    controllerTypeDataPublisher := "DataPublisher"
    supplKeyDataPublisherTopic := "datapublisher.topic"
    supplKeyDataPublisherPubUUID := "datapublisher.pubUUID"
    supplKeyDataPublisherPubDxf := "datapublisher.dxf"
    supplKeyDataPublisherPubLabels := "datapublisher.labels" }

/-- A configured data publisher of the topic `Temperature` without replay. -/
def examplePort : cfg.DataPort :=
  { name := "Temperature", dataExchangeFormat := { mediaType := "" }, history := 0,
    pubUUID := "", labels := [],
    replay := { useTraceSource := "", direction := cfg.ReplayDirection.Undefined } }

/-- A configured data publisher of the topic `Pressure` that uses replay. -/
def exampleReplayPort : cfg.DataPort :=
  { name := "Pressure", dataExchangeFormat := { mediaType := "" }, history := 0,
    pubUUID := "", labels := [],
    replay := { useTraceSource := "Source1", direction := cfg.ReplayDirection.Send } }

end ComAdapter
end mw
end ib

/-! ## `SilKit/source/capi/CapiEthernet.cpp`, `CapiOrchestration.cpp`

The functions of the C interface. The macros `ASSERT_VALID_POINTER_PARAMETER`,
`ASSERT_VALID_OUT_PARAMETER`, `CAPI_ENTER` and `CAPI_LEAVE` come from
`CapiImpl.hpp`, which is not among the sources: what the first two return for
a null pointer and what `CAPI_LEAVE` returns for an exception caught are
parameters. A pointer is `none` when null. -/

namespace SilKit
namespace Capi

/-- The values of `SilKit_ReturnCode` that the sources name. -/
inductive SilKit_ReturnCode where
  | SUCCESS | UNSPECIFIEDERROR | BADPARAMETER
deriving DecidableEq, Repr

/-- A C++ exception, with the text of `what()`. -/
structure CppException where
  what : String
deriving DecidableEq, Repr

/-- The macros of `CapiImpl.hpp`: the return code and the error string for a null
pointer parameter and for a null out parameter, and the return code and
the error string with which `CAPI_LEAVE` answers an exception. -/
structure CapiImpl where
  ASSERT_VALID_POINTER_PARAMETER : SilKit_ReturnCode × String
  ASSERT_VALID_OUT_PARAMETER : SilKit_ReturnCode × String
  CAPI_LEAVE : CppException → SilKit_ReturnCode × String

/-- Embeds `SilKit_ByteVector`: `data` is what the memory holds from the pointer on,
`size` the number of bytes. -/
structure SilKit_ByteVector where
  data : List Nat
  size : Nat
deriving DecidableEq, Repr

/-- The field of `SilKit_EthernetFrame` that `SendFrame` reads. -/
structure SilKit_EthernetFrame where
  raw : SilKit_ByteVector
deriving DecidableEq, Repr

/-- One call of `IEthernetController::SendFrame`: the controller, the bytes of
`ef.raw` and the user context. -/
structure EthernetSendFrameCall where
  controller : Nat
  raw : List Nat
  userContext : Nat
deriving DecidableEq, Repr

/-- What the Ethernet functions write: the thread-local `SilKit_error_string` and the
calls made on controllers, in order. -/
structure EthernetState where
  SilKit_error_string : String
  sendFrameCalls : List EthernetSendFrameCall
deriving DecidableEq, Repr

/-- Embeds the macro `ETHERNET_MIN_FRAME_SIZE`. -/
def ETHERNET_MIN_FRAME_SIZE : Nat := 60

/-- Embeds `SilKit_EthernetController_SendFrame`. `SendFrame` tells how the controller's
`SendFrame` ends for the frame and the context: `none` when it returns,
the exception when it throws. -/
def SilKit_EthernetController_SendFrame (M : CapiImpl)
    (SendFrame : EthernetSendFrameCall → Option CppException) (st : EthernetState)
    (controller : Option Nat) (frame : Option SilKit_EthernetFrame) (userContext : Nat) :
    SilKit_ReturnCode × EthernetState :=
  match controller with
  | none => (M.ASSERT_VALID_POINTER_PARAMETER.1,
      { st with SilKit_error_string := M.ASSERT_VALID_POINTER_PARAMETER.2 })
  | some cppController =>
    match frame with
    | none => (M.ASSERT_VALID_POINTER_PARAMETER.1,
        { st with SilKit_error_string := M.ASSERT_VALID_POINTER_PARAMETER.2 })
    | some frame =>
      if frame.raw.size < ETHERNET_MIN_FRAME_SIZE then
        (SilKit_ReturnCode.BADPARAMETER,
          { st with SilKit_error_string :=
              "An ethernet frame must be at least 60 bytes in size." })
      else
        let rawFrame := frame.raw.data.take frame.raw.size
        let call : EthernetSendFrameCall :=
          { controller := cppController, raw := rawFrame, userContext := userContext }
        let st1 := { st with sendFrameCalls := st.sendFrameCalls ++ [call] }
        match SendFrame call with
        | none => (SilKit_ReturnCode.SUCCESS, st1)
        | some e => ((M.CAPI_LEAVE e).1, { st1 with SilKit_error_string := (M.CAPI_LEAVE e).2 })

/-- A `std::future<ParticipantState>`: without a shared state (`valid()` is false), or
with one, which in the end holds a state or an exception, or is never made
ready (`none`). -/
inductive Future where
  | invalid
  | valid (outcome : Option (Except CppException Core.Orchestration.ParticipantState))
deriving DecidableEq, Repr

/-- What the lifecycle functions read and write besides the out parameter: the
static map `sRunAsyncFuturePerParticipant` and the thread-local
`SilKit_error_string`. -/
structure LifecycleState where
  sRunAsyncFuturePerParticipant : List (Nat × Future)
  SilKit_error_string : String
deriving DecidableEq, Repr

/-- Embeds `map.find(key) != map.end()`. -/
def contains (m : List (Nat × Future)) (key : Nat) : Bool :=
  (m.lookup key).isSome

/-- Embeds `map.erase(key)`. -/
def erase (m : List (Nat × Future)) (key : Nat) : List (Nat × Future) :=
  m.filter (fun e => e.1 ≠ key)

/-- Embeds `map[key] = value`. -/
def assign (m : List (Nat × Future)) (key : Nat) (value : Future) : List (Nat × Future) :=
  (key, value) :: erase m key

/-- Embeds `SilKit_LifecycleService_StartLifecycle`. `StartLifecycle` is what the call
`cppLifecycleService->StartLifecycle()` does: it returns a future or throws.
The right operand of the assignment is evaluated before the map is
subscripted. -/
def SilKit_LifecycleService_StartLifecycle (M : CapiImpl) (st : LifecycleState)
    (clifecycleService : Option Nat) (StartLifecycle : Except CppException Future) :
    SilKit_ReturnCode × LifecycleState :=
  match clifecycleService with
  | none => (M.ASSERT_VALID_POINTER_PARAMETER.1,
      { st with SilKit_error_string := M.ASSERT_VALID_POINTER_PARAMETER.2 })
  | some h =>
    match StartLifecycle with
    | .error e => ((M.CAPI_LEAVE e).1, { st with SilKit_error_string := (M.CAPI_LEAVE e).2 })
    | .ok future =>
      (SilKit_ReturnCode.SUCCESS,
        { st with sRunAsyncFuturePerParticipant := assign st.sRunAsyncFuturePerParticipant h future })

/-- Embeds `SilKit_LifecycleService_WaitForLifecycleToComplete`. `outParticipantState` is
the out parameter: `none` for a null pointer, else the content of the cell
it points to; the result holds the content of the cell after the call. The
whole result is `none` when `get()` waits for ever. -/
def SilKit_LifecycleService_WaitForLifecycleToComplete (M : CapiImpl) (st : LifecycleState)
    (clifecycleService : Option Nat)
    (outParticipantState : Option Core.Orchestration.ParticipantState) :
    Option (SilKit_ReturnCode × Option Core.Orchestration.ParticipantState × LifecycleState) :=
  match clifecycleService with
  | none => some (M.ASSERT_VALID_POINTER_PARAMETER.1, outParticipantState,
      { st with SilKit_error_string := M.ASSERT_VALID_POINTER_PARAMETER.2 })
  | some h =>
    match outParticipantState with
    | none => some (M.ASSERT_VALID_OUT_PARAMETER.1, outParticipantState,
        { st with SilKit_error_string := M.ASSERT_VALID_OUT_PARAMETER.2 })
    | some _ =>
      match st.sRunAsyncFuturePerParticipant.lookup h with
      | none =>
        some (SilKit_ReturnCode.BADPARAMETER, outParticipantState,
          { st with SilKit_error_string :=
              "Unknown participant to wait for completion of asynchronous run operation" })
      | some Future.invalid =>
        some (SilKit_ReturnCode.UNSPECIFIEDERROR, outParticipantState,
          { st with SilKit_error_string := "Failed to access asynchronous run operation" })
      | some (Future.valid none) => none
      | some (Future.valid (some (.error e))) =>
        some ((M.CAPI_LEAVE e).1, outParticipantState,
          { sRunAsyncFuturePerParticipant := assign st.sRunAsyncFuturePerParticipant h Future.invalid,
            SilKit_error_string := (M.CAPI_LEAVE e).2 })
      | some (Future.valid (some (.ok finalState))) =>
        some (SilKit_ReturnCode.SUCCESS, some finalState,
          { st with sRunAsyncFuturePerParticipant := erase st.sRunAsyncFuturePerParticipant h })

/-- The macros as used in the examples: a null pointer gives `BADPARAMETER`, an
exception gives `UNSPECIFIEDERROR` with its text. -/
def exampleCapiImpl : CapiImpl :=
  { ASSERT_VALID_POINTER_PARAMETER := (SilKit_ReturnCode.BADPARAMETER, "null pointer"),
    ASSERT_VALID_OUT_PARAMETER := (SilKit_ReturnCode.BADPARAMETER, "null out pointer"),
    CAPI_LEAVE := fun e => (SilKit_ReturnCode.UNSPECIFIEDERROR, e.what) }

/-- The state of the Ethernet functions before any call. -/
def exampleEthernetState : EthernetState :=
  { SilKit_error_string := "", sendFrameCalls := [] }

/-- A frame of 60 bytes, the numbers 0 to 59, in a buffer of 64 bytes. -/
def exampleEthernetFrame : SilKit_EthernetFrame :=
  { raw := { data := List.range 64, size := 60 } }

/-- The state of the lifecycle functions before any call: the map is empty. -/
def exampleLifecycleState : LifecycleState :=
  { sRunAsyncFuturePerParticipant := [], SilKit_error_string := "" }

/-- One call of one of the two lifecycle functions with pointers that are not null:
the handle, and for `StartLifecycle` what the lifecycle service does, for the
wait the content of the out cell before the call. -/
inductive LifecycleCall where
  | StartLifecycle (h : Nat) (StartLifecycle : Except CppException Future)
  | WaitForLifecycleToComplete (h : Nat) (out : Core.Orchestration.ParticipantState)
deriving DecidableEq, Repr

/-- Makes the call: the return code and the state after it, `none` when the call
does not return. -/
def LifecycleCall.run (M : CapiImpl) (st : LifecycleState) :
    LifecycleCall → Option (SilKit_ReturnCode × LifecycleState)
  | LifecycleCall.StartLifecycle h o =>
    some (SilKit_LifecycleService_StartLifecycle M st (some h) o)
  | LifecycleCall.WaitForLifecycleToComplete h out =>
    (SilKit_LifecycleService_WaitForLifecycleToComplete M st (some h) (some out)).map
      (fun r => (r.1, r.2.2))

/-- Whether a `StartLifecycle` of the handle `h` is on record since the last successful
wait on `h`, after a call that returned `code`, given whether one was before
the call: a `StartLifecycle` of `h` that got a future from the lifecycle
service puts one on record, a wait on `h` that returns `SUCCESS` takes it
off. -/
def recordedAfter (h : Nat) (before : Bool) (c : LifecycleCall) (code : SilKit_ReturnCode) :
    Bool :=
  match c with
  | LifecycleCall.StartLifecycle h2 (.ok _) => if h2 = h then true else before
  | LifecycleCall.StartLifecycle _ (.error _) => before
  | LifecycleCall.WaitForLifecycleToComplete h2 _ =>
    if h2 = h ∧ code = SilKit_ReturnCode.SUCCESS then false else before

/-- Makes the calls one after the other and keeps, for the handle `h`, whether
a `StartLifecycle` is on record; `none` when a call does not return. -/
def runAll (M : CapiImpl) (h : Nat) :
    LifecycleState × Bool → List LifecycleCall → Option (LifecycleState × Bool)
  | s, [] => some s
  | s, c :: rest =>
    match c.run M s.1 with
    | none => none
    | some r => runAll M h (r.2, recordedAfter h s.2 c r.1) rest

end Capi
end SilKit

/-! ## The command-line programs

`Utilities/SilKitSystemMonitor/PassiveSystemMonitor.cpp` and
`IntegrationBus/source/mw/registry/RegistryDemo.cpp`. A `main` is embedded as
a function from its arguments and from what the library calls it makes do, to
its exit code; what it prints is left out. -/

namespace Cpp

/-- An exception object of a class derived from `std::exception`: the text of `what()`
and the names of its class and of the classes that class derives from, but
for `std::exception` itself. A handler `catch (const T&)` takes the
exception when `T` is among them; `catch (const std::exception&)` takes
every one. -/
structure StdException where
  what : String
  classes : List String
deriving DecidableEq, Repr

/-- Whether `catch (const T&)` takes the exception. -/
def StdException.isA (e : StdException) (T : String) : Bool :=
  decide (T ∈ e.classes)

/-- Embeds `isspace` in the C locale. -/
def isspace (c : Char) : Bool :=
  decide (c.toNat = 32) || (decide (9 ≤ c.toNat) && decide (c.toNat ≤ 13))

/-- The value of a string of decimal digits. -/
def digitsValue (ds : List Char) : Nat :=
  ds.foldl (fun acc c => 10 * acc + (c.toNat - 48)) 0

/-- Embeds `std::stoul(str)` with the base 10, as the standard library defines it on
`strtoul`: white space is skipped, a sign may follow, then the longest run
of digits is read and what follows is ignored; without a digit it throws
`std::invalid_argument`, with a value that an `unsigned long` of `ulongBits`
bits does not hold it throws `std::out_of_range`; the value after a minus
sign is negated in the type. -/
def stoul (ulongBits : Nat) (str : String) : Except StdException Nat :=
  let afterSpace := str.toList.dropWhile isspace
  let negative := afterSpace.head? = some '-'
  let afterSign :=
    if afterSpace.head? = some '-' ∨ afterSpace.head? = some '+' then afterSpace.tail
    else afterSpace
  let digits := afterSign.takeWhile Char.isDigit
  if digits = [] then
    .error { what := "stoul", classes := ["std::invalid_argument", "std::logic_error"] }
  else if digitsValue digits ≥ 2 ^ ulongBits then
    .error { what := "stoul", classes := ["std::out_of_range", "std::logic_error"] }
  else if negative then .ok ((2 ^ ulongBits - digitsValue digits) % 2 ^ ulongBits)
  else .ok (digitsValue digits)

end Cpp

namespace SilKitSystemMonitor

/-- What `ParseArguments` leaves in the parser when it returns: the values of the
flags and of the options that `main` reads. -/
structure Arguments where
  help : Bool
  version : Bool
  connectUri : String
  name : String
  configuration : String
deriving DecidableEq, Repr

/-- The library calls of `main`, with a configuration type `C`: each returns or throws.
`run` stands for the last `try` block: `CreateParticipant`, the registration of
the two handlers at the system monitor and the wait for the enter key. -/
structure Library (C : Type) where
  ParseArguments : List String → Except Cpp.StdException Arguments
  ParticipantConfigurationFromFile : String → Except Cpp.StdException C
  ParticipantConfigurationFromString : String → Except Cpp.StdException C
  run : C → String → String → Except Cpp.StdException Unit

/-- Embeds `main` of `PassiveSystemMonitor.cpp`: the exit code, or `none` when
an exception leaves `main`. -/
def main {C : Type} (L : Library C) (argv : List String) : Option Int :=
  match L.ParseArguments argv with
  | .error e => if e.isA "std::runtime_error" then some (-1) else none
  | .ok args =>
    if args.help then some 0
    else if args.version then some 0
    else
      let connectUri := args.connectUri
      let participantName := args.name
      let configurationFilename := args.configuration
      match (if configurationFilename ≠ "" then
          L.ParticipantConfigurationFromFile configurationFilename
        else L.ParticipantConfigurationFromString "") with
      | .error e => if e.isA "SilKit::ConfigurationError" then some (-2) else none
      | .ok configuration =>
        match L.run configuration participantName connectUri with
        | .error _ => some (-3)
        | .ok () => some 0

/-- A library for the examples: the arguments are read off the list given (a flag
is set when its long name is among them), the only configuration file is
`ok.yaml`, and the participant cannot be created under the name `Taken`. -/
def exampleLibrary : Library String :=
  { ParseArguments := fun argv =>
      if "--bogus" ∈ argv then
        .error { what := "Unknown argument --bogus", classes := ["std::runtime_error"] }
      else
        .ok { help := decide ("--help" ∈ argv), version := decide ("--version" ∈ argv),
              connectUri := "silkit://localhost:8500",
              name := if "--name=Taken" ∈ argv then "Taken" else "SystemMonitor",
              configuration :=
                if "--configuration=ok.yaml" ∈ argv then "ok.yaml"
                else if "--configuration=bad.yaml" ∈ argv then "bad.yaml" else "" }
    ParticipantConfigurationFromFile := fun filename =>
      if filename = "ok.yaml" then .ok "ok"
      else .error { what := "cannot load " ++ filename,
                    classes := ["SilKit::ConfigurationError", "SilKit::SilKitError"] }
    ParticipantConfigurationFromString := fun _ => .ok "default"
    run := fun _ participantName _ =>
      if participantName = "Taken" then
        .error { what := "name in use", classes := ["SilKit::SilKitError"] }
      else .ok () }

end SilKitSystemMonitor

namespace RegistryDemo

/-- The library calls of `main`, with a configuration type `C`: each returns or throws.
`run` stands for the construction of the registry, `ProvideDomain` with the
domain id, the wait on the future and the wait for the enter key;
`ulongBits` is the width of `unsigned long`. -/
structure Library (C : Type) where
  ulongBits : Nat
  FromJsonFile : String → Except Cpp.StdException C
  run : C → Nat → Except Cpp.StdException Unit

/-- The handlers of `main`: `ib::cfg::Misconfiguration` first, then `std::exception`. -/
def handlers (e : Cpp.StdException) : Option Int :=
  if e.isA "ib::cfg::Misconfiguration" then some (-2) else some (-3)

/-- Embeds `main` of `RegistryDemo.cpp`; `argv` holds the `argc` arguments, the name of
the program first. -/
def main {C : Type} (L : Library C) (argv : List String) : Option Int :=
  if argv.length < 2 then some (-1)
  else
    let jsonFilename := argv.getD 1 ""
    match (if argv.length ≥ 3 then
        (Cpp.stoul L.ulongBits (argv.getD 2 "")).map (fun v => v % 2 ^ 32)
      else .ok 42) with
    | .error e => handlers e
    | .ok domainId =>
      match L.FromJsonFile jsonFilename with
      | .error e => handlers e
      | .ok ibConfig =>
        match L.run ibConfig domainId with
        | .error e => handlers e
        | .ok () => some 0

/-- A library for the examples: every file but `IbConfig.json` is a misconfiguration,
the registry runs. -/
def exampleLibrary : Library String :=
  { ulongBits := 64
    FromJsonFile := fun filename =>
      if filename = "IbConfig.json" then .ok "config"
      else .error { what := "cannot load " ++ filename,
                    classes := ["ib::cfg::Misconfiguration", "std::runtime_error"] }
    run := fun _ _ => .ok () }

end RegistryDemo

/-! ## `LinController.cpp`: the slave responses known to a master, and the reception of
a transmission -/

namespace SilKit
namespace Services
namespace Lin

/-- A LIN transmission (`LinTransmission`). -/
structure LinTransmission where
  timestamp : Int
  frame : LinFrame
  status : LinFrameStatus
deriving DecidableEq, Repr

/-- What `ReceiveMsg` reads of the sender `from`: what `AllowReception(from)` of the
simulation behaviour answers, and the names in its service descriptor. -/
structure Sender where
  AllowReception : Bool
  participantName : String
  serviceName : String
deriving DecidableEq, Repr

/-- One call of `_tracer.Trace` with the direction `RX`. -/
structure TraceCall where
  timestamp : Int
  frame : LinFrame
deriving DecidableEq, Repr

/-- What `ReceiveMsg` uses and the sources do not hold: the constants `_maxDataLength`
and `_maxLinId` of `LinController.hpp`, the frame that `GoToSleepFrame()` returns,
the name that formatting gives a checksum model, and `CalcFrameStatus` of the
simulation behaviour, which sees the controller, the transmission and
whether it is a go-to-sleep frame. -/
structure ReceiveExternals where
  _maxDataLength : Nat
  _maxLinId : Nat
  GoToSleepFrame : LinFrame
  checksumModelName : LinChecksumModel → String
  CalcFrameStatus : LinController → LinTransmission → Bool → LinFrameStatus

namespace LinController

/-- Embeds `LinController::UpdateLinIdsRespondedBySlaves`. -/
def UpdateLinIdsRespondedBySlaves (self : LinController) : List LinFrameResponse → LinController
  | [] => self
  | response :: rest =>
    if response.responseMode = LinFrameResponseMode.TxUnconditional then
      if ¬ self.HasRespondingSlave response.frame.id then
        UpdateLinIdsRespondedBySlaves
          { self with _linIdsRespondedBySlaves :=
              self._linIdsRespondedBySlaves ++ [response.frame.id] } rest
      else UpdateLinIdsRespondedBySlaves self rest
    else UpdateLinIdsRespondedBySlaves self rest

/-- Embeds `LinController::WarnOnReceptionWhileInactive`. -/
def WarnOnReceptionWhileInactive (self : LinController) : LinController :=
  { self with _logger := self._logger ++
      [LogCall.Warn "Inactive LinController received a transmission. This transmission is ignored."] }

/-- Embeds `LinController::WarnOnReceptionWithInvalidDataLength`. -/
def WarnOnReceptionWithInvalidDataLength (self : LinController) (invalidDataLength : Nat)
    (fromParticipantName fromServiceName : String) : LinController :=
  { self with _logger := self._logger ++
      [LogCall.Warn ("LinController received transmission with invalid payload length " ++
        toString invalidDataLength ++ " from \x7b" ++ fromParticipantName ++ ", " ++
        fromServiceName ++ "\x7d. This tranmission is ignored.")] }

/-- Embeds `LinController::WarnOnReceptionWithInvalidLinId`. -/
def WarnOnReceptionWithInvalidLinId (self : LinController) (invalidLinId : Nat)
    (fromParticipantName fromServiceName : String) : LinController :=
  { self with _logger := self._logger ++
      [LogCall.Warn ("LinController received transmission with invalid LIN ID " ++
        toString invalidLinId ++ " from \x7b" ++ fromParticipantName ++ ", " ++
        fromServiceName ++ "\x7d. This transmission is ignored.")] }

/-- Embeds `LinController::WarnOnOverwriteOfUnconfiguredChecksum`. -/
def WarnOnOverwriteOfUnconfiguredChecksum (X : ReceiveExternals) (self : LinController)
    (frame : LinFrame) : LinController :=
  { self with _logger := self._logger ++
      [LogCall.Warn ("LinController received transmission but has configured " ++
        "LinChecksumModel::Undefined. Overwriting with " ++
        X.checksumModelName frame.checksumModel ++ " for LinId " ++ toString frame.id ++ ".")] }

/-- The part of `ReceiveMsg(from, LinTransmission)` that updates an undefined checksum
model of a response configured for reception: `response` is a reference to
`GetThisLinNode().responses[frame.id]`. -/
def ReceiveMsg_checksum (X : ReceiveExternals) (self : LinController) (frame : LinFrame)
    (isGoToSleepFrame : Bool) : LinController :=
  let response := self.GetThisLinNode.2.2.responses.getD frame.id defaultResponse
  if ¬ isGoToSleepFrame ∧ response.responseMode = LinFrameResponseMode.Rx
      ∧ response.frame.checksumModel = LinChecksumModel.Undefined then
    (WarnOnOverwriteOfUnconfiguredChecksum X self frame).updateThisLinNode (fun node logger =>
      ({ node with responses := (node.responses.modify
          (fun r => { r with frame := { r.frame with checksumModel := frame.checksumModel } })
          frame.id) }, logger))
  else
    { self with _linNodes := self.GetThisLinNode.1 }

/-- Embeds `LinController::ReceiveMsg(from, const LinTransmission&)`: the controller after
the call and the calls made on the tracer. -/
def ReceiveMsg (X : ReceiveExternals) (self : LinController) (sender : Sender)
    (msg : LinTransmission) : LinController × List TraceCall :=
  if ¬ sender.AllowReception then (self, [])
  else if self._controllerMode = LinControllerMode.Inactive then
    (self.WarnOnReceptionWhileInactive, [])
  else
    let frame := msg.frame
    if frame.dataLength > X._maxDataLength then
      (self.WarnOnReceptionWithInvalidDataLength frame.dataLength sender.participantName
        sender.serviceName, [])
    else if frame.id ≥ X._maxLinId then
      (self.WarnOnReceptionWithInvalidLinId frame.id sender.participantName sender.serviceName, [])
    else
      let isGoToSleepFrame : Bool :=
        decide (frame.id = X.GoToSleepFrame.id) && decide (frame.data = X.GoToSleepFrame.data)
      let self1 := ReceiveMsg_checksum X self frame isGoToSleepFrame
      let msgStatus := X.CalcFrameStatus self1 msg isGoToSleepFrame
      let self2 :=
        if msgStatus ≠ LinFrameStatus.LIN_RX_NO_RESPONSE then
          self1.CallHandlers (HandlerCall.LinFrameStatusEvent msg.timestamp frame msgStatus)
        else self1
      let self3 :=
        if isGoToSleepFrame then
          if self2._controllerMode = LinControllerMode.Slave then
            self2.CallHandlers (HandlerCall.LinGoToSleepEvent msg.timestamp)
          else self2
        else self2
      (self3, [{ timestamp := msg.timestamp, frame := frame }])

/-- The externals of the examples: frames of at most 8 bytes, ids below 64, the
go-to-sleep frame of LIN (id 60, first byte 0, the others 255), and
a simulation behaviour that passes the status of the transmission on. -/
def exampleExternals : ReceiveExternals :=
  { _maxDataLength := 8
    _maxLinId := 64
    GoToSleepFrame :=
      { id := 60, checksumModel := LinChecksumModel.Classic, dataLength := 8,
        data := [0, 255, 255, 255, 255, 255, 255, 255] }
    checksumModelName := fun m =>
      match m with
      | LinChecksumModel.Undefined => "Undefined"
      | LinChecksumModel.Enhanced => "Enhanced"
      | LinChecksumModel.Classic => "Classic"
    CalcFrameStatus := fun _ msg _ => msg.status }

/-- A sender whose messages are allowed. -/
def exampleSender : Sender :=
  { AllowReception := true, participantName := "Master", serviceName := "LIN1" }

/-- A transmission of the go-to-sleep frame of the examples. -/
def sleepTransmission : LinTransmission :=
  { timestamp := 100, frame := exampleExternals.GoToSleepFrame, status := LinFrameStatus.LIN_RX_OK }

/-- A configuration of a slave without frame responses. -/
def slaveConfig : LinControllerConfig :=
  { controllerMode := LinControllerMode.Slave, baudRate := 20000, frameResponses := [] }

end LinController

end Lin
end Services
end SilKit

/-! ## `IntegrationBus/source/sim/lin/LinControllerProxy.cpp`, `LinControllerReplay.cpp`

A handler registered by the user is embedded as its identity, a number; the
invocations of handlers are recorded in order, each with its arguments but
for the pointer to the controller. -/

namespace ib
namespace sim
namespace lin

/-- Embeds `mw::EndpointAddress`. -/
structure EndpointAddress where
  participant : Nat
  endpoint : Nat
deriving DecidableEq, Repr

/-- The values of `ControllerMode`. -/
inductive ControllerMode where
  | Inactive | Master | Slave
deriving DecidableEq, Repr

/-- The values of `ControllerStatus`. -/
inductive ControllerStatus where
  | Unknown | Operational | Sleep | SleepPending
deriving DecidableEq, Repr

/-- The values of `ChecksumModel`. -/
inductive ChecksumModel where
  | Undefined | Enhanced | Classic
deriving DecidableEq, Repr

/-- The values of `FrameResponseMode`. -/
inductive FrameResponseMode where
  | Unused | Rx | TxUnconditional
deriving DecidableEq, Repr

/-- The values of `FrameStatus`. -/
inductive FrameStatus where
  | NOT_OK | LIN_TX_OK | LIN_TX_BUSY | LIN_TX_HEADER_ERROR | LIN_TX_ERROR
  | LIN_RX_OK | LIN_RX_BUSY | LIN_RX_ERROR | LIN_RX_NO_RESPONSE
deriving DecidableEq, Repr

/-- A LIN frame (`Frame`). -/
structure Frame where
  id : Nat
  checksumModel : ChecksumModel
  dataLength : Nat
  data : List Nat
deriving DecidableEq, Repr

/-- A frame response (`FrameResponse`). -/
structure FrameResponse where
  frame : Frame
  responseMode : FrameResponseMode
deriving DecidableEq, Repr

/-- A transmission (`Transmission`). -/
structure Transmission where
  timestamp : Int
  frame : Frame
  status : FrameStatus
deriving DecidableEq, Repr

/-- The values of `extensions::Direction` that the sources name, and any other value
of the type. -/
inductive Direction where
  | Send | Receive | other (value : Nat)
deriving DecidableEq, Repr

/-- One invocation of a handler: the handler and the arguments given to it after
the pointer to the controller. -/
inductive Invocation where
  | FrameStatusHandler (handler : Nat) (frame : Frame) (status : FrameStatus) (timestamp : Int)
  | GoToSleepHandler (handler : Nat)
  | WakeupHandler (handler : Nat)
  | FrameResponseUpdateHandler (handler : Nat) (sender : EndpointAddress)
      (response : FrameResponse)
deriving DecidableEq, Repr

/-- One call of `_tracer.Trace`. -/
structure TraceCall where
  direction : Direction
  timestamp : Int
  frame : Frame
deriving DecidableEq, Repr

/-- The state of a `LinControllerProxy`: its members, the warnings given to the logger,
the calls on the tracer and the invocations of handlers. -/
structure LinControllerProxy where
  _endpointAddr : EndpointAddress
  _controllerMode : ControllerMode
  _controllerStatus : ControllerStatus
  _frameStatusHandler : List Nat
  _goToSleepHandler : List Nat
  _wakeupHandler : List Nat
  _frameResponseUpdateHandler : List Nat
  _logger : List String
  _tracer : List TraceCall
  invocations : List Invocation
deriving DecidableEq, Repr

/-- Embeds `AreMatchingProxyEndpoints`. -/
def AreMatchingProxyEndpoints (lhs rhs : EndpointAddress) : Bool :=
  decide (lhs.participant ≠ rhs.participant) && decide (lhs.endpoint = rhs.endpoint)

namespace LinControllerProxy

/-- Embeds `LinControllerProxy::RegisterFrameStatusHandler`. -/
def RegisterFrameStatusHandler (self : LinControllerProxy) (handler : Nat) : LinControllerProxy :=
  { self with _frameStatusHandler := self._frameStatusHandler ++ [handler] }

/-- Embeds `LinControllerProxy::RegisterGoToSleepHandler`. -/
def RegisterGoToSleepHandler (self : LinControllerProxy) (handler : Nat) : LinControllerProxy :=
  { self with _goToSleepHandler := self._goToSleepHandler ++ [handler] }

/-- Embeds `CallEach(callbacks, args...)`: every callback of the range is invoked, in
the order of the range; `invoke` gives the invocation of a callback with the
arguments. -/
def CallEach (self : LinControllerProxy) (callbacks : List Nat) (invoke : Nat → Invocation) :
    LinControllerProxy :=
  { self with invocations := self.invocations ++ callbacks.map invoke }

/-- Embeds `LinControllerProxy::ReceiveIbMessage(from, const Transmission&)`; `GoToSleepFrame` is
what `GoToSleepFrame()` returns, declared outside the sources. -/
def ReceiveIbMessage (GoToSleepFrame : Frame) (self : LinControllerProxy)
    (sender : EndpointAddress) (msg : Transmission) : LinControllerProxy :=
  if ¬ AreMatchingProxyEndpoints sender self._endpointAddr then self
  else
    let frame := msg.frame
    if frame.dataLength > 8 then
      { self with _logger := self._logger ++
          ["LinController received transmission with payload length " ++
            toString frame.dataLength ++ " from \x7b" ++ toString sender.participant ++ ", " ++
            toString sender.endpoint ++ "\x7d"] }
    else if frame.id ≥ 64 then
      { self with _logger := self._logger ++
          ["LinController received transmission with invalid LIN ID " ++
            toString frame.id ++ " from \x7b" ++ toString sender.participant ++ ", " ++
            toString sender.endpoint ++ "\x7d"] }
    else
      let self1 :=
        if self._controllerMode = ControllerMode.Inactive then
          { self with _logger := self._logger ++
              ["Inactive LinControllerProxy received a transmission."] }
        else self
      let self2 : LinControllerProxy :=
        { self1 with _tracer := self1._tracer ++
            [{ direction := Direction.Receive, timestamp := msg.timestamp, frame := frame }] }
      let self3 := self2.CallEach self2._frameStatusHandler
        (fun handler => Invocation.FrameStatusHandler handler frame msg.status msg.timestamp)
      if frame.id = GoToSleepFrame.id ∧ frame.data = GoToSleepFrame.data then
        if self3._controllerMode = ControllerMode.Slave then
          self3.CallEach self3._goToSleepHandler Invocation.GoToSleepHandler
        else self3
      else self3

/-- A proxy of the participant 1 with the endpoint 5, in the mode given, without
handlers. -/
def emptyProxy (mode : ControllerMode) : LinControllerProxy :=
  { _endpointAddr := { participant := 1, endpoint := 5 }
    _controllerMode := mode
    _controllerStatus := ControllerStatus.Operational
    _frameStatusHandler := []
    _goToSleepHandler := []
    _wakeupHandler := []
    _frameResponseUpdateHandler := []
    _logger := []
    _tracer := []
    invocations := [] }

/-- The proxy `emptyProxy` after the frame-status handlers 10 and 11, the go-to-sleep
handler 20 and the frame-status handler 12 were registered, in this order. -/
def exampleProxy (mode : ControllerMode) : LinControllerProxy :=
  ((((emptyProxy mode).RegisterFrameStatusHandler 10).RegisterFrameStatusHandler
    11).RegisterGoToSleepHandler 20).RegisterFrameStatusHandler 12

end LinControllerProxy

/-- The go-to-sleep frame of LIN, used in the examples: id 60, first byte 0, the
others 255. -/
def exampleGoToSleepFrame : Frame :=
  { id := 60, checksumModel := ChecksumModel.Classic, dataLength := 8,
    data := [0, 255, 255, 255, 255, 255, 255, 255] }

/-- A transmission of a frame with the id 17, used in the examples. -/
def exampleTransmission : Transmission :=
  { timestamp := 42,
    frame := { id := 17, checksumModel := ChecksumModel.Enhanced, dataLength := 4,
               data := [1, 2, 3, 4, 0, 0, 0, 0] },
    status := FrameStatus.LIN_RX_OK }

/-- What `ReplayMessage` reads of an `extensions::IReplayMessage`: its timestamp, direction
and endpoint address, and the frame that `dynamic_cast<const Frame&>` gives,
`none` when the message is not a frame and the cast throws `std::bad_cast`. -/
structure IReplayMessage where
  Timestamp : Int
  GetDirection : Direction
  EndpointAddress : EndpointAddress
  frame : Option Frame
deriving DecidableEq, Repr

/-- A message given to `_comAdapter->SendIbMessage` with the address it is sent from. -/
inductive SentMessage where
  | FrameResponseUpdate (sender : EndpointAddress) (frameResponses : List FrameResponse)
  | Transmission (sender : EndpointAddress) (tm : Transmission)
deriving DecidableEq, Repr

/-- The exceptions that `ReplayMessage` throws. -/
inductive ReplayException where
  | runtime_error (what : String)
  | bad_cast
deriving DecidableEq, Repr

/-- The state of a `LinControllerReplay`: its mode, the endpoint address of the
controller it wraps, the handlers registered with it, the time of the time
provider, and the records of the messages sent, of the calls on the tracer
and of the invocations of handlers. -/
structure LinControllerReplay where
  _mode : ControllerMode
  controllerEndpointAddress : EndpointAddress
  _frameStatusHandler : List Nat
  _goToSleepHandler : List Nat
  now : Int
  _comAdapter : List SentMessage
  _tracer : List TraceCall
  invocations : List Invocation
deriving DecidableEq, Repr

namespace LinControllerReplay

/-- Embeds `LinControllerReplay::ReplayMessage`; `GoToSleepFrame` is what `GoToSleepFrame()`
returns, declared outside the sources. -/
def ReplayMessage (GoToSleepFrame : Frame) (self : LinControllerReplay)
    (replayMessage : IReplayMessage) : Except ReplayException Unit × LinControllerReplay :=
  match replayMessage.GetDirection with
  | Direction.other _ =>
    (.error (ReplayException.runtime_error
      "LinControllerReplay: replay message has undefined Direction"), self)
  | _ =>
    match replayMessage.frame with
    | none => (.error ReplayException.bad_cast, self)
    | some frame =>
      let mode :=
        if replayMessage.GetDirection = Direction.Receive then FrameResponseMode.Rx
        else FrameResponseMode.TxUnconditional
      let self1 : LinControllerReplay :=
        { self with _tracer := self._tracer ++
            [{ direction := replayMessage.GetDirection, timestamp := self.now, frame := frame }] }
      let response : FrameResponse := { frame := frame, responseMode := mode }
      let self2 : LinControllerReplay :=
        { self1 with _comAdapter := self1._comAdapter ++
            [SentMessage.FrameResponseUpdate replayMessage.EndpointAddress [response]] }
      if self2._mode = ControllerMode.Master then
        let tm : Transmission :=
          { timestamp := replayMessage.Timestamp, frame := frame, status := FrameStatus.LIN_RX_OK }
        let self3 : LinControllerReplay :=
          { self2 with _comAdapter := self2._comAdapter ++
              [SentMessage.Transmission replayMessage.EndpointAddress tm] }
        let masterFrameStatus :=
          if mode = FrameResponseMode.TxUnconditional then FrameStatus.LIN_TX_OK else tm.status
        let self4 : LinControllerReplay :=
          if replayMessage.EndpointAddress = self3.controllerEndpointAddress then
            { self3 with invocations := self3.invocations ++
                self3._frameStatusHandler.map (fun handler =>
                  Invocation.FrameStatusHandler handler tm.frame masterFrameStatus tm.timestamp) }
          else self3
        if tm.frame.id = GoToSleepFrame.id ∧ tm.frame.data = GoToSleepFrame.data then
          (.ok (), { self4 with invocations := self4.invocations ++
              self4._goToSleepHandler.map Invocation.GoToSleepHandler })
        else (.ok (), self4)
      else (.ok (), self2)

/-- A replay controller in the mode given, wrapping the controller of the
participant 1 with the endpoint 5, with the frame-status handlers 10 and 11
and the go-to-sleep handler 20, at the time 7. -/
def exampleReplay (mode : ControllerMode) : LinControllerReplay :=
  { _mode := mode
    controllerEndpointAddress := { participant := 1, endpoint := 5 }
    _frameStatusHandler := [10, 11]
    _goToSleepHandler := [20]
    now := 7
    _comAdapter := []
    _tracer := []
    invocations := [] }

/-- A replay message of the direction given, recorded at the time 42 by the
endpoint 5 of the participant 1, holding the frame of `exampleTransmission`. -/
def exampleReplayMessage (direction : Direction) : IReplayMessage :=
  { Timestamp := 42, GetDirection := direction,
    EndpointAddress := { participant := 1, endpoint := 5 },
    frame := some exampleTransmission.frame }

end LinControllerReplay

end lin
end sim
end ib

/-! ## `CapiOrchestration.cpp`: the participant status in the C interface -/

namespace SilKit
namespace Capi

/-- Embeds `Services::Orchestration::ParticipantStatus` as the C interface reads it; the two
time points are given by `time_since_epoch().count()`, the number of ticks of the
system clock. -/
structure ParticipantStatus where
  participantName : String
  state : Core.Orchestration.ParticipantState
  enterReason : String
  enterTime : Int
  refreshTime : Int
deriving DecidableEq, Repr

/-- The C struct `SilKit_ParticipantStatus`: its header and the fields that the sources
write; the strings stand for the pointers to their characters, the times are
of the type `SilKit_NanosecondsTime`, unsigned and 64 bits wide. -/
structure SilKit_ParticipantStatus where
  structHeader : Nat
  participantName : String
  participantState : Core.Orchestration.ParticipantState
  enterReason : String
  enterTime : Nat
  refreshTime : Nat
deriving DecidableEq, Repr

/-- What the status functions use and the sources do not hold: the number of
nanoseconds in a tick of the system clock, the macro `SilKit_Struct_Init` for
`SilKit_ParticipantStatus`, what the macro `ASSERT_VALID_STRUCT_HEADER` returns for
a struct (`none` when the header is valid), what `ASSERT_VALID_HANDLER_PARAMETER`
returns for a null handler, and the content of a local struct that is not
initialised. -/
structure StatusExternals where
  nsPerTick : Nat
  SilKit_Struct_Init : SilKit_ParticipantStatus → SilKit_ParticipantStatus
  ASSERT_VALID_STRUCT_HEADER : SilKit_ParticipantStatus → Option (SilKit_ReturnCode × String)
  ASSERT_VALID_HANDLER_PARAMETER : SilKit_ReturnCode × String
  indeterminate : SilKit_ParticipantStatus

/-- The conversion of a signed count of 64 bits to `uint64_t`. -/
def toUInt64 (x : Int) : Nat :=
  (x % 2 ^ 64).toNat

/-- Embeds `std::chrono::duration_cast<std::chrono::nanoseconds>(d).count()` for a duration of
the system clock with the count `d`. -/
def duration_cast_ns (nsPerTick : Nat) (d : Int) : Int :=
  d * nsPerTick

/-- The struct after `SilKit_ParticipantStatus cstatus {}`: every member is zero; the
state of the value 0 is `Invalid`. -/
def zeroStatus : SilKit_ParticipantStatus :=
  { structHeader := 0, participantName := "",
    participantState := Core.Orchestration.ParticipantState.Invalid, enterReason := "",
    enterTime := 0, refreshTime := 0 }

/-- Embeds `SilKit_SystemMonitor_GetParticipantStatus`. `ParticipantStatus` is what
`systemMonitor->ParticipantStatus(participantName)` does: it returns the status or
throws. The result is the return code, the content of the out struct after
the call and the error string after the call. -/
def SilKit_SystemMonitor_GetParticipantStatus (M : CapiImpl) (X : StatusExternals)
    (ParticipantStatus : String → Except CppException ParticipantStatus)
    (SilKit_error_string : String)
    (outParticipantState : Option SilKit_ParticipantStatus) (csystemMonitor : Option Nat)
    (participantName : Option String) :
    SilKit_ReturnCode × Option SilKit_ParticipantStatus × String :=
  match csystemMonitor with
  | none => (M.ASSERT_VALID_POINTER_PARAMETER.1, outParticipantState,
      M.ASSERT_VALID_POINTER_PARAMETER.2)
  | some _ =>
    match outParticipantState with
    | none => (M.ASSERT_VALID_OUT_PARAMETER.1, none, M.ASSERT_VALID_OUT_PARAMETER.2)
    | some out =>
      match participantName with
      | none => (M.ASSERT_VALID_POINTER_PARAMETER.1, some out,
          M.ASSERT_VALID_POINTER_PARAMETER.2)
      | some name =>
        match X.ASSERT_VALID_STRUCT_HEADER out with
        | some r => (r.1, some out, r.2)
        | none =>
          match ParticipantStatus name with
          | .error e => ((M.CAPI_LEAVE e).1, some out, (M.CAPI_LEAVE e).2)
          | .ok participantStatus =>
            let cstatus := X.SilKit_Struct_Init zeroStatus
            let cstatus := { cstatus with enterReason := participantStatus.enterReason }
            let cstatus := { cstatus with enterTime := toUInt64 participantStatus.enterTime }
            let cstatus := { cstatus with participantName := participantStatus.participantName }
            let cstatus := { cstatus with participantState := participantStatus.state }
            (SilKit_ReturnCode.SUCCESS, some cstatus, SilKit_error_string)

/-- One call of a C handler of the type `SilKit_ParticipantStatusHandler_t`: the context, the
system monitor, the participant name and the struct that the last argument
points to. -/
structure ParticipantStatusHandlerCall where
  context : Nat
  systemMonitor : Nat
  participantName : String
  status : SilKit_ParticipantStatus
deriving DecidableEq, Repr

/-- The body of the lambda that `SilKit_SystemMonitor_AddParticipantStatusHandler` registers:
the call of the C handler that it makes for a status. -/
def participantStatusHandler (X : StatusExternals) (context csystemMonitor : Nat)
    (cppStatus : ParticipantStatus) : ParticipantStatusHandlerCall :=
  let cStatus := X.SilKit_Struct_Init X.indeterminate
  let cStatus := { cStatus with enterReason := cppStatus.enterReason }
  let cStatus :=
    { cStatus with enterTime := toUInt64 (duration_cast_ns X.nsPerTick cppStatus.enterTime) }
  let cStatus := { cStatus with participantName := cppStatus.participantName }
  let cStatus := { cStatus with participantState := cppStatus.state }
  let cStatus :=
    { cStatus with refreshTime := toUInt64 (duration_cast_ns X.nsPerTick cppStatus.refreshTime) }
  { context := context, systemMonitor := csystemMonitor,
    participantName := cppStatus.participantName, status := cStatus }

/-- Embeds `SilKit_SystemMonitor_AddParticipantStatusHandler`. `AddParticipantStatusHandler` is what the
call of that name on the system monitor does: it returns a handler id or
throws. The result is the return code, the content of `outHandlerId` after the
call, and the callback registered with the system monitor, if one was. -/
def SilKit_SystemMonitor_AddParticipantStatusHandler (M : CapiImpl) (X : StatusExternals)
    (AddParticipantStatusHandler : Except CppException Nat)
    (csystemMonitor : Option Nat) (context : Nat) (handler : Option Nat)
    (outHandlerId : Option Nat) :
    SilKit_ReturnCode × Option Nat × Option (ParticipantStatus → ParticipantStatusHandlerCall) :=
  match csystemMonitor with
  | none => (M.ASSERT_VALID_POINTER_PARAMETER.1, outHandlerId, none)
  | some monitor =>
    match handler with
    | none => (X.ASSERT_VALID_HANDLER_PARAMETER.1, outHandlerId, none)
    | some _ =>
      match outHandlerId with
      | none => (M.ASSERT_VALID_OUT_PARAMETER.1, none, none)
      | some old =>
        match AddParticipantStatusHandler with
        | .error e => ((M.CAPI_LEAVE e).1, some old, none)
        | .ok cppHandlerId =>
          (SilKit_ReturnCode.SUCCESS, some cppHandlerId,
            some (participantStatusHandler X context monitor))

/-- The externals of the examples: the system clock counts nanoseconds, the macro
`SilKit_Struct_Init` clears the struct and sets the version 1 in its header, and
a header is valid when it holds that version. -/
def exampleStatusExternals : StatusExternals :=
  { nsPerTick := 1
    SilKit_Struct_Init := fun _ => { zeroStatus with structHeader := 1 }
    ASSERT_VALID_STRUCT_HEADER := fun s =>
      if s.structHeader = 1 then none else some (SilKit_ReturnCode.BADPARAMETER, "bad header")
    ASSERT_VALID_HANDLER_PARAMETER := (SilKit_ReturnCode.BADPARAMETER, "null handler")
    indeterminate := { zeroStatus with enterTime := 77, refreshTime := 88 } }

/-- A participant status with the enter time 5 and the refresh time 9. -/
def exampleParticipantStatus : ParticipantStatus :=
  { participantName := "P1", state := Core.Orchestration.ParticipantState.Running,
    enterReason := "run", enterTime := 5, refreshTime := 9 }

end Capi
end SilKit
namespace ib
namespace mw
namespace ComAdapter

/-! ## ComAdapter: lemmas -/


theorem lookup_filter_ne (m : List ((String × String) × Controller)) (k k' : String × String)
    (h : k ≠ k') : (m.filter (fun e => e.1 ≠ k')).lookup k = m.lookup k := by
  induction m with
  | nil => rfl
  | cons e m ih =>
    obtain ⟨a, b⟩ := e
    by_cases hak : a = k'
    · subst hak
      have : (k == a) = false := by simpa using h
      simpa [List.filter_cons, List.lookup_cons, this] using ih
    · by_cases hka : k = a
      · subst hka
        simp [List.filter_cons, List.lookup_cons, hak]
      · have : (k == a) = false := by simpa using hka
        simpa [List.filter_cons, List.lookup_cons, hak, this] using ih

theorem lookup_assign_self (m : List ((String × String) × Controller)) (k : String × String)
    (c : Controller) : (assign m k c).lookup k = some c := by
  simp [assign, List.lookup]

theorem lookup_assign_ne (m : List ((String × String) × Controller)) (k k' : String × String)
    (c : Controller) (h : k ≠ k') : (assign m k' c).lookup k = m.lookup k := by
  have hb : (k == k') = false := by simpa using h
  simp only [assign, List.lookup_cons, hb]
  exact lookup_filter_ne m k k' h

/-- What `CreateController_store` returns for a non-empty service name. -/
theorem CreateController_store_ok (self : ComAdapter) (T : ControllerT) (link : cfg.Link)
    (serviceName : String) (serviceType : ServiceType) (supplementalData : SupplementalData)
    (h : serviceName ≠ "") :
    ∃ c s1, self.CreateController_store T link serviceName serviceType supplementalData
        = (.ok c, s1)
      ∧ c.addr = self.constructed.length
      ∧ c.descriptor.serviceId = self._localEndpointId
      ∧ s1.constructed = self.constructed ++ [c]
      ∧ s1._localEndpointId = (self._localEndpointId + 1) % 2 ^ endpointIdBits
      ∧ s1.links = self.links ∧ s1._traceSinks = self._traceSinks
      ∧ s1._controllers = assign self._controllers (T.mapName, link.name ++ "/" ++ serviceName) c := by
  unfold CreateController_store
  rw [if_neg h]
  exact ⟨_, _, rfl, rfl, rfl, rfl, rfl, rfl, rfl, rfl⟩

/-- The nested request of the service discovery finds the controller just stored. -/
theorem GetController_CreateController_store (self s1 : ComAdapter) (T : ControllerT)
    (link : cfg.Link) (serviceName : String) (serviceType : ServiceType)
    (supplementalData : SupplementalData) (c : Controller)
    (h : self.CreateController_store T link serviceName serviceType supplementalData = (.ok c, s1)) :
    s1.GetController T link.name serviceName = some c := by
  unfold CreateController_store at h
  split at h
  · simp at h
  · simp only [Prod.mk.injEq, Except.ok.injEq] at h
    obtain ⟨hc, hs⟩ := h
    subst hs
    simp only [GetController]
    rw [lookup_assign_self, hc]

theorem GetServiceDiscovery_frame (self : ComAdapter) :
    self.GetServiceDiscovery.links = self.links
      ∧ self.GetServiceDiscovery._traceSinks = self._traceSinks
      ∧ ∀ k c, self._controllers.lookup k = some c →
          self.GetServiceDiscovery._controllers.lookup k = some c := by
  unfold GetServiceDiscovery
  cases hsd : self.GetController serviceDiscoveryT "default" "ServiceDiscovery" with
  | some x => simp
  | none =>
    simp only [CreateController_store, NotifyServiceCreated, defaultLink]
    refine ⟨by simp, by simp, ?_⟩
    intro k c hk
    have hne : k ≠ (serviceDiscoveryT.mapName, "default" ++ "/" ++ "ServiceDiscovery") := by
      intro heq
      rw [heq] at hk
      simp only [GetController] at hsd
      rw [hsd] at hk
      exact Option.noConfusion hk
    have : ("ServiceDiscovery" = "") = False := by decide
    simp only [this, if_false]
    rw [lookup_assign_ne _ _ _ _ hne]
    exact hk

theorem addSinks_frame (l : List String) (self : ComAdapter) (ts : Nat) (n : String) :
    (self.addSinks ts n l).2.links = self.links
      ∧ (self.addSinks ts n l).2._controllers = self._controllers := by
  induction l generalizing self with
  | nil => simp [addSinks]
  | cons a l ih =>
    unfold addSinks
    split
    · have := ih { self with addedSinks := self.addedSinks ++ [(ts, a)] }
      simpa using this
    · simp

theorem addSinks_ok (l : List String) (self : ComAdapter) (ts : Nat) (n : String)
    (h : ∀ s ∈ l, s ∈ self._traceSinks) : (self.addSinks ts n l).1 = .ok () := by
  induction l generalizing self with
  | nil => simp [addSinks]
  | cons a l ih =>
    unfold addSinks
    have ha : a ∈ self._traceSinks := h a (List.mem_cons_self _ _)
    simp only [ha, if_true]
    exact ih _ (fun s hs => h s (List.mem_cons_of_mem _ hs))

theorem AddTraceSinksToSource_frame (self : ComAdapter) (ts : Nat) (config : cfg.ControllerConfig) :
    (self.AddTraceSinksToSource ts config).2.links = self.links
      ∧ (self.AddTraceSinksToSource ts config).2._controllers = self._controllers := by
  unfold AddTraceSinksToSource
  split
  · simp
  · exact addSinks_frame _ _ _ _

theorem AddTraceSinksToSource_ok (self : ComAdapter) (ts : Nat) (config : cfg.ControllerConfig)
    (h : ∀ s ∈ config.useTraceSinks, s ∈ self._traceSinks) :
    (self.AddTraceSinksToSource ts config).1 = .ok () := by
  unfold AddTraceSinksToSource
  split
  · rfl
  · exact addSinks_ok _ _ _ _ h

/-- A successful `CreateController` leaves the links and trace sinks alone and the
new controller is found under its qualified name afterwards. -/
theorem CreateController_ok (self : ComAdapter) (T : ControllerT) (link : cfg.Link)
    (serviceName : String) (serviceType : ServiceType) (supplementalData : SupplementalData)
    (h : serviceName ≠ "") :
    ∃ c s1, self.CreateController T link serviceName serviceType supplementalData = (.ok c, s1)
      ∧ s1.links = self.links ∧ s1._traceSinks = self._traceSinks
      ∧ s1.GetController T link.name serviceName = some c := by
  obtain ⟨c, s1, hst, -, -, -, -, hl, hts, -⟩ :=
    CreateController_store_ok self T link serviceName serviceType supplementalData h
  have hget := GetController_CreateController_store self s1 T link serviceName serviceType
    supplementalData c hst
  obtain ⟨f1, f2, f3⟩ := GetServiceDiscovery_frame s1
  refine ⟨c, (s1.GetServiceDiscovery).NotifyServiceCreated c.descriptor, ?_, ?_, ?_, ?_⟩
  · simp [CreateController, hst]
  · simp [NotifyServiceCreated, f1, hl]
  · simp [NotifyServiceCreated, f2, hts]
  · simp only [GetController, NotifyServiceCreated]
    exact f3 _ _ hget

/-- A cached controller is returned without any change of the ComAdapter. -/
theorem CreateControllerForLinkNew_cached (self : ComAdapter) (T : ControllerT)
    (config : cfg.ControllerConfig) (serviceType : ServiceType)
    (supplementalData : SupplementalData) (link : cfg.Link) (c : Controller)
    (hlink : self.GetNetworkByName config.network = .ok link)
    (hget : self.GetController T link.name config.name = some c) :
    self.CreateControllerForLinkNew T config serviceType supplementalData = (.ok c, self) := by
  simp [CreateControllerForLinkNew, hlink, hget]

theorem GetNetworkByName_congr (s1 s2 : ComAdapter) (n : String) (h : s1.links = s2.links) :
    s1.GetNetworkByName n = s2.GetNetworkByName n := by
  simp [GetNetworkByName, h]


theorem CounterInv_store (self : ComAdapter) (T : ControllerT) (link : cfg.Link)
    (serviceName : String) (serviceType : ServiceType) (supplementalData : SupplementalData)
    (h : CounterInv self) :
    CounterInv (self.CreateController_store T link serviceName serviceType supplementalData).2 := by
  unfold CreateController_store
  split
  · exact h
  · obtain ⟨h1, h2⟩ := h
    simp only [serviceIds] at h1
    constructor
    · simp only [serviceIds, List.map_append, List.length_append, List.length_singleton,
        List.range_succ, List.map_cons, List.map_nil, h1, h2]
    · simp only [List.length_append, List.length_singleton, h2, endpointIdBits]
      omega

theorem CounterInv_GetServiceDiscovery (self : ComAdapter) (h : CounterInv self) :
    CounterInv self.GetServiceDiscovery := by
  unfold GetServiceDiscovery
  split
  · exact h
  · have := CounterInv_store self serviceDiscoveryT defaultLink "ServiceDiscovery"
      ServiceType.InternalController serviceDiscoverySupplementalData h
    split
    · rename_i heq
      rw [heq] at this
      exact this
    · rename_i heq
      rw [heq] at this
      exact this

theorem CounterInv_CreateController (self : ComAdapter) (T : ControllerT) (link : cfg.Link)
    (serviceName : String) (serviceType : ServiceType) (supplementalData : SupplementalData)
    (h : CounterInv self) :
    CounterInv (self.CreateController T link serviceName serviceType supplementalData).2 := by
  have := CounterInv_store self T link serviceName serviceType supplementalData h
  unfold CreateController
  split
  · rename_i heq
    rw [heq] at this
    exact this
  · rename_i heq
    rw [heq] at this
    exact CounterInv_GetServiceDiscovery _ this

theorem CounterInv_CreateControllers (reqs : List CreateRequest) (self : ComAdapter)
    (h : CounterInv self) : CounterInv (self.CreateControllers reqs) := by
  induction reqs generalizing self with
  | nil => exact h
  | cons r rest ih => exact ih _ (CounterInv_CreateController _ _ _ _ _ _ h)

theorem CounterInv_init (p : String) (links : List cfg.Link) (sinks : List String) :
    CounterInv (init p links sinks) := by
  simp [CounterInv, init, serviceIds, endpointIdBits]

theorem map_mod_range (m : Nat) (h : m ≤ 65535) :
    (List.range m).map (fun k => (1 + k) % 2 ^ endpointIdBits) = List.range' 1 m := by
  rw [List.range_eq_range']
  have : List.range' 1 m = (List.range' 0 m).map (fun k => 1 + k) := by
    rw [List.map_add_range']
  rw [this]
  apply List.map_congr_left
  intro k hk
  have hk' : k < m := by
    have := List.mem_range'.1 hk
    omega
  simp only [endpointIdBits]
  omega


theorem constructed_length_store (self : ComAdapter) (T : ControllerT) (link : cfg.Link)
    (serviceName : String) (serviceType : ServiceType) (supplementalData : SupplementalData) :
    (self.CreateController_store T link serviceName serviceType supplementalData).2.constructed.length
      = if serviceName = "" then self.constructed.length else self.constructed.length + 1 := by
  unfold CreateController_store
  split <;> simp

theorem constructed_length_GetServiceDiscovery (self : ComAdapter) :
    self.constructed.length ≤ self.GetServiceDiscovery.constructed.length := by
  unfold GetServiceDiscovery
  split
  · exact le_rfl
  · have := constructed_length_store self serviceDiscoveryT defaultLink "ServiceDiscovery"
      ServiceType.InternalController serviceDiscoverySupplementalData
    split <;> rename_i heq <;> rw [heq] at this <;> simp only [NotifyServiceCreated] at * <;>
      split at this <;> omega

theorem constructed_length_CreateController (self : ComAdapter) (T : ControllerT)
    (link : cfg.Link) (serviceName : String) (serviceType : ServiceType)
    (supplementalData : SupplementalData) (h : serviceName ≠ "") :
    self.constructed.length + 1
      ≤ (self.CreateController T link serviceName serviceType supplementalData).2.constructed.length := by
  have h1 := constructed_length_store self T link serviceName serviceType supplementalData
  rw [if_neg h] at h1
  unfold CreateController
  generalize self.CreateController_store T link serviceName serviceType supplementalData = r at h1
  obtain ⟨r1, s1⟩ := r
  cases r1 with
  | error e => simp only at h1 ⊢; omega
  | ok c =>
    have h2 := constructed_length_GetServiceDiscovery s1
    simp only [NotifyServiceCreated] at h1 ⊢
    omega

theorem constructed_length_CreateControllers (reqs : List CreateRequest) (self : ComAdapter)
    (h : ∀ r ∈ reqs, r.serviceName ≠ "") :
    self.constructed.length + reqs.length ≤ (self.CreateControllers reqs).constructed.length := by
  induction reqs generalizing self with
  | nil => exact le_rfl
  | cons r rest ih =>
    simp only [CreateControllers, List.length_cons]
    have h1 := constructed_length_CreateController self r.type r.link r.serviceName r.serviceType
      r.supplementalData (h r (List.mem_cons_self _ _))
    have h2 := ih (self.CreateController r.type r.link r.serviceName r.serviceType
      r.supplementalData).2 (fun r' hr' => h r' (List.mem_cons_of_mem _ hr'))
    omega

theorem manyRequests_names : ∀ r ∈ manyRequests, r.serviceName ≠ "" := by
  intro r hr
  simp only [manyRequests, List.mem_map] at hr
  obtain ⟨i, -, rfl⟩ := hr
  intro h
  have hlen := congrArg String.length h
  simp only [String.length_append] at hlen
  have h7 : "CanCtrl".length = 7 := by decide
  have h0 : "".length = 0 := by decide
  rw [h7, h0] at hlen
  omega

/-! ## Theorems: the ComAdapter -/

/-- C2 (as amended). For a controller configuration whose network names a
configured link, whose name is not empty and, when the controller type is a
trace source, whose trace sinks are all configured, `CreateControllerForLinkNew`
returns a controller, and a second call with the same controller type, network
name and controller name returns that same controller and leaves the whole
ComAdapter as the first call left it: no service id is allocated, nothing is
registered with the connection, no trace sink is added and nothing is announced
to the service discovery. -/
theorem CreateControllerForLinkNew_idempotent (self : ComAdapter) (T : ControllerT)
    (config config2 : cfg.ControllerConfig) (serviceType serviceType2 : ServiceType)
    (supplementalData supplementalData2 : SupplementalData) (link : cfg.Link)
    (hlink : self.GetNetworkByName config.network = .ok link)
    (hname : config.name ≠ "")
    (hsinks : T.isTraceSource = true → ∀ s ∈ config.useTraceSinks, s ∈ self._traceSinks)
    (hname2 : config2.name = config.name) (hnet2 : config2.network = config.network) :
    ∃ c s1, self.CreateControllerForLinkNew T config serviceType supplementalData = (.ok c, s1)
      ∧ s1.CreateControllerForLinkNew T config2 serviceType2 supplementalData2 = (.ok c, s1) := by
  cases hget : self.GetController T link.name config.name with
  | some c =>
    refine ⟨c, self, CreateControllerForLinkNew_cached _ _ _ _ _ _ _ hlink hget, ?_⟩
    apply CreateControllerForLinkNew_cached _ _ _ _ _ link
    · rw [hnet2]; exact hlink
    · rw [hname2]; exact hget
  | none =>
    obtain ⟨c, s1, hcr, hl, hts, hg⟩ :=
      CreateController_ok self T link config.name serviceType supplementalData hname
    by_cases htr : T.isTraceSource = true
    · have hok := AddTraceSinksToSource_ok s1 c.addr config
        (by rw [hts]; exact hsinks htr)
      obtain ⟨g1, g2⟩ := AddTraceSinksToSource_frame s1 c.addr config
      refine ⟨c, (s1.AddTraceSinksToSource c.addr config).2, ?_, ?_⟩
      · simp only [CreateControllerForLinkNew, hlink, hget, hcr, htr, if_true]
        generalize s1.AddTraceSinksToSource c.addr config = r at hok
        obtain ⟨r1, r2⟩ := r
        simp only at hok
        subst hok
        rfl
      · apply CreateControllerForLinkNew_cached _ _ _ _ _ link
        · rw [hnet2, GetNetworkByName_congr _ self _ (by rw [g1, hl])]; exact hlink
        · rw [hname2]; simp only [GetController, g2]; exact hg
    · refine ⟨c, s1, ?_, ?_⟩
      · simp [CreateControllerForLinkNew, hlink, hget, hcr, htr]
      · apply CreateControllerForLinkNew_cached _ _ _ _ _ link
        · rw [hnet2, GetNetworkByName_congr _ self _ hl]; exact hlink
        · rw [hname2]; exact hg

/-- The configuration of the CAN controller `CanCtrl` on the link `CAN1` with the
trace sink `Sink1`: the first call creates the controller, the second returns it. -/
theorem CreateControllerForLinkNew_idempotent_witness :
    example1.GetNetworkByName "CAN1"
        = .ok { id := 1, name := "CAN1", type := cfg.LinkType.CAN, historyLength := 0 }
      ∧ ∃ c s1, example1.CreateControllerForLinkNew canControllerFacadeT
            { name := "CanCtrl", network := "CAN1", useTraceSinks := ["Sink1"] }
            ServiceType.Controller [] = (.ok c, s1)
          ∧ s1.CreateControllerForLinkNew canControllerFacadeT
            { name := "CanCtrl", network := "CAN1", useTraceSinks := [] }
            ServiceType.Controller [] = (.ok c, s1) :=
  ⟨by decide,
   CreateControllerForLinkNew_idempotent example1 canControllerFacadeT
    { name := "CanCtrl", network := "CAN1", useTraceSinks := ["Sink1"] }
    { name := "CanCtrl", network := "CAN1", useTraceSinks := [] }
    ServiceType.Controller ServiceType.Controller [] []
    { id := 1, name := "CAN1", type := cfg.LinkType.CAN, historyLength := 0 }
    (by decide) (by decide) (by decide) rfl rfl⟩

/-- C2 (counterexample). On a ComAdapter with the link `CAN1`, a configuration on
`CAN1` with an empty name makes `CreateControllerForLinkNew` raise
`Misconfiguration`, and so does a configuration that names a trace sink which is
not configured: in neither case does the first call return a controller. -/
theorem CreateControllerForLinkNew_not_total :
    example1.GetNetworkByName "CAN1"
        = .ok { id := 1, name := "CAN1", type := cfg.LinkType.CAN, historyLength := 0 }
      ∧ (¬ ∃ c s1, example1.CreateControllerForLinkNew canControllerFacadeT
            { name := "", network := "CAN1", useTraceSinks := [] }
            ServiceType.Controller [] = (.ok c, s1))
      ∧ (¬ ∃ c s1, example1.CreateControllerForLinkNew canControllerFacadeT
            { name := "CanCtrl", network := "CAN1", useTraceSinks := ["Sink2"] }
            ServiceType.Controller [] = (.ok c, s1)) := by
  refine ⟨by decide, ?_, ?_⟩
  · rintro ⟨c, s1, h⟩
    have h1 : (example1.CreateControllerForLinkNew canControllerFacadeT
        { name := "", network := "CAN1", useTraceSinks := [] } ServiceType.Controller []).1
        = .error (.Misconfiguration "Services must have a non-empty name.") := by decide
    rw [h] at h1
    exact Except.noConfusion h1
  · rintro ⟨c, s1, h⟩
    have h1 : (example1.CreateControllerForLinkNew canControllerFacadeT
        { name := "CanCtrl", network := "CAN1", useTraceSinks := ["Sink2"] }
        ServiceType.Controller []).1
        = .error (.Misconfiguration "Controller CanCtrl refers to non-existing sink Sink2") := by
      decide
    rw [h] at h1
    exact Except.noConfusion h1

/-- C3 (as amended). On a ComAdapter whose service-id counter starts at 1, after
any sequence of `CreateController` calls that has constructed at most 65535
controllers, the service ids written into the descriptors are 1, 2, 3, ... in
order of construction: they are strictly increasing, the first one is 1, and no
two descriptors carry the same id. -/
theorem serviceIds_increasing (participantName : String) (links : List cfg.Link)
    (traceSinks : List String) (reqs : List CreateRequest)
    (h : ((init participantName links traceSinks).CreateControllers reqs).constructed.length
          ≤ 65535) :
    ((init participantName links traceSinks).CreateControllers reqs).serviceIds
        = List.range' 1
            ((init participantName links traceSinks).CreateControllers reqs).constructed.length
      ∧ ((init participantName links traceSinks).CreateControllers reqs).serviceIds.Pairwise
          (fun a b => a < b)
      ∧ ((init participantName links traceSinks).CreateControllers reqs).serviceIds.Nodup := by
  have hinv := CounterInv_CreateControllers reqs _ (CounterInv_init participantName links traceSinks)
  have heq := hinv.1
  rw [map_mod_range _ h] at heq
  refine ⟨heq, ?_, ?_⟩
  · rw [heq]
    exact List.pairwise_lt_range' 1 _
  · rw [heq]
    exact List.nodup_range' 1 _

/-- Two requests on a fresh ComAdapter construct three controllers (the first
request also makes the service discovery), with the ids 1, 2, 3. -/
theorem serviceIds_increasing_witness :
    ((init "P1" [] []).CreateControllers [canRequest, canRequest]).constructed.length ≤ 65535
      ∧ ((init "P1" [] []).CreateControllers [canRequest, canRequest]).serviceIds = [1, 2, 3]
      ∧ ((init "P1" [] []).CreateControllers [canRequest, canRequest]).serviceIds.Pairwise
          (fun a b => a < b) :=
  ⟨by decide,
   ((serviceIds_increasing "P1" [] [] [canRequest, canRequest] (by decide)).1).trans (by decide),
   (serviceIds_increasing "P1" [] [] [canRequest, canRequest] (by decide)).2.1⟩

/-- C3 (counterexample). After 65537 successful `CreateController` calls for
controllers with distinct names on a fresh ComAdapter the 16-bit counter has
wrapped around: the service ids are not strictly increasing in order of
construction and two descriptors carry the same id. -/
theorem serviceIds_wrap :
    ¬ (((init "P1" [] []).CreateControllers manyRequests).serviceIds.Pairwise
        (fun a b => a < b))
      ∧ ¬ ((init "P1" [] []).CreateControllers manyRequests).serviceIds.Nodup := by
  have hinv := CounterInv_CreateControllers manyRequests _ (CounterInv_init "P1" [] [])
  have hlen := constructed_length_CreateControllers manyRequests (init "P1" [] [])
    manyRequests_names
  have hreq : manyRequests.length = 65537 := by simp [manyRequests]
  generalize ((init "P1" [] []).CreateControllers manyRequests) = s at hinv hlen
  have hm : 65537 ≤ s.constructed.length := by
    have : (init "P1" [] []).constructed.length = 0 := rfl
    omega
  have h0 : (0 : Nat) < s.constructed.length := by omega
  have h1 : (65536 : Nat) < s.constructed.length := by omega
  have g0 : s.serviceIds[0]? = some 1 := by
    rw [hinv.1]
    simp [List.getElem?_map, List.getElem?_range h0, endpointIdBits]
  have g1 : s.serviceIds[65536]? = some 1 := by
    rw [hinv.1]
    simp [List.getElem?_map, List.getElem?_range h1, endpointIdBits]
  have hnd : ¬ s.serviceIds.Nodup := by
    intro hn
    have := (List.nodup_iff_getElem?_ne_getElem?.1 hn) 0 65536 (by omega)
      (by simp only [serviceIds, List.length_map]; omega)
    rw [g0, g1] at this
    exact this rfl
  refine ⟨?_, hnd⟩
  intro hp
  exact hnd (hp.imp (fun h => Nat.ne_of_lt h))

/-- C1. `CreateController` called with an empty service name raises
`Misconfiguration` and leaves the whole ComAdapter as it was: the service-id
counter, the controller maps, the calls made on the connection and the
announcements to the service discovery are unchanged. The same holds for the
overload that provides the default link. -/
theorem CreateController_empty_name (self : ComAdapter) (T : ControllerT) (link : cfg.Link)
    (serviceType : ServiceType) (supplementalData : SupplementalData) :
    self.CreateController T link "" serviceType supplementalData
        = (.error (.Misconfiguration "Services must have a non-empty name."), self)
      ∧ self.CreateControllerInternal T "" serviceType supplementalData
        = (.error (.Misconfiguration "Services must have a non-empty name."), self) := by
  constructor <;> simp [CreateControllerInternal, CreateController, CreateController_store]

/-- For every message type other than `DataMessage`, `FunctionCall` and
`FunctionCallResponse` the targeted `SendIbMessage` makes one targeted send with
the given target and message, and no other call on the connection. -/
theorem SendIbMessageTo_targeted (self : ComAdapter) (sender : ServiceDescriptor)
    (target : String) (msg : IbMessage)
    (h : msg.kind ≠ MessageKind.DataMessage ∧ msg.kind ≠ MessageKind.FunctionCall
      ∧ msg.kind ≠ MessageKind.FunctionCallResponse) :
    (self.SendIbMessageTo sender target msg)._ibConnection
      = self._ibConnection ++ [ConnectionCall.SendIbMessageTo sender target msg] := by
  obtain ⟨kind, content⟩ := msg
  cases kind <;> simp_all [SendIbMessageTo, SendIbMessageImplTo]

/-- C4 (the code at the failing input). The targeted `SendIbMessage` for a
`DataMessage`, a `FunctionCall` or a `FunctionCallResponse` drops the target
participant name: the only call it makes on the connection is the broadcast
`SendIbMessage(from, msg)`, so it adds no targeted send and one broadcast send. -/
theorem SendIbMessageTo_data_rpc_broadcast (self : ComAdapter) (sender : ServiceDescriptor)
    (target content : String) :
    (self.SendIbMessageTo sender target ⟨MessageKind.DataMessage, content⟩)._ibConnection
        = self._ibConnection
          ++ [ConnectionCall.SendIbMessage sender ⟨MessageKind.DataMessage, content⟩]
      ∧ (self.SendIbMessageTo sender target ⟨MessageKind.FunctionCall, content⟩)._ibConnection
        = self._ibConnection
          ++ [ConnectionCall.SendIbMessage sender ⟨MessageKind.FunctionCall, content⟩]
      ∧ (self.SendIbMessageTo sender target
            ⟨MessageKind.FunctionCallResponse, content⟩)._ibConnection
        = self._ibConnection
          ++ [ConnectionCall.SendIbMessage sender ⟨MessageKind.FunctionCallResponse, content⟩]
      ∧ targetedSends
          (self.SendIbMessageTo sender target ⟨MessageKind.DataMessage, content⟩)._ibConnection
        = targetedSends self._ibConnection
      ∧ broadcastSends
          (self.SendIbMessageTo sender target ⟨MessageKind.DataMessage, content⟩)._ibConnection
        = broadcastSends self._ibConnection ++ [(sender, ⟨MessageKind.DataMessage, content⟩)] := by
  simp [SendIbMessageTo, SendIbMessageImpl, targetedSends, broadcastSends, List.filterMap_append]

end ComAdapter
end mw
end ib

/-! ## SyncSerdes: round trips -/

namespace SilKit
namespace Core
namespace Orchestration

theorem natPrimitive_roundTrips : natPrimitive.RoundTrips := by
  intro v rest
  rfl

theorem intPrimitive_roundTrips : intPrimitive.RoundTrips := by
  intro v rest
  simp only [intPrimitive, List.cons_append, List.nil_append]
  by_cases h : v < 0
  · simp only [h, if_true]
    congr 2
    omega
  · simp only [h, if_false]
    have : ((0 : Nat) = 1) = False := by simp
    simp only [this, if_false]
    congr 2
    omega

theorem stringPrimitive_roundTrips : stringPrimitive.RoundTrips := by
  intro v rest
  obtain ⟨l⟩ := v
  simp only [stringPrimitive, String.length, List.cons_append]
  have hlen : l.length ≤ (List.map Char.toNat l ++ rest).length := by simp
  simp only [hlen, if_true]
  have h1 : List.take l.length (List.map Char.toNat l ++ rest) = List.map Char.toNat l := by
    rw [List.take_append_of_le_length (by simp)]
    rw [List.take_of_length_le (by simp)]
  have h2 : List.drop l.length (List.map Char.toNat l ++ rest) = rest := by
    rw [List.drop_append_of_le_length (by simp)]
    rw [List.drop_of_length_le (by simp)]
    rfl
  rw [h1, h2]
  simp [List.map_map, Function.comp_def]

theorem parseStrings_bytes (l : List String) (rest : List Nat) :
    parseStrings l.length ((l.map stringPrimitive.bytes).flatten ++ rest) = some (l, rest) := by
  induction l with
  | nil => rfl
  | cons s l ih =>
    simp only [List.length_cons, parseStrings, List.map_cons, List.flatten_cons, List.append_assoc]
    rw [stringPrimitive_roundTrips s]
    simp only [ih]

theorem stringListPrimitive_roundTrips : stringListPrimitive.RoundTrips := by
  intro v rest
  simp only [stringListPrimitive, List.cons_append]
  exact parseStrings_bytes v rest

theorem enumPrimitive_roundTrips {α : Type} (toNat : α → Nat) (ofNat : Nat → Option α)
    (h : ∀ a, ofNat (toNat a) = some a) : (enumPrimitive toNat ofNat).RoundTrips := by
  intro v rest
  simp [enumPrimitive, h]

theorem examplePrimitives_roundTrip : examplePrimitives.RoundTrip :=
  ⟨natPrimitive_roundTrips,
   enumPrimitive_roundTrips _ _ (fun a => by cases a <;> rfl),
   enumPrimitive_roundTrips _ _ (fun a => by cases a <;> rfl),
   enumPrimitive_roundTrips _ _ (fun a => by cases a <;> rfl),
   stringPrimitive_roundTrips, intPrimitive_roundTrips, intPrimitive_roundTrips,
   stringListPrimitive_roundTrips⟩

/-- C5. When the `MessageBuffer` primitives round-trip, `Deserialize` applied to
what `Serialize` wrote into an empty buffer for a `ParticipantCommand`,
`SystemCommand`, `ParticipantStatus`, `WorkflowConfiguration` or `NextSimTask`
gives back that message, equal in every field, and consumes exactly the bytes
that `Serialize` wrote: whatever follows them in the buffer is left unread. -/
theorem Deserialize_Serialize (P : Primitives) (h : P.RoundTrip) (msg : Message)
    (rest : List Nat) :
    Deserialize P (Serialize P [] msg ++ rest) msg.type = some (msg, rest) := by
  obtain ⟨h1, h2, h3, h4, h5, h6, h7, h8⟩ := h
  cases msg with
  | participantCommand m =>
    simp [Deserialize, Serialize, Message.type, readParticipantCommand, writeParticipantCommand,
      Primitive.read, Primitive.write, h1 _ _, h2 _ _]
  | systemCommand m =>
    simp [Deserialize, Serialize, Message.type, readSystemCommand, writeSystemCommand,
      Primitive.read, Primitive.write, h3 _ _]
  | participantStatus m =>
    simp [Deserialize, Serialize, Message.type, readParticipantStatus, writeParticipantStatus,
      Primitive.read, Primitive.write, h4 _ _, h5 _ _, h7 _ _]
  | workflowConfiguration m =>
    simp [Deserialize, Serialize, Message.type, readWorkflowConfiguration,
      writeWorkflowConfiguration, Primitive.read, Primitive.write, h8 _ _]
  | nextSimTask m =>
    simp [Deserialize, Serialize, Message.type, readNextSimTask, writeNextSimTask,
      Primitive.read, Primitive.write, h6 _ _]

/-- The round trip of a participant status with the concrete primitives, with two
more bytes behind it in the buffer. -/
theorem Deserialize_Serialize_witness :
    examplePrimitives.RoundTrip
      ∧ Deserialize examplePrimitives
          (Serialize examplePrimitives [] (Message.participantStatus exampleStatus) ++ [1, 2])
          MessageType.participantStatus
        = some (Message.participantStatus exampleStatus, [1, 2]) :=
  ⟨examplePrimitives_roundTrip,
   Deserialize_Serialize examplePrimitives examplePrimitives_roundTrip
    (Message.participantStatus exampleStatus) [1, 2]⟩

end Orchestration
end Core
end SilKit

/-! ## Service discovery and participant controller -/

namespace ib
namespace mw
namespace service
namespace ServiceDiscovery

/-- A `ServiceCreated` event for a descriptor that is already indexed changes
nothing. -/
theorem ReceiveIbMessage_indexed (self : ServiceDiscovery) (sender d : ServiceDescriptor)
    (h : d ∈ self.remoteIndex) :
    self.ReceiveIbMessage sender ⟨EventType.ServiceCreated, d⟩ = self := by
  simp [ReceiveIbMessage, h]

/-- After a `ServiceCreated` event for a descriptor, the descriptor is indexed. -/
theorem mem_remoteIndex_ReceiveIbMessage (self : ServiceDiscovery)
    (sender d : ServiceDescriptor) :
    d ∈ (self.ReceiveIbMessage sender ⟨EventType.ServiceCreated, d⟩).remoteIndex := by
  by_cases h : d ∈ self.remoteIndex
  · rw [ReceiveIbMessage_indexed self sender d h]; exact h
  · simp [ReceiveIbMessage, h, callHandlers]

/-- C6. A service discovery that receives the same `ServiceCreated` event for a
descriptor `d` twice does on the duplicate event nothing at all: it invokes no
handler. When `d` was not indexed before, the first event invokes every
registered handler exactly once for `d`, in registration order, so that after
both events each handler has been invoked exactly once for `d`. Announcing a
service with `NotifyServiceCreated` publishes exactly one `ServiceCreated` event
for it and invokes no handler. -/
theorem created_notified_once (self : ServiceDiscovery) (sender d own : ServiceDescriptor) :
    (self.ReceiveIbMessage sender ⟨EventType.ServiceCreated, d⟩).ReceiveIbMessage sender
          ⟨EventType.ServiceCreated, d⟩
        = self.ReceiveIbMessage sender ⟨EventType.ServiceCreated, d⟩
      ∧ (d ∉ self.remoteIndex →
          ((self.ReceiveIbMessage sender ⟨EventType.ServiceCreated, d⟩).ReceiveIbMessage sender
              ⟨EventType.ServiceCreated, d⟩).calls
            = self.calls ++ (List.range self.handlers).map
                (fun h => { handler := h, type := EventType.ServiceCreated, service := d }))
      ∧ (d ∉ self.remoteIndex → ∀ h, h < self.handlers →
          (((self.ReceiveIbMessage sender ⟨EventType.ServiceCreated, d⟩).ReceiveIbMessage sender
              ⟨EventType.ServiceCreated, d⟩).calls.count
              { handler := h, type := EventType.ServiceCreated, service := d })
            = self.calls.count { handler := h, type := EventType.ServiceCreated, service := d }
              + 1)
      ∧ (self.NotifyServiceCreated own).sent
        = self.sent ++ [{ type := EventType.ServiceCreated, service := own }]
      ∧ (self.NotifyServiceCreated own).calls = self.calls := by
  have h2 : (self.ReceiveIbMessage sender ⟨EventType.ServiceCreated, d⟩).ReceiveIbMessage sender
        ⟨EventType.ServiceCreated, d⟩
      = self.ReceiveIbMessage sender ⟨EventType.ServiceCreated, d⟩ :=
    ReceiveIbMessage_indexed _ sender d (mem_remoteIndex_ReceiveIbMessage self sender d)
  have h1 : d ∉ self.remoteIndex → self.ReceiveIbMessage sender ⟨EventType.ServiceCreated, d⟩
      = callHandlers { self with remoteIndex := self.remoteIndex ++ [d] }
          EventType.ServiceCreated d := by
    intro hnew
    simp [ReceiveIbMessage, hnew]
  refine ⟨h2, ?_, ?_, rfl, rfl⟩
  · intro hnew
    rw [h2, h1 hnew]; rfl
  · intro hnew h hh
    rw [h2, h1 hnew]
    simp only [callHandlers, List.count_append]
    congr 1
    have hinj : Function.Injective
        (fun h : Nat => ({ handler := h, type := EventType.ServiceCreated, service := d }
          : HandlerCall)) := by
      intro a b hab
      exact congrArg HandlerCall.handler hab
    rw [List.count_map_of_injective _ _ hinj]
    exact List.count_eq_one_of_mem (List.nodup_range _) (List.mem_range.2 hh)

/-- The test `service_creation_notification`: with two handlers registered, the
event of the other participant received twice gives one call of each handler. -/
theorem created_notified_once_witness :
    otherDescriptor ∉ testDiscovery.remoteIndex
      ∧ ((testDiscovery.ReceiveIbMessage otherDescriptor
            ⟨EventType.ServiceCreated, otherDescriptor⟩).ReceiveIbMessage otherDescriptor
            ⟨EventType.ServiceCreated, otherDescriptor⟩).calls
        = testDiscovery.calls ++ (List.range testDiscovery.handlers).map
            (fun h => { handler := h, type := EventType.ServiceCreated,
                        service := otherDescriptor })
      ∧ (testDiscovery.NotifyServiceCreated senderDescriptor).calls = testDiscovery.calls :=
  ⟨by decide,
   (created_notified_once testDiscovery otherDescriptor otherDescriptor senderDescriptor).2.1
      (by decide),
   (created_notified_once testDiscovery otherDescriptor otherDescriptor
      senderDescriptor).2.2.2.2⟩

end ServiceDiscovery
end service

namespace sync
namespace ParticipantController

/-- The statuses published while a handler runs: one `Error` status for each
`ReportError` of the handler, and the state is `Error` afterwards when there
was one. -/
theorem runHandler_sent (handler : List HandlerAction) (self : ParticipantController) :
    (self.runHandler handler).sent
        = self.sent ++ (handler.filterMap HandlerAction.reported).map (fun errorMsg =>
            { participantName := self.status.participantName, state := ParticipantState.Error,
              enterReason := errorMsg })
      ∧ (self.runHandler handler).stopHandler = self.stopHandler
      ∧ (self.runHandler handler).status.participantName = self.status.participantName
      ∧ (handler.filterMap HandlerAction.reported ≠ [] →
          (self.runHandler handler).State = ParticipantState.Error)
      ∧ (handler.filterMap HandlerAction.reported = [] → self.runHandler handler = self) := by
  induction handler generalizing self with
  | nil => simp [runHandler]
  | cons a rest ih =>
    cases a with
    | Work =>
      simpa [runHandler, HandlerAction.reported] using ih self
    | ReportError errorMsg =>
      obtain ⟨i1, i2, i3, i4, i5⟩ := ih (self.ReportError errorMsg)
      refine ⟨?_, ?_, ?_, ?_, ?_⟩
      · simp only [runHandler, i1]
        simp [ReportError, ChangeState, HandlerAction.reported]
      · simp only [runHandler, i2]; rfl
      · simp only [runHandler, i3]; rfl
      · intro _
        simp only [runHandler]
        by_cases hr : rest.filterMap HandlerAction.reported = []
        · rw [i5 hr]; rfl
        · exact i4 hr
      · intro h
        simp [HandlerAction.reported] at h

/-- C7. When a `Stop` command is processed in state `Running` and the stop handler
calls `ReportError` (once, with the message `errorMsg`), the state after the
command is `Error` and the statuses published for the command are `Stopping`
followed by `Error`: `Stopped` is neither entered nor published. -/
theorem stop_handler_error (self : ParticipantController) (handler : List HandlerAction)
    (errorMsg : String)
    (hrun : self.State = ParticipantState.Running)
    (hhandler : self.stopHandler = some handler)
    (hreport : handler.filterMap HandlerAction.reported = [errorMsg]) :
    (self.ReceiveIbMessage ⟨SystemCommandKind.Stop⟩).State = ParticipantState.Error
      ∧ (self.ReceiveIbMessage ⟨SystemCommandKind.Stop⟩).sent
        = self.sent ++
          [{ participantName := self.status.participantName, state := ParticipantState.Stopping,
             enterReason := "Received SystemCommand::Stop" },
           { participantName := self.status.participantName, state := ParticipantState.Error,
             enterReason := errorMsg }]
      ∧ ∀ status ∈ (self.ReceiveIbMessage ⟨SystemCommandKind.Stop⟩).sent,
          status ∈ self.sent ∨ status.state ≠ ParticipantState.Stopped := by
  have hne : handler.filterMap HandlerAction.reported ≠ [] := by rw [hreport]; simp
  obtain ⟨r1, -, -, r4, -⟩ :=
    runHandler_sent handler (self.ChangeState ParticipantState.Stopping
      "Received SystemCommand::Stop")
  have hstate := r4 hne
  have hrecv : self.ReceiveIbMessage ⟨SystemCommandKind.Stop⟩
      = (self.ChangeState ParticipantState.Stopping "Received SystemCommand::Stop").runHandler
          handler := by
    simp only [ReceiveIbMessage, hrun, if_true, Stop]
    have : (self.ChangeState ParticipantState.Stopping "Received SystemCommand::Stop").stopHandler
        = some handler := hhandler
    simp only [this, hstate, if_true]
  have hsent : (self.ReceiveIbMessage ⟨SystemCommandKind.Stop⟩).sent
        = self.sent ++
          [{ participantName := self.status.participantName, state := ParticipantState.Stopping,
             enterReason := "Received SystemCommand::Stop" },
           { participantName := self.status.participantName, state := ParticipantState.Error,
             enterReason := errorMsg }] := by
    rw [hrecv, r1, hreport]
    simp [ChangeState]
  refine ⟨by rw [hrecv]; exact hstate, hsent, ?_⟩
  intro status hmem
  rw [hsent] at hmem
  simp only [List.mem_append, List.mem_cons, List.mem_singleton, List.not_mem_nil,
    or_false] at hmem
  rcases hmem with h | h | h
  · exact Or.inl h
  · right; rw [h]; simp
  · right; rw [h]; simp

/-- The test `dont_switch_to_stopped_if_stop_handler_reported_an_error`. -/
theorem stop_handler_error_witness :
    testController.State = ParticipantState.Running
      ∧ (testController.ReceiveIbMessage ⟨SystemCommandKind.Stop⟩).State = ParticipantState.Error
      ∧ ((testController.ReceiveIbMessage ⟨SystemCommandKind.Stop⟩).sent.map
            (fun status => status.state))
        = [ParticipantState.Stopping, ParticipantState.Error] :=
  ⟨by decide,
   (stop_handler_error testController [HandlerAction.ReportError "StopHandlerFailed!!"]
      "StopHandlerFailed!!" (by decide) (by decide) (by decide)).1,
   by
    rw [(stop_handler_error testController [HandlerAction.ReportError "StopHandlerFailed!!"]
      "StopHandlerFailed!!" (by decide) (by decide) (by decide)).2.1]
    decide⟩

end ParticipantController
end sync
end mw
end ib

/-! ## Configuration: YAML conversion and schema -/

namespace ib
namespace cfg

open YAML

/-- C8. Whenever a YAML node is decoded as a Registry, the resulting
`connectAttempts` is at least 1. The result agrees with the decoding before the
clamp in hostname, port and logging, and its `connectAttempts` is 1 when the
decoded value (the `ConnectAttempts` of the node, or the value the object had
when the node has none) is below 1, and is that value unchanged when it is 1 or
more. -/
theorem decodeRegistry_connectAttempts (E : Env) (node : Node) (obj r : Registry)
    (h : decodeRegistry E node obj = .ok r) :
    1 ≤ r.connectAttempts
      ∧ ∃ r0, decodeRegistryFields E node obj = .ok r0
          ∧ optional_decode (parse_as_scalar E.asInt) obj.connectAttempts node "ConnectAttempts"
              = .ok r0.connectAttempts
          ∧ r.hostname = r0.hostname ∧ r.port = r0.port ∧ r.logging = r0.logging
          ∧ (r0.connectAttempts < 1 → r.connectAttempts = 1)
          ∧ (1 ≤ r0.connectAttempts → r.connectAttempts = r0.connectAttempts) := by
  unfold decodeRegistry at h
  cases hf : decodeRegistryFields E node obj with
  | error e => rw [hf] at h; exact Except.noConfusion h
  | ok r0 =>
    rw [hf] at h
    have hca : optional_decode (parse_as_scalar E.asInt) obj.connectAttempts node
        "ConnectAttempts" = .ok r0.connectAttempts := by
      unfold decodeRegistryFields at hf
      split at hf
      · exact Except.noConfusion hf
      · split at hf
        · exact Except.noConfusion hf
        · split at hf
          · exact Except.noConfusion hf
          · split at hf
            · exact Except.noConfusion hf
            · rename_i ca hca
              simp only [Except.ok.injEq] at hf
              rw [← hf]
              exact hca
    by_cases hlt : r0.connectAttempts < 1
    · simp only [hlt, if_true, Except.ok.injEq] at h
      subst h
      exact ⟨le_rfl, r0, rfl, hca, rfl, rfl, rfl, fun _ => rfl, fun h1 => by omega⟩
    · simp only [hlt, if_false, Except.ok.injEq] at h
      subst h
      exact ⟨by omega, _, rfl, hca, rfl, rfl, rfl, fun h1 => absurd h1 hlt, fun _ => rfl⟩

/-- A Registry node with `ConnectAttempts: 0` decodes to a Registry with
`connectAttempts` 1 and the hostname and port of the node. -/
theorem decodeRegistry_connectAttempts_witness :
    optional_decode (parse_as_scalar exampleEnv.asInt) exampleRegistry.connectAttempts
        registryNode "ConnectAttempts" = .ok 0
      ∧ ∃ r, decodeRegistry exampleEnv registryNode exampleRegistry = .ok r
          ∧ 1 ≤ r.connectAttempts ∧ r.connectAttempts = 1 ∧ r.hostname = "host1"
          ∧ r.port = 8501 :=
  ⟨by decide,
   { hostname := "host1", port := 8501, logging := exampleEnv.defaultLogging,
     connectAttempts := 1 },
   by decide,
   (decodeRegistry_connectAttempts exampleEnv registryNode exampleRegistry
      { hostname := "host1", port := 8501, logging := exampleEnv.defaultLogging,
        connectAttempts := 1 } (by decide)).1,
   rfl, rfl, rfl⟩

/-- C9 (as amended). For a Sink node whose `Type` and `Level` are valid and whose
`LogName`, when it has one, is a scalar: decoding fails if and only if the
decoded sink type is `File` and the node has no `LogName`; when a `File` sink
node has the `LogName` `s`, decoding succeeds and the decoded `logName` is `s`;
and a sink of another type decodes with the `logName` it had. -/
theorem decodeSink_fails_iff (E : Env) (node : Node) (obj : Sink) (t : SinkType) (l : Level)
    (htype : optional_decode decodeSinkType obj.type node "Type" = .ok t)
    (hlevel : optional_decode decodeLevel obj.level node "Level" = .ok l)
    (hname : ∀ n, node.find? "LogName" = some n → ∃ s, n = Node.Scalar s) :
    ((∃ e, decodeSink E node obj = .error e)
        ↔ (t = SinkType.File ∧ (node.find? "LogName").isNone = true))
      ∧ (∀ s, t = SinkType.File → node.find? "LogName" = some (Node.Scalar s) →
          decodeSink E node obj = .ok { type := SinkType.File, level := l, logName := s })
      ∧ (t ≠ SinkType.File →
          decodeSink E node obj = .ok { type := t, level := l, logName := obj.logName }) := by
  unfold decodeSink
  rw [htype, hlevel]
  dsimp only
  by_cases ht : t = SinkType.File
  · subst ht
    rw [if_pos rfl]
    cases hf : node.find? "LogName" with
    | none =>
      have hidx : (∃ e, node.index "LogName" = .error e) ∨ node.index "LogName" = .ok none := by
        cases node with
        | Scalar v => left; exact ⟨_, rfl⟩
        | Null => right; simp only [Node.index]; rw [hf]
        | Sequence xs => right; simp only [Node.index]; rw [hf]
        | Map es => right; simp only [Node.index]; rw [hf]
      refine ⟨⟨fun _ => ⟨rfl, rfl⟩, fun _ => ?_⟩, ?_, ?_⟩
      · rcases hidx with ⟨e, he⟩ | he
        · rw [he]; exact ⟨_, rfl⟩
        · rw [he]; exact ⟨_, rfl⟩
      · intro s _ hs
        exact Option.noConfusion hs
      · intro hne
        exact absurd rfl hne
    | some n =>
      obtain ⟨s, hs⟩ := hname n hf
      subst hs
      have hidx : node.index "LogName" = .ok (some (Node.Scalar s)) := by
        cases node with
        | Scalar v => exact Option.noConfusion hf
        | Null => simp only [Node.index]; rw [hf]
        | Sequence xs => simp only [Node.index]; rw [hf]
        | Map es => simp only [Node.index]; rw [hf]
      rw [hidx]
      refine ⟨⟨?_, fun h => ?_⟩, ?_, ?_⟩
      · rintro ⟨e, he⟩
        simp only [parse_as_string] at he
        exact Except.noConfusion he
      · exact Bool.noConfusion h.2
      · intro s' _ hs'
        simp only [Option.some.injEq, Node.Scalar.injEq] at hs'
        subst hs'
        rfl
      · intro hne
        exact absurd rfl hne
  · rw [if_neg ht]
    refine ⟨⟨?_, fun h => absurd h.1 ht⟩, ?_, ?_⟩
    · rintro ⟨e, he⟩
      exact Except.noConfusion he
    · intro s hs
      exact absurd hs ht
    · intro _
      rfl

/-- A sink node of type `File` with the `LogName` `a.log` decodes to a sink with
that log name. -/
theorem decodeSink_fails_iff_witness :
    optional_decode decodeSinkType exampleEnv.defaultSink.type sinkNodeFile "Type"
        = .ok SinkType.File
      ∧ optional_decode decodeLevel exampleEnv.defaultSink.level sinkNodeFile "Level"
        = .ok Level.Warn
      ∧ decodeSink exampleEnv sinkNodeFile exampleEnv.defaultSink
        = .ok { type := SinkType.File, level := Level.Warn, logName := "a.log" } :=
  ⟨by decide, by decide,
   (decodeSink_fails_iff exampleEnv sinkNodeFile exampleEnv.defaultSink SinkType.File Level.Warn
      (by decide) (by decide)
      (by
        intro n hn
        simp only [sinkNodeFile, Node.find?, List.lookup] at hn
        exact ⟨"a.log", (Option.some.inj hn).symm⟩)).2.1 "a.log" rfl rfl⟩

/-- C9 (counterexample). A sink node with the valid `Type` `File`, the valid
`Level` `Info` and a `LogName` that is a sequence: the node has a `LogName`, and
decoding fails all the same. -/
theorem decodeSink_logName_not_scalar :
    optional_decode decodeSinkType exampleEnv.defaultSink.type sinkNodeLogNameSequence "Type"
        = .ok SinkType.File
      ∧ optional_decode decodeLevel exampleEnv.defaultSink.level sinkNodeLogNameSequence "Level"
        = .ok Level.Info
      ∧ (sinkNodeLogNameSequence.find? "LogName").isSome = true
      ∧ decodeSink exampleEnv sinkNodeLogNameSequence exampleEnv.defaultSink
        = .error (Exception.ConversionError "Cannot convert YAML to string") := by
  refine ⟨by decide, by decide, by decide, by decide⟩

/-- C10 (the code at the failing input). In the schema built by `MakeYamlSchema`
the elements `DataPublishers`, `DataSubscribers`, `RpcClients` and `RpcServers`
have exactly the children `Name`, `UseTraceSinks` and `Replay`: they have no
child `Network`. Only `CanControllers`, `LinControllers`, `EthernetControllers`
and `FlexRayControllers` have the child `Network`; all eight kinds have `Name`,
`UseTraceSinks` and `Replay`, and `Replay` has the children `UseTraceSource`,
`Direction` and `MdfChannel`. -/
theorem MakeYamlSchema_controller_children :
    MakeYamlSchema.childNamesOf "DataPublishers" = some ["Name", "UseTraceSinks", "Replay"]
      ∧ MakeYamlSchema.childNamesOf "DataSubscribers" = some ["Name", "UseTraceSinks", "Replay"]
      ∧ MakeYamlSchema.childNamesOf "RpcClients" = some ["Name", "UseTraceSinks", "Replay"]
      ∧ MakeYamlSchema.childNamesOf "RpcServers" = some ["Name", "UseTraceSinks", "Replay"]
      ∧ kindsWithChild "Network"
        = ["CanControllers", "LinControllers", "EthernetControllers", "FlexRayControllers"]
      ∧ kindsWithChild "Name" = controllerKinds
      ∧ kindsWithChild "UseTraceSinks" = controllerKinds
      ∧ kindsWithChild "Replay" = controllerKinds
      ∧ replaySchema.childNames = ["UseTraceSource", "Direction", "MdfChannel"] := by
  refine ⟨by decide, by decide, by decide, by decide, by decide, by decide, by decide,
    by decide, by decide⟩

end cfg
end ib

/-! ## Configuration: the converters of the enums -/

namespace ib
namespace cfg

open YAML

theorem encodeSinkType_decode (s : String) (x : SinkType) (hs : s ≠ "")
    (h : decodeSinkType (Node.Scalar s) = .ok x) : encodeSinkType x = Node.Scalar s := by
  simp only [decodeSinkType] at h
  split_ifs at h with h1 h2 h3 <;> cases h
  · rcases h1 with h1 | h1
    · subst h1; rfl
    · exact absurd h1 hs
  · subst h2; rfl
  · subst h3; rfl

theorem encodeLevel_decode (s : String) (x : Level)
    (h : decodeLevel (Node.Scalar s) = .ok x) : encodeLevel x = Node.Scalar s := by
  simp only [decodeLevel] at h
  split_ifs at h <;> cases h <;> subst_vars <;> rfl

theorem encodeReplayDirection_decode (E : Env) (s : String) (x : ReplayDirection) (hs : s ≠ "")
    (h : decodeReplayDirection E (Node.Scalar s) = .ok x) :
    encodeReplayDirection x = Node.Scalar s := by
  simp only [decodeReplayDirection, parse_as_string] at h
  split_ifs at h with h1 h2 h3 h4 <;> cases h
  · rcases h1 with h1 | h1
    · subst h1; rfl
    · exact absurd h1 hs
  · subst h2; rfl
  · subst h3; rfl
  · subst h4; rfl

theorem encodeChannel_decode (E : Env) (s : String) (x : Channel) (hs : s ≠ "")
    (h : decodeChannel E (Node.Scalar s) = .ok x) : encodeChannel x = Node.Scalar s := by
  simp only [decodeChannel, parse_as_string] at h
  split_ifs at h with h1 h2 h3 h4 <;> cases h
  · subst h1; rfl
  · subst h2; rfl
  · subst h3; rfl
  · rcases h4 with h4 | h4
    · subst h4; rfl
    · exact absurd h4 hs

theorem encodeClockPeriod_decode (E : Env) (s : String) (x : ClockPeriod)
    (h : decodeClockPeriod E (Node.Scalar s) = .ok x) : encodeClockPeriod x = Node.Scalar s := by
  simp only [decodeClockPeriod, parse_as_string] at h
  split_ifs at h <;> cases h <;> subst_vars <;> rfl

theorem encodeTransmissionMode_decode (E : Env) (s : String) (x : TransmissionMode)
    (h : decodeTransmissionMode E (Node.Scalar s) = .ok x) :
    encodeTransmissionMode x = Node.Scalar s := by
  simp only [decodeTransmissionMode, parse_as_string] at h
  split_ifs at h <;> cases h <;> subst_vars <;> rfl

theorem encodeTraceSinkType_decode (E : Env) (s : String) (x : TraceSinkType) (hs : s ≠ "")
    (h : decodeTraceSinkType E (Node.Scalar s) = .ok x) :
    encodeTraceSinkType x = Node.Scalar s := by
  simp only [decodeTraceSinkType, parse_as_string] at h
  split_ifs at h with h1 h2 h3 h4 <;> cases h
  · rcases h1 with h1 | h1
    · subst h1; rfl
    · exact absurd h1 hs
  · subst h2; rfl
  · subst h3; rfl
  · subst h4; rfl

theorem encodeTraceSourceType_decode (E : Env) (s : String) (x : TraceSourceType) (hs : s ≠ "")
    (h : decodeTraceSourceType E (Node.Scalar s) = .ok x) :
    encodeTraceSourceType x = Node.Scalar s := by
  simp only [decodeTraceSourceType, parse_as_string] at h
  split_ifs at h with h1 h2 h3 <;> cases h
  · rcases h1 with h1 | h1
    · subst h1; rfl
    · exact absurd h1 hs
  · subst h2; rfl
  · subst h3; rfl

/-- C11. For every value `x` of `Sink::Type`, the logging `Level`,
`Replay::Direction`, the FlexRay `Channel`, `ClockPeriod`, `TransmissionMode`,
`TraceSink::Type` and `TraceSource::Type`, decoding the scalar that encoding `x`
produces yields `x`; and for every non-empty string `s` that one of these
decoders accepts as a scalar, encoding the decoded value yields the scalar `s`
again. -/
theorem enum_decode_encode (E : Env) :
    ((∀ x, decodeSinkType (encodeSinkType x) = .ok x)
      ∧ (∀ x, decodeLevel (encodeLevel x) = .ok x)
      ∧ (∀ x, decodeReplayDirection E (encodeReplayDirection x) = .ok x)
      ∧ (∀ x, decodeChannel E (encodeChannel x) = .ok x)
      ∧ (∀ x, decodeClockPeriod E (encodeClockPeriod x) = .ok x)
      ∧ (∀ x, decodeTransmissionMode E (encodeTransmissionMode x) = .ok x)
      ∧ (∀ x, decodeTraceSinkType E (encodeTraceSinkType x) = .ok x)
      ∧ (∀ x, decodeTraceSourceType E (encodeTraceSourceType x) = .ok x))
    ∧ ((∀ s x, s ≠ "" → decodeSinkType (Node.Scalar s) = .ok x →
          encodeSinkType x = Node.Scalar s)
      ∧ (∀ s x, s ≠ "" → decodeLevel (Node.Scalar s) = .ok x → encodeLevel x = Node.Scalar s)
      ∧ (∀ s x, s ≠ "" → decodeReplayDirection E (Node.Scalar s) = .ok x →
          encodeReplayDirection x = Node.Scalar s)
      ∧ (∀ s x, s ≠ "" → decodeChannel E (Node.Scalar s) = .ok x →
          encodeChannel x = Node.Scalar s)
      ∧ (∀ s x, s ≠ "" → decodeClockPeriod E (Node.Scalar s) = .ok x →
          encodeClockPeriod x = Node.Scalar s)
      ∧ (∀ s x, s ≠ "" → decodeTransmissionMode E (Node.Scalar s) = .ok x →
          encodeTransmissionMode x = Node.Scalar s)
      ∧ (∀ s x, s ≠ "" → decodeTraceSinkType E (Node.Scalar s) = .ok x →
          encodeTraceSinkType x = Node.Scalar s)
      ∧ (∀ s x, s ≠ "" → decodeTraceSourceType E (Node.Scalar s) = .ok x →
          encodeTraceSourceType x = Node.Scalar s)) := by
  refine ⟨⟨?_, ?_, ?_, ?_, ?_, ?_, ?_, ?_⟩, ⟨?_, ?_, ?_, ?_, ?_, ?_, ?_, ?_⟩⟩
  · intro x; cases x <;> rfl
  · intro x; cases x <;> rfl
  · intro x; cases x <;> rfl
  · intro x; cases x <;> rfl
  · intro x; cases x <;> rfl
  · intro x; cases x <;> rfl
  · intro x; cases x <;> rfl
  · intro x; cases x <;> rfl
  · exact fun s x hs h => encodeSinkType_decode s x hs h
  · exact fun s x _ h => encodeLevel_decode s x h
  · exact fun s x hs h => encodeReplayDirection_decode E s x hs h
  · exact fun s x hs h => encodeChannel_decode E s x hs h
  · exact fun s x _ h => encodeClockPeriod_decode E s x h
  · exact fun s x _ h => encodeTransmissionMode_decode E s x h
  · exact fun s x hs h => encodeTraceSinkType_decode E s x hs h
  · exact fun s x hs h => encodeTraceSourceType_decode E s x hs h

/-- The string `File` is accepted by the decoder of `Sink::Type` and encoded again
as `File`; the channel `AB` is decoded from its encoding. -/
theorem enum_decode_encode_witness :
    "File" ≠ "" ∧ decodeSinkType (Node.Scalar "File") = .ok SinkType.File
      ∧ encodeSinkType SinkType.File = Node.Scalar "File"
      ∧ decodeChannel exampleEnv (encodeChannel Channel.AB) = .ok Channel.AB :=
  ⟨by decide, by decide,
   (enum_decode_encode exampleEnv).2.1 "File" SinkType.File (by decide) (by decide),
   (enum_decode_encode exampleEnv).1.2.2.2.1 Channel.AB⟩

end cfg
end ib

/-! ## The trivial CAN simulation -/

namespace SilKit
namespace Services
namespace Can

/-- C12. `SimBehaviorTrivial::SendMsg(CanFrameEvent)` produces output if and only if
the parent controller is in state `Started`. In that state, with `now` the
current time of the time provider, the outputs are, in this order: the event
with direction `TX` and time stamp `now` delivered to the own controller, the
event with direction `RX` and time stamp `now` sent to the participant, and one
acknowledgement with status `Transmitted`, time stamp `now` and the `canId`,
`transmitId` and `userContext` of the event delivered to the own controller; the
time stamp that the event carried does not occur. In any other state nothing is
delivered and nothing is sent. -/
theorem SendMsg_outputs (self : SimBehaviorTrivial) (ev : CanFrameEvent) :
    (self.outputs ev ≠ [] ↔ self.parentState = CanControllerState.Started)
      ∧ (self.parentState = CanControllerState.Started →
          self.outputs ev
            = [Effect.ReceiveFrameEvent
                { transmitId := ev.transmitId, timestamp := self.now, frame := ev.frame,
                  direction := TransmitDirection.TX, userContext := ev.userContext },
               Effect.SendMsg
                { transmitId := ev.transmitId, timestamp := self.now, frame := ev.frame,
                  direction := TransmitDirection.RX, userContext := ev.userContext },
               Effect.ReceiveFrameTransmitEvent
                { transmitId := ev.transmitId, canId := ev.frame.canId, timestamp := self.now,
                  status := CanTransmitStatus.Transmitted, userContext := ev.userContext }])
      ∧ (self.parentState ≠ CanControllerState.Started → self.outputs ev = []) := by
  by_cases h : self.parentState = CanControllerState.Started
  · have hout : self.outputs ev
        = [Effect.ReceiveFrameEvent
            { transmitId := ev.transmitId, timestamp := self.now, frame := ev.frame,
              direction := TransmitDirection.TX, userContext := ev.userContext },
           Effect.SendMsg
            { transmitId := ev.transmitId, timestamp := self.now, frame := ev.frame,
              direction := TransmitDirection.RX, userContext := ev.userContext },
           Effect.ReceiveFrameTransmitEvent
            { transmitId := ev.transmitId, canId := ev.frame.canId, timestamp := self.now,
              status := CanTransmitStatus.Transmitted, userContext := ev.userContext }] := by
      simp [SimBehaviorTrivial.outputs, SimBehaviorTrivial.SendMsg, h, Effect.isOutput]
    refine ⟨⟨fun _ => h, fun _ => ?_⟩, fun _ => hout, fun hne => absurd h hne⟩
    rw [hout]
    exact List.cons_ne_nil _ _
  · have hout : self.outputs ev = [] := by
      simp [SimBehaviorTrivial.outputs, SimBehaviorTrivial.SendMsg, h, Effect.isOutput]
    refine ⟨⟨fun hne => absurd hout hne, fun hs => absurd hs h⟩, fun hs => absurd hs h,
      fun _ => hout⟩

/-- A started controller at time 50 sending an event that carried the time stamp 3. -/
theorem SendMsg_outputs_witness :
    (⟨CanControllerState.Started, 50⟩ : SimBehaviorTrivial).parentState
        = CanControllerState.Started
      ∧ (⟨CanControllerState.Started, 50⟩ : SimBehaviorTrivial).outputs exampleFrameEvent
        = [Effect.ReceiveFrameEvent
            { exampleFrameEvent with timestamp := 50, direction := TransmitDirection.TX },
           Effect.SendMsg
            { exampleFrameEvent with timestamp := 50, direction := TransmitDirection.RX },
           Effect.ReceiveFrameTransmitEvent
            { transmitId := 7, canId := 17, timestamp := 50,
              status := CanTransmitStatus.Transmitted, userContext := 99 }] :=
  ⟨rfl, (SendMsg_outputs ⟨CanControllerState.Started, 50⟩ exampleFrameEvent).2.1 rfl⟩

end Can
end Services
end SilKit

/-! ## Theorems: the checks of the LIN controller -/

namespace SilKit
namespace Services
namespace Lin
namespace LinController

/-- A call that throws leaves a controller whose status is the one before. -/
theorem ThrowIfUninitialized_status (self : LinController) (name : String) :
    (self.ThrowIfUninitialized name).2._controllerStatus = self._controllerStatus := by
  unfold ThrowIfUninitialized
  split_ifs <;> rfl

/-- The check for initialisation lets exactly the initialised controller pass,
unchanged. -/
theorem ThrowIfUninitialized_none (self : LinController) (name : String)
    (h : self._controllerStatus ≠ LinControllerStatus.Unknown) :
    self.ThrowIfUninitialized name = (none, self) := by
  unfold ThrowIfUninitialized
  rw [if_neg h]

/-- The check for initialisation stops the controller of unknown status. -/
theorem ThrowIfUninitialized_some (self : LinController) (name : String)
    (h : self._controllerStatus = LinControllerStatus.Unknown) :
    self.ThrowIfUninitialized name =
      (some (Exception.StateError (name ++
          " must only be called when the controller is initialized! Check " ++
          "whether a call to LinController::Init is missing.")),
        { self with _logger := self._logger ++ [LogCall.Error (name ++
          " must only be called when the controller is initialized! Check " ++
          "whether a call to LinController::Init is missing.")] }) := by
  unfold ThrowIfUninitialized
  rw [if_pos h]

/-- The check for the master mode lets exactly the master pass, unchanged. -/
theorem ThrowIfNotMaster_none (self : LinController) (name : String)
    (h : self._controllerMode = LinControllerMode.Master) :
    self.ThrowIfNotMaster name = (none, self) := by
  unfold ThrowIfNotMaster
  rw [if_neg (not_not.mpr h)]

/-- The check for the master mode stops every other controller. -/
theorem ThrowIfNotMaster_some (self : LinController) (name : String)
    (h : self._controllerMode ≠ LinControllerMode.Master) :
    self.ThrowIfNotMaster name =
      (some (Exception.SilKitError (name ++ " must only be called in master mode!")),
        { self with _logger := self._logger ++
            [LogCall.Error (name ++ " must only be called in master mode!")] }) := by
  unfold ThrowIfNotMaster
  rw [if_pos h]

/-- The status that `SetControllerStatusInternal` leaves is the one given. -/
theorem SetControllerStatusInternal_status (self : LinController) (status : LinControllerStatus) :
    (self.SetControllerStatusInternal status)._controllerStatus = status := by
  unfold SetControllerStatusInternal SendMsg
  rfl

/-- The body of `SendFrame` does not write the status. -/
theorem SendFrame_checked_status (self : LinController) (frame : LinFrame)
    (responseType : LinFrameResponseType) :
    (self.SendFrame_checked frame responseType)._controllerStatus = self._controllerStatus := by
  unfold SendFrame_checked SendMsg CallHandlers updateThisLinNode
  split_ifs <;> rfl

/-- No call brings an initialised controller back to the status `Unknown`. -/
theorem call_status_ne_Unknown (self : LinController) (c : Call)
    (h : self._controllerStatus ≠ LinControllerStatus.Unknown) :
    (self.call c).2._controllerStatus ≠ LinControllerStatus.Unknown := by
  cases c with
  | Init config =>
    show (self.Init config).2._controllerStatus ≠ _
    unfold Init
    split_ifs with h1
    · exact h
    · exact h
  | SendFrame frame responseType =>
    show (self.SendFrame frame responseType).2._controllerStatus ≠ _
    unfold SendFrame
    rw [ThrowIfUninitialized_none self _ h]
    dsimp only
    by_cases hm : self._controllerMode = LinControllerMode.Master
    · rw [ThrowIfNotMaster_none self _ hm]
      show (self.SendFrame_checked frame responseType)._controllerStatus ≠ _
      rw [SendFrame_checked_status]; exact h
    · rw [ThrowIfNotMaster_some self _ hm]; exact h
  | SendFrameHeader linId =>
    show (self.SendFrameHeader linId).2._controllerStatus ≠ _
    unfold SendFrameHeader
    rw [ThrowIfUninitialized_none self _ h]
    dsimp only
    by_cases hm : self._controllerMode = LinControllerMode.Master
    · rw [ThrowIfNotMaster_none self _ hm]; exact h
    · rw [ThrowIfNotMaster_some self _ hm]; exact h
  | GoToSleep =>
    show (self.GoToSleep).2._controllerStatus ≠ _
    unfold GoToSleep
    rw [ThrowIfUninitialized_none self _ h]
    dsimp only
    by_cases hm : self._controllerMode = LinControllerMode.Master
    · rw [ThrowIfNotMaster_none self _ hm]
      show LinControllerStatus.Sleep ≠ LinControllerStatus.Unknown
      decide
    · rw [ThrowIfNotMaster_some self _ hm]; exact h
  | GoToSleepInternal =>
    show (self.GoToSleepInternal).2._controllerStatus ≠ _
    unfold GoToSleepInternal
    rw [ThrowIfUninitialized_none self _ h]
    show (self.SetControllerStatusInternal _)._controllerStatus ≠ _
    rw [SetControllerStatusInternal_status]
    decide
  | Wakeup =>
    show (self.Wakeup).2._controllerStatus ≠ _
    unfold Wakeup
    rw [ThrowIfUninitialized_none self _ h]
    exact h
  | WakeupInternal =>
    show (self.WakeupInternal).2._controllerStatus ≠ _
    unfold WakeupInternal
    rw [ThrowIfUninitialized_none self _ h]
    show (self.SetControllerStatusInternal _)._controllerStatus ≠ _
    rw [SetControllerStatusInternal_status]
    decide

/-- No sequence of calls brings an initialised controller back to the status
`Unknown`. -/
theorem calls_status_ne_Unknown (cs : List Call) (self : LinController)
    (h : self._controllerStatus ≠ LinControllerStatus.Unknown) :
    (self.calls cs)._controllerStatus ≠ LinControllerStatus.Unknown := by
  induction cs generalizing self with
  | nil => exact h
  | cons c rest ih => exact ih _ (call_status_ne_Unknown self c h)

/-- C13. `LinController::Init` raises a `StateError` if and only if the requested
mode is `Inactive` or the status of the controller is not `Unknown`, and it
succeeds in every other case. When it raises, the controller is the one
before, but for the line written to the logger: its mode, its status and its
node table are unchanged and nothing was handed on for sending. When it
succeeds, `Status()` is `Operational`, the mode is the requested one and the
simulation behaviour got exactly one more message, the configuration. After
a successful `Init`, whatever calls follow, every further `Init` raises. -/
theorem Init_contract (self : LinController) (config : LinControllerConfig) :
    ((∃ what, (self.Init config).1 = .error (Exception.StateError what)) ↔
      (config.controllerMode = LinControllerMode.Inactive ∨
        self._controllerStatus ≠ LinControllerStatus.Unknown)) ∧
    ((self.Init config).1 = .ok () ↔
      ¬ (config.controllerMode = LinControllerMode.Inactive ∨
        self._controllerStatus ≠ LinControllerStatus.Unknown)) ∧
    ((self.Init config).1 ≠ .ok () →
      ∃ text, (self.Init config).2 =
        { self with _logger := self._logger ++ [LogCall.Error text] }) ∧
    ((self.Init config).1 = .ok () →
      (self.Init config).2.Status = LinControllerStatus.Operational ∧
      (self.Init config).2._controllerMode = config.controllerMode ∧
      (self.Init config).2._simulationBehavior =
        self._simulationBehavior ++ [SimCall.SendMsg_LinControllerConfig config]) ∧
    ((self.Init config).1 = .ok () →
      ∀ (cs : List Call) (config2 : LinControllerConfig),
        ∃ what, (((self.Init config).2.calls cs).Init config2).1 =
          .error (Exception.StateError what)) := by
  have hcases : (config.controllerMode = LinControllerMode.Inactive ∧
        self.Init config = (.error self.ThrowOnErroneousInitialization.1,
          self.ThrowOnErroneousInitialization.2)) ∨
      (config.controllerMode ≠ LinControllerMode.Inactive ∧
        self._controllerStatus ≠ LinControllerStatus.Unknown ∧
        self.Init config = (.error self.ThrowOnDuplicateInitialization.1,
          self.ThrowOnDuplicateInitialization.2)) ∨
      (config.controllerMode ≠ LinControllerMode.Inactive ∧
        self._controllerStatus = LinControllerStatus.Unknown ∧
        (self.Init config).1 = .ok () ∧
        (self.Init config).2.Status = LinControllerStatus.Operational ∧
        (self.Init config).2._controllerMode = config.controllerMode ∧
        (self.Init config).2._simulationBehavior =
          self._simulationBehavior ++ [SimCall.SendMsg_LinControllerConfig config]) := by
    unfold Init
    split_ifs with h1 h2
    · exact Or.inl ⟨h1, rfl⟩
    · exact Or.inr (Or.inl ⟨h1, h2, rfl⟩)
    · exact Or.inr (Or.inr ⟨h1, not_not.mp h2, rfl, rfl, rfl, rfl⟩)
  have hdup : ∀ (s : LinController) (c : LinControllerConfig),
      s._controllerStatus ≠ LinControllerStatus.Unknown →
      ∃ what, (s.Init c).1 = .error (Exception.StateError what) := by
    intro s c hs
    unfold Init
    split_ifs with h1
    · exact ⟨_, rfl⟩
    · exact ⟨_, rfl⟩
  rcases hcases with ⟨h1, he⟩ | ⟨h1, h2, he⟩ | ⟨h1, h2, hok, hst, hmode, hsim⟩
  · refine ⟨⟨fun _ => Or.inl h1, fun _ => ⟨_, by rw [he]; rfl⟩⟩, ?_, ?_, ?_, ?_⟩
    · rw [he]
      exact ⟨fun h => Except.noConfusion h, fun h => absurd (Or.inl h1) h⟩
    · intro _; rw [he]; exact ⟨_, rfl⟩
    · rw [he]; intro h; exact Except.noConfusion h
    · rw [he]; intro h; exact Except.noConfusion h
  · refine ⟨⟨fun _ => Or.inr h2, fun _ => ⟨_, by rw [he]; rfl⟩⟩, ?_, ?_, ?_, ?_⟩
    · rw [he]
      exact ⟨fun h => Except.noConfusion h, fun h => absurd (Or.inr h2) h⟩
    · intro _; rw [he]; exact ⟨_, rfl⟩
    · rw [he]; intro h; exact Except.noConfusion h
    · rw [he]; intro h; exact Except.noConfusion h
  · refine ⟨⟨?_, ?_⟩, ?_, ?_, ?_, ?_⟩
    · rintro ⟨what, hw⟩
      rw [hok] at hw
      exact Except.noConfusion hw
    · rintro (h | h)
      · exact absurd h h1
      · exact absurd h2 h
    · refine ⟨fun _ => ?_, fun _ => hok⟩
      rintro (h | h)
      · exact absurd h h1
      · exact absurd h2 h
    · intro h; exact absurd hok h
    · intro _; exact ⟨hst, hmode, hsim⟩
    · intro _ cs config2
      apply hdup
      apply calls_status_ne_Unknown
      have : (self.Init config).2._controllerStatus = LinControllerStatus.Operational := hst
      rw [this]
      decide

/-- An instance of `Init_contract`: a new controller is initialised as a master;
it is operational, and after it went to sleep and was woken up a second
`Init` raises. -/
theorem Init_contract_witness :
    (((create (1, 1) 64 0).Init masterConfig).1 = .ok () →
      ((create (1, 1) 64 0).Init masterConfig).2.Status = LinControllerStatus.Operational ∧
      ((create (1, 1) 64 0).Init masterConfig).2._controllerMode = LinControllerMode.Master ∧
      ((create (1, 1) 64 0).Init masterConfig).2._simulationBehavior =
        [] ++ [SimCall.SendMsg_LinControllerConfig masterConfig]) ∧
    ((create (1, 1) 64 0).Init masterConfig).1 = .ok () ∧
    (∃ what, (((((create (1, 1) 64 0).Init masterConfig).2.calls
        [Call.GoToSleep, Call.WakeupInternal]).Init masterConfig).1 =
          .error (Exception.StateError what))) :=
  ⟨(Init_contract (create (1, 1) 64 0) masterConfig).2.2.2.1,
    by decide,
    (Init_contract (create (1, 1) 64 0) masterConfig).2.2.2.2 (by decide)
      [Call.GoToSleep, Call.WakeupInternal] masterConfig⟩

/-- C14. For `SendFrame`, `SendFrameHeader` and `GoToSleep` of `LinController`: on a
controller that is not initialised the call raises `StateError`; on an
initialised controller that is not in master mode it raises `SilKitError`;
in both cases the controller after the call is the one before but for the
line written to the logger, so nothing was sent, no handler was called and
no state was changed. The call returns without raising exactly when the
controller is initialised and in master mode. -/
theorem master_checks (self : LinController) (c : Call)
    (hc : (∃ frame responseType, c = Call.SendFrame frame responseType) ∨
      (∃ linId, c = Call.SendFrameHeader linId) ∨ c = Call.GoToSleep) :
    (self._controllerStatus = LinControllerStatus.Unknown →
      ∃ what, self.call c = (.error (Exception.StateError what),
        { self with _logger := self._logger ++ [LogCall.Error what] })) ∧
    (self._controllerStatus ≠ LinControllerStatus.Unknown →
      self._controllerMode ≠ LinControllerMode.Master →
      ∃ what, self.call c = (.error (Exception.SilKitError what),
        { self with _logger := self._logger ++ [LogCall.Error what] })) ∧
    ((self.call c).1 = .ok () ↔
      (self._controllerStatus ≠ LinControllerStatus.Unknown ∧
        self._controllerMode = LinControllerMode.Master)) := by
  have key : ∀ (name : String) (body : LinController → LinController),
      self.call c =
        (match self.ThrowIfUninitialized name with
          | (some e, self1) => (.error e, self1)
          | (none, self1) =>
            match self1.ThrowIfNotMaster name with
            | (some e, self2) => (.error e, self2)
            | (none, self2) => (.ok (), body self2)) →
      (self._controllerStatus = LinControllerStatus.Unknown →
        ∃ what, self.call c = (.error (Exception.StateError what),
          { self with _logger := self._logger ++ [LogCall.Error what] })) ∧
      (self._controllerStatus ≠ LinControllerStatus.Unknown →
        self._controllerMode ≠ LinControllerMode.Master →
        ∃ what, self.call c = (.error (Exception.SilKitError what),
          { self with _logger := self._logger ++ [LogCall.Error what] })) ∧
      ((self.call c).1 = .ok () ↔
        (self._controllerStatus ≠ LinControllerStatus.Unknown ∧
          self._controllerMode = LinControllerMode.Master)) := by
    intro name body hcall
    by_cases hs : self._controllerStatus = LinControllerStatus.Unknown
    · rw [ThrowIfUninitialized_some self name hs] at hcall
      refine ⟨fun _ => ⟨_, hcall⟩, fun h => absurd hs h, ?_⟩
      rw [hcall]
      exact ⟨fun h => Except.noConfusion h, fun h => absurd hs h.1⟩
    · rw [ThrowIfUninitialized_none self name hs] at hcall
      dsimp only at hcall
      by_cases hm : self._controllerMode = LinControllerMode.Master
      · rw [ThrowIfNotMaster_none self name hm] at hcall
        refine ⟨fun h => absurd h hs, fun _ h => absurd hm h, ?_⟩
        rw [hcall]
        exact ⟨fun _ => ⟨hs, hm⟩, fun _ => rfl⟩
      · rw [ThrowIfNotMaster_some self name hm] at hcall
        refine ⟨fun h => absurd h hs, fun _ _ => ⟨_, hcall⟩, ?_⟩
        rw [hcall]
        exact ⟨fun h => Except.noConfusion h, fun h => absurd h.2 hm⟩
  rcases hc with ⟨frame, responseType, rfl⟩ | ⟨linId, rfl⟩ | rfl
  · exact key "SendFrame" (fun s => s.SendFrame_checked frame responseType) rfl
  · exact key "SendFrameHeader"
      (fun s => s.SendMsg (SimCall.SendMsg_LinSendFrameHeaderRequest s.now linId)) rfl
  · exact key "GoToSleep"
      (fun s => { s with
        _simulationBehavior := s._simulationBehavior ++ [SimCall.GoToSleep]
        _controllerStatus := LinControllerStatus.Sleep }) rfl

/-- An instance of `master_checks`: `GoToSleep` on a new controller raises
`StateError`, `SendFrame` on an initialised slave raises `SilKitError`, and
`SendFrameHeader` on an initialised master returns. -/
theorem master_checks_witness :
    (∃ what, (create (1, 1) 64 0).call Call.GoToSleep = (.error (Exception.StateError what),
      { create (1, 1) 64 0 with _logger := [] ++ [LogCall.Error what] })) ∧
    (((create (1, 1) 64 0).Init masterConfig).2.call (Call.SendFrameHeader 17)).1 = .ok () :=
  ⟨(master_checks (create (1, 1) 64 0) Call.GoToSleep (Or.inr (Or.inr rfl))).1 rfl,
    (master_checks ((create (1, 1) 64 0).Init masterConfig).2 (Call.SendFrameHeader 17)
      (Or.inr (Or.inl ⟨17, rfl⟩))).2.2.mpr ⟨by decide, by decide⟩⟩

end LinController
end Lin
end Services
end SilKit

/-! ## Theorems: the watchdog -/

namespace ib
namespace mw
namespace sync
namespace WatchDog

/-- The cast of a duration to milliseconds exceeds a timeout that is not negative
exactly when the duration is at least one whole millisecond above it. -/
theorem duration_cast_ms_gt_iff (n : Nat) (hn : 0 < n) (T d : Int) (hT : 0 ≤ T) :
    duration_cast_ms n d > T ↔ (T + 1) * n ≤ d := by
  unfold duration_cast_ms
  have hpos : (0 : Int) < (n : Int) := by exact_mod_cast hn
  by_cases hd : 0 ≤ d
  · rw [Int.tdiv_eq_ediv hd (le_of_lt hpos)]
    constructor
    · intro h
      exact (Int.le_ediv_iff_mul_le hpos).mp (by omega)
    · intro h
      have h1 := (Int.le_ediv_iff_mul_le hpos).mpr h
      omega
  · have h1 := Int.tdiv_nonneg (show 0 ≤ -d by omega) (le_of_lt hpos)
    rw [Int.neg_tdiv] at h1
    constructor
    · intro h
      omega
    · intro h
      have h2 : 0 ≤ (T + 1) * (n : Int) := Int.mul_nonneg (by omega) (le_of_lt hpos)
      omega

/-- C15 (counterexample). The constructor accepts a warn timeout of 10 ms with an
error timeout of 5 ms; when that watchdog polls 7 ms after `Start`, the
elapsed time exceeds the error timeout, yet the watchdog is `Healthy` after
the poll and no handler was invoked. The constructor also accepts a warn
timeout of 5 ms with an error timeout of 10 ms; on a clock of 1000 ticks
a millisecond, a poll 10999 ticks after `Start` sees an elapsed time above the
10000 ticks of the error timeout, yet the cast to milliseconds gives 10, the
watchdog is in the state `Warn` after the poll and only the warn handler was
invoked. -/
theorem Run_step_inverted_timeouts :
    create 1 10 5 = .ok (exampleInverted.Reset) ∧
    (exampleInverted.Reset).Start 0 = exampleInverted ∧
    exampleInverted.currentRunDuration 0 7 > exampleInverted._errorTimeout ∧
    (exampleInverted.Run_step 7).state = WatchDogState.Healthy ∧
    (exampleInverted.Run_step 7).handlerCalls = [] ∧
    create 1000 5 10 = .ok (exampleOrdered.Reset) ∧
    (exampleOrdered.Reset).Start 0 = exampleOrdered ∧
    (10999 : Int) - 0 > exampleOrdered._errorTimeout * exampleOrdered.ticksPerMs ∧
    exampleOrdered.currentRunDuration 0 10999 = 10 ∧
    (exampleOrdered.Run_step 10999).state = WatchDogState.Warn ∧
    (exampleOrdered.Run_step 10999).handlerCalls = [WatchDogHandlerCall.warnHandler 10] := by
  decide

/-- C15 (as amended). When the watchdog polls while a job is running and the elapsed
time in whole milliseconds, which is the difference of the clock readings
cast to milliseconds, exceeds the error timeout and the warn timeout, the
watchdog is in the state `Error` after the poll; unless it was in that state
already, the poll invoked the error handler, once, with that elapsed time in
whole milliseconds, and no other handler; if it was, the poll invoked no
handler. Every pair of timeouts with the warn timeout not above the error
timeout is covered whenever the elapsed time in whole milliseconds exceeds
the error timeout. For a timeout that is not negative, the elapsed time in
whole milliseconds exceeds it exactly when the elapsed time in ticks of the
clock is at least one whole millisecond above it. -/
theorem Run_step_error (self : WatchDog) (startTime now : Int)
    (hrun : self._startTime = some startTime)
    (herror : self.currentRunDuration startTime now > self._errorTimeout)
    (hwarn : self.currentRunDuration startTime now > self._warnTimeout ∨
      self._warnTimeout ≤ self._errorTimeout) :
    (self.Run_step now).state = WatchDogState.Error ∧
    (self.state ≠ WatchDogState.Error →
      (self.Run_step now).handlerCalls = self.handlerCalls ++
        [WatchDogHandlerCall.errorHandler (self.currentRunDuration startTime now)]) ∧
    (self.state = WatchDogState.Error → (self.Run_step now).handlerCalls = self.handlerCalls) ∧
    (∀ T : Int, 0 ≤ T → 0 < self.ticksPerMs →
      (self.currentRunDuration startTime now > T ↔
        (T + 1) * self.ticksPerMs ≤ now - startTime)) := by
  have hw : ¬ self.currentRunDuration startTime now ≤ self._warnTimeout := by
    rcases hwarn with h | h <;> omega
  have he : ¬ (self.currentRunDuration startTime now > self._warnTimeout ∧
      self.currentRunDuration startTime now ≤ self._errorTimeout) := by
    rintro ⟨_, h⟩; omega
  have hticks : ∀ T : Int, 0 ≤ T → 0 < self.ticksPerMs →
      (self.currentRunDuration startTime now > T ↔
        (T + 1) * self.ticksPerMs ≤ now - startTime) := by
    intro T hT hn
    exact duration_cast_ms_gt_iff self.ticksPerMs hn T (now - startTime) hT
  unfold Run_step
  rw [hrun]
  dsimp only
  rw [if_neg hw, if_neg he, if_pos herror]
  by_cases hs : self.state = WatchDogState.Error
  · rw [if_neg (not_not.mpr hs)]
    exact ⟨hs, fun h => absurd hs h, fun _ => rfl, hticks⟩
  · rw [if_pos hs]
    exact ⟨rfl, fun _ => rfl, fun h => absurd h hs, hticks⟩

/-- An instance of `Run_step_error`: with a warn timeout of 5 ms and an error
timeout of 10 ms on a clock of 1000 ticks a millisecond, the poll 11000 ticks
after the start, the first that is one whole millisecond above the error
timeout, sees an elapsed time of 11 ms, which brings the state `Error` and
the error handler. -/
theorem Run_step_error_witness :
    exampleOrdered.currentRunDuration 0 11000 = 11 ∧
    (exampleOrdered.Run_step 11000).state = WatchDogState.Error ∧
    (exampleOrdered.state ≠ WatchDogState.Error →
      (exampleOrdered.Run_step 11000).handlerCalls = exampleOrdered.handlerCalls ++
        [WatchDogHandlerCall.errorHandler (exampleOrdered.currentRunDuration 0 11000)]) ∧
    (exampleOrdered.state = WatchDogState.Error →
      (exampleOrdered.Run_step 11000).handlerCalls = exampleOrdered.handlerCalls) ∧
    (∀ T : Int, 0 ≤ T → 0 < exampleOrdered.ticksPerMs →
      (exampleOrdered.currentRunDuration 0 11000 > T ↔
        (T + 1) * exampleOrdered.ticksPerMs ≤ 11000 - 0)) :=
  ⟨by decide, Run_step_error exampleOrdered 0 11000 rfl (by decide) (Or.inl (by decide))⟩

end WatchDog
end sync
end mw
end ib

/-! ## Theorems: `CreateDataPublisher` -/

namespace ib
namespace mw
namespace ComAdapter

/-- What `_ibConnection` holds is still there after `GetServiceDiscovery`. -/
theorem GetServiceDiscovery_ibConnection (self : ComAdapter) (x : ConnectionCall)
    (h : x ∈ self._ibConnection) : x ∈ self.GetServiceDiscovery._ibConnection := by
  unfold GetServiceDiscovery
  split
  · exact h
  · unfold CreateController_store
    rw [if_neg (by decide)]
    exact List.mem_append_left _ h

/-- A successful `CreateController` returns a controller on the network of the link
and has set the history length of the link for it. -/
theorem CreateController_history (self : ComAdapter) (T : ControllerT) (link : cfg.Link)
    (serviceName : String) (serviceType : ServiceType) (supplementalData : SupplementalData)
    (c : Controller)
    (h : (self.CreateController T link serviceName serviceType supplementalData).1 = .ok c) :
    serviceName ≠ "" ∧ c.descriptor.networkName = link.name ∧
    ConnectionCall.SetHistoryLengthForLink link.name link.historyLength c.addr ∈
      (self.CreateController T link serviceName serviceType supplementalData).2._ibConnection := by
  unfold CreateController at h ⊢
  unfold CreateController_store at h ⊢
  by_cases hn : serviceName = ""
  · rw [if_pos hn] at h
    exact Except.noConfusion h
  · rw [if_neg hn] at h ⊢
    dsimp only at h ⊢
    cases h
    refine ⟨hn, rfl, ?_⟩
    apply GetServiceDiscovery_ibConnection
    simp

/-- C16. `CreateDataPublisher` with a history greater than 1 raises `Misconfiguration`
and leaves the ComAdapter as it was, whatever the lookup of the configuration
would do. When the configuration found for the topic uses replay (a
direction other than `Undefined` and a non-empty trace source) it raises
`Misconfiguration` too, and the ComAdapter is unchanged: no controller was
created. When it succeeds, the history is 0 or 1, the publisher was created
by `CreateController` on a link whose `historyLength` is the history asked
for, and the connection was told that history length for the network of the
publisher. It succeeds exactly when the history is at most 1, the lookup
finds a configuration that does not use replay, and the topic is not
empty. -/
theorem CreateDataPublisher_history (self : ComAdapter) (X : DataPublisherExternals)
    (dataPublishers : List cfg.DataPort) (topic : String)
    (dataExchangeFormat : cfg.DataExchangeFormat) (labels : List (String × String))
    (history : Nat) :
    (history > 1 →
      self.CreateDataPublisher X dataPublishers topic dataExchangeFormat labels history =
        (.error (.Misconfiguration "DataPublishers do not support history > 1."), self)) ∧
    (∀ found, X.get_by_name dataPublishers topic = .ok found →
      found.replay.direction ≠ cfg.ReplayDirection.Undefined →
      found.replay.useTraceSource ≠ "" →
      ∃ what, self.CreateDataPublisher X dataPublishers topic dataExchangeFormat labels history =
        (.error (.Misconfiguration what), self)) ∧
    (∀ c, (self.CreateDataPublisher X dataPublishers topic dataExchangeFormat labels history).1 =
        .ok c →
      history ≤ 1 ∧
      (∃ link supplementalData, link.historyLength = history ∧ link.name = X.pubUUID ∧
        self.CreateDataPublisher X dataPublishers topic dataExchangeFormat labels history =
          self.CreateController dataPublisherT link topic ServiceType.Controller
            supplementalData) ∧
      c.descriptor.networkName = X.pubUUID ∧
      ConnectionCall.SetHistoryLengthForLink X.pubUUID history c.addr ∈
        (self.CreateDataPublisher X dataPublishers topic dataExchangeFormat labels
          history).2._ibConnection) ∧
    ((∃ c, (self.CreateDataPublisher X dataPublishers topic dataExchangeFormat labels history).1 =
        .ok c) ↔
      (history ≤ 1 ∧ topic ≠ "" ∧
        ∃ found, X.get_by_name dataPublishers topic = .ok found ∧
          ¬ (found.replay.direction ≠ cfg.ReplayDirection.Undefined ∧
            found.replay.useTraceSource ≠ ""))) := by
  by_cases hh : history > 1
  · have hres : self.CreateDataPublisher X dataPublishers topic dataExchangeFormat labels history =
        (.error (.Misconfiguration "DataPublishers do not support history > 1."), self) := by
      unfold CreateDataPublisher
      rw [if_pos hh]
    refine ⟨fun _ => hres, fun _ _ _ _ => ⟨_, hres⟩, ?_, ?_⟩
    · intro c hc
      rw [hres] at hc
      exact Except.noConfusion hc
    · constructor
      · rintro ⟨c, hc⟩
        rw [hres] at hc
        exact Except.noConfusion hc
      · rintro ⟨h, -⟩
        omega
  · cases hget : X.get_by_name dataPublishers topic with
    | error e =>
      have hres : self.CreateDataPublisher X dataPublishers topic dataExchangeFormat labels
          history = (.error e, self) := by
        unfold CreateDataPublisher
        rw [if_neg hh, hget]
      refine ⟨fun h => absurd h hh, fun _ h => Except.noConfusion h, ?_, ?_⟩
      · intro c hc
        rw [hres] at hc
        exact Except.noConfusion hc
      · constructor
        · rintro ⟨c, hc⟩
          rw [hres] at hc
          exact Except.noConfusion hc
        · rintro ⟨-, -, found, hf, -⟩
          exact Except.noConfusion hf
    | ok found =>
      by_cases hr : found.replay.direction ≠ cfg.ReplayDirection.Undefined ∧
          found.replay.useTraceSource ≠ ""
      · have hrb : ControllerUsesReplay
            { found with
              dataExchangeFormat := dataExchangeFormat
              history := history
              pubUUID := X.pubUUID
              labels := labels
              name := topic } = true := by
          simp [ControllerUsesReplay, hr.1, hr.2]
        have hres : self.CreateDataPublisher X dataPublishers topic dataExchangeFormat labels
            history = (.error (.Misconfiguration
              "Replay is not supported for DataPublisher/DataSubscriber."), self) := by
          unfold CreateDataPublisher
          rw [if_neg hh, hget]
          dsimp only
          rw [if_pos hrb]
        refine ⟨fun h => absurd h hh, fun _ _ _ _ => ⟨_, hres⟩, ?_, ?_⟩
        · intro c hc
          rw [hres] at hc
          exact Except.noConfusion hc
        · constructor
          · rintro ⟨c, hc⟩
            rw [hres] at hc
            exact Except.noConfusion hc
          · rintro ⟨-, -, found2, hf, hn⟩
            cases hf
            exact absurd hr hn
      · have hrb : ¬ ControllerUsesReplay
            { found with
              dataExchangeFormat := dataExchangeFormat
              history := history
              pubUUID := X.pubUUID
              labels := labels
              name := topic } = true := by
          simp only [ControllerUsesReplay, Bool.and_eq_true, decide_eq_true_eq,
            Bool.not_eq_true', beq_eq_false_iff_ne]
          exact hr
        have hres : self.CreateDataPublisher X dataPublishers topic dataExchangeFormat labels
            history = self.CreateController dataPublisherT
              { id := -1, name := X.pubUUID, type := cfg.LinkType.DataMessage,
                historyLength := history } topic ServiceType.Controller
              (((((SupplementalData.assign [] X.controllerType
                X.controllerTypeDataPublisher).assign
                X.supplKeyDataPublisherTopic topic).assign
                X.supplKeyDataPublisherPubUUID X.pubUUID).assign
                X.supplKeyDataPublisherPubDxf dataExchangeFormat.mediaType).assign
                X.supplKeyDataPublisherPubLabels (X.Serialize labels)) := by
          unfold CreateDataPublisher
          rw [if_neg hh, hget]
          dsimp only
          rw [if_neg hrb]
        refine ⟨fun h => absurd h hh, ?_, ?_, ?_⟩
        · intro found2 hf hd hs
          cases hf
          exact absurd ⟨hd, hs⟩ hr
        · intro c hc
          rw [hres] at hc ⊢
          obtain ⟨-, hnet, hmem⟩ := CreateController_history _ _ _ _ _ _ c hc
          exact ⟨by omega, ⟨_, _, rfl, rfl, rfl⟩, hnet, hmem⟩
        · constructor
          · rintro ⟨c, hc⟩
            rw [hres] at hc
            obtain ⟨hn, -, -⟩ := CreateController_history _ _ _ _ _ _ c hc
            exact ⟨by omega, hn, found, rfl, hr⟩
          · rintro ⟨-, hn, -⟩
            rw [hres]
            obtain ⟨c, s1, hc, -⟩ := CreateController_ok self dataPublisherT
              { id := -1, name := X.pubUUID, type := cfg.LinkType.DataMessage,
                historyLength := history } topic ServiceType.Controller
              (((((SupplementalData.assign [] X.controllerType
                X.controllerTypeDataPublisher).assign
                X.supplKeyDataPublisherTopic topic).assign
                X.supplKeyDataPublisherPubUUID X.pubUUID).assign
                X.supplKeyDataPublisherPubDxf dataExchangeFormat.mediaType).assign
                X.supplKeyDataPublisherPubLabels (X.Serialize labels)) hn
            exact ⟨c, by rw [hc]⟩

/-- An instance of `CreateDataPublisher_history`: a history of 2 raises; the topic
`Pressure`, configured with replay, raises; the topic `Temperature` with the
history 1 succeeds. -/
theorem CreateDataPublisher_history_witness :
    example1.CreateDataPublisher exampleExternals [examplePort, exampleReplayPort] "Temperature"
        { mediaType := "json" } [] 2 =
      (.error (.Misconfiguration "DataPublishers do not support history > 1."), example1) ∧
    (∃ what, example1.CreateDataPublisher exampleExternals [examplePort, exampleReplayPort]
        "Pressure" { mediaType := "json" } [] 1 = (.error (.Misconfiguration what), example1)) ∧
    (∃ c, (example1.CreateDataPublisher exampleExternals [examplePort, exampleReplayPort]
        "Temperature" { mediaType := "json" } [] 1).1 = .ok c) :=
  ⟨(CreateDataPublisher_history example1 exampleExternals [examplePort, exampleReplayPort]
      "Temperature" { mediaType := "json" } [] 2).1 (by decide),
    (CreateDataPublisher_history example1 exampleExternals [examplePort, exampleReplayPort]
      "Pressure" { mediaType := "json" } [] 1).2.1 exampleReplayPort (by decide) (by decide)
      (by decide),
    (CreateDataPublisher_history example1 exampleExternals [examplePort, exampleReplayPort]
      "Temperature" { mediaType := "json" } [] 1).2.2.2.mpr
      ⟨by decide, by decide, examplePort, by decide, by decide⟩⟩

end ComAdapter
end mw
end ib

/-! ## Theorems: the C interface -/

namespace SilKit
namespace Capi

/-- After `erase` the key has no entry. -/
theorem future_lookup_erase_self (m : List (Nat × Future)) (k : Nat) :
    (erase m k).lookup k = none := by
  induction m with
  | nil => rfl
  | cons e m ih =>
    obtain ⟨a, b⟩ := e
    by_cases hak : a = k
    · subst hak
      simpa [erase] using ih
    · have hb : (k == a) = false := by simpa using fun h => hak h.symm
      simp only [erase, ne_eq, hak, not_false_eq_true, decide_True, List.filter_cons_of_pos,
        List.lookup_cons, hb]
      exact ih

/-- The operation `erase` keeps the entries of the other keys. -/
theorem future_lookup_erase_ne (m : List (Nat × Future)) (k k2 : Nat) (h : k2 ≠ k) :
    (erase m k).lookup k2 = m.lookup k2 := by
  induction m with
  | nil => rfl
  | cons e m ih =>
    obtain ⟨a, b⟩ := e
    by_cases hak : a = k
    · subst hak
      have hb : (k2 == a) = false := by simpa using h
      simp only [erase, ne_eq, not_true_eq_false, decide_False, Bool.false_eq_true,
        not_false_eq_true, List.filter_cons_of_neg, List.lookup_cons, hb]
      exact ih
    · simp only [erase, ne_eq, hak, not_false_eq_true, decide_True, List.filter_cons_of_pos,
        List.lookup_cons]
      cases (k2 == a)
      · exact ih
      · rfl

/-- After `assign` the key has the value. -/
theorem future_lookup_assign_self (m : List (Nat × Future)) (k : Nat) (v : Future) :
    (assign m k v).lookup k = some v := by
  simp [assign, List.lookup]

/-- The operation `assign` keeps the entries of the other keys. -/
theorem future_lookup_assign_ne (m : List (Nat × Future)) (k k2 : Nat) (v : Future)
    (h : k2 ≠ k) : (assign m k v).lookup k2 = m.lookup k2 := by
  have hb : (k2 == k) = false := by simpa using h
  simp only [assign, List.lookup_cons, hb]
  exact future_lookup_erase_ne m k k2 h

/-- C17. `SilKit_EthernetController_SendFrame` with a controller and a frame that are not
null: when the raw size is below 60 it returns `BADPARAMETER` and makes no
call on the controller; otherwise it calls `SendFrame` of the controller
exactly once, with the first `raw.size` bytes of the data, in their order,
and with the user context given, and it returns `SUCCESS` when that call
returns (an exception of the call is answered by `CAPI_LEAVE`). -/
theorem SendFrame_min_size (M : CapiImpl) (SendFrame : EthernetSendFrameCall → Option CppException)
    (st : EthernetState) (controller : Nat) (frame : SilKit_EthernetFrame) (userContext : Nat) :
    (frame.raw.size < 60 →
      SilKit_EthernetController_SendFrame M SendFrame st (some controller) (some frame)
          userContext =
        (SilKit_ReturnCode.BADPARAMETER,
          { st with SilKit_error_string :=
              "An ethernet frame must be at least 60 bytes in size." })) ∧
    (60 ≤ frame.raw.size →
      (SilKit_EthernetController_SendFrame M SendFrame st (some controller) (some frame)
          userContext).2.sendFrameCalls =
        st.sendFrameCalls ++ [{ controller := controller,
                                raw := frame.raw.data.take frame.raw.size,
                                userContext := userContext }] ∧
      (frame.raw.size ≤ frame.raw.data.length →
        (frame.raw.data.take frame.raw.size).length = frame.raw.size ∧
        ∀ i, i < frame.raw.size →
          (frame.raw.data.take frame.raw.size)[i]? = frame.raw.data[i]?) ∧
      (SendFrame { controller := controller, raw := frame.raw.data.take frame.raw.size,
                   userContext := userContext } = none →
        (SilKit_EthernetController_SendFrame M SendFrame st (some controller) (some frame)
          userContext).1 = SilKit_ReturnCode.SUCCESS) ∧
      (∀ e, SendFrame { controller := controller, raw := frame.raw.data.take frame.raw.size,
                        userContext := userContext } = some e →
        (SilKit_EthernetController_SendFrame M SendFrame st (some controller) (some frame)
          userContext).1 = (M.CAPI_LEAVE e).1)) := by
  constructor
  · intro h
    unfold SilKit_EthernetController_SendFrame
    dsimp only
    rw [if_pos (by unfold ETHERNET_MIN_FRAME_SIZE; exact h)]
  · intro h
    have hn : ¬ frame.raw.size < ETHERNET_MIN_FRAME_SIZE := by
      unfold ETHERNET_MIN_FRAME_SIZE; omega
    unfold SilKit_EthernetController_SendFrame
    dsimp only
    rw [if_neg hn]
    refine ⟨?_, ?_, ?_, ?_⟩
    · cases SendFrame { controller := controller, raw := frame.raw.data.take frame.raw.size,
                        userContext := userContext } <;> rfl
    · intro hl
      refine ⟨by rw [List.length_take]; omega, ?_⟩
      intro i hi
      rw [List.getElem?_take_of_lt hi]
    · intro hs
      rw [hs]
    · intro e hs
      rw [hs]

/-- An instance of `SendFrame_min_size`: a frame of 59 bytes is refused without a call
on the controller, a frame of 60 bytes is sent with its 60 bytes. -/
theorem SendFrame_min_size_witness :
    SilKit_EthernetController_SendFrame exampleCapiImpl (fun _ => none) exampleEthernetState
        (some 7) (some { raw := { data := List.range 64, size := 59 } }) 3 =
      (SilKit_ReturnCode.BADPARAMETER,
        { exampleEthernetState with SilKit_error_string :=
            "An ethernet frame must be at least 60 bytes in size." }) ∧
    (SilKit_EthernetController_SendFrame exampleCapiImpl (fun _ => none) exampleEthernetState
        (some 7) (some exampleEthernetFrame) 3).2.sendFrameCalls =
      [] ++ [{ controller := 7, raw := (List.range 64).take 60, userContext := 3 }] ∧
    (SilKit_EthernetController_SendFrame exampleCapiImpl (fun _ => none) exampleEthernetState
        (some 7) (some exampleEthernetFrame) 3).1 = SilKit_ReturnCode.SUCCESS :=
  ⟨(SendFrame_min_size exampleCapiImpl (fun _ => none) exampleEthernetState 7
      { raw := { data := List.range 64, size := 59 } } 3).1 (by decide),
    ((SendFrame_min_size exampleCapiImpl (fun _ => none) exampleEthernetState 7
      exampleEthernetFrame 3).2 (by decide)).1,
    ((SendFrame_min_size exampleCapiImpl (fun _ => none) exampleEthernetState 7
      exampleEthernetFrame 3).2 (by decide)).2.2.1 rfl⟩

/-- What the wait does, by the entry of the handle in the map. -/
theorem Wait_cases (M : CapiImpl) (st : LifecycleState) (h : Nat)
    (out : Core.Orchestration.ParticipantState) :
    (st.sRunAsyncFuturePerParticipant.lookup h = none ∧
      SilKit_LifecycleService_WaitForLifecycleToComplete M st (some h) (some out) =
        some (SilKit_ReturnCode.BADPARAMETER, some out,
          { st with SilKit_error_string :=
              "Unknown participant to wait for completion of asynchronous run operation" })) ∨
    (st.sRunAsyncFuturePerParticipant.lookup h = some Future.invalid ∧
      SilKit_LifecycleService_WaitForLifecycleToComplete M st (some h) (some out) =
        some (SilKit_ReturnCode.UNSPECIFIEDERROR, some out,
          { st with SilKit_error_string := "Failed to access asynchronous run operation" })) ∨
    (st.sRunAsyncFuturePerParticipant.lookup h = some (Future.valid none) ∧
      SilKit_LifecycleService_WaitForLifecycleToComplete M st (some h) (some out) = none) ∨
    (∃ e, st.sRunAsyncFuturePerParticipant.lookup h = some (Future.valid (some (.error e))) ∧
      SilKit_LifecycleService_WaitForLifecycleToComplete M st (some h) (some out) =
        some ((M.CAPI_LEAVE e).1, some out,
          { sRunAsyncFuturePerParticipant :=
              assign st.sRunAsyncFuturePerParticipant h Future.invalid,
            SilKit_error_string := (M.CAPI_LEAVE e).2 })) ∨
    (∃ finalState,
      st.sRunAsyncFuturePerParticipant.lookup h = some (Future.valid (some (.ok finalState))) ∧
      SilKit_LifecycleService_WaitForLifecycleToComplete M st (some h) (some out) =
        some (SilKit_ReturnCode.SUCCESS, some finalState,
          { st with
            sRunAsyncFuturePerParticipant := Capi.erase st.sRunAsyncFuturePerParticipant h })) := by
  unfold SilKit_LifecycleService_WaitForLifecycleToComplete
  dsimp only
  cases hl : st.sRunAsyncFuturePerParticipant.lookup h with
  | none => exact Or.inl ⟨rfl, rfl⟩
  | some f =>
    cases f with
    | invalid => exact Or.inr (Or.inl ⟨rfl, rfl⟩)
    | valid outcome =>
      cases outcome with
      | none => exact Or.inr (Or.inr (Or.inl ⟨rfl, rfl⟩))
      | some res =>
        cases res with
        | error e => exact Or.inr (Or.inr (Or.inr (Or.inl ⟨e, rfl, rfl⟩)))
        | ok finalState => exact Or.inr (Or.inr (Or.inr (Or.inr ⟨finalState, rfl, rfl⟩)))

/-- After a call that returns, the map has an entry for a handle exactly when
a `StartLifecycle` of it is on record. -/
theorem run_recorded (M : CapiImpl)
    (hM : ∀ e, (M.CAPI_LEAVE e).1 ≠ SilKit_ReturnCode.SUCCESS)
    (h : Nat) (st : LifecycleState) (c : LifecycleCall) (r : SilKit_ReturnCode × LifecycleState)
    (hr : c.run M st = some r) :
    contains r.2.sRunAsyncFuturePerParticipant h =
      recordedAfter h (contains st.sRunAsyncFuturePerParticipant h) c r.1 := by
  cases c with
  | StartLifecycle h2 o =>
    cases o with
    | error e =>
      simp only [LifecycleCall.run, SilKit_LifecycleService_StartLifecycle, Option.some.injEq] at hr
      subst hr
      rfl
    | ok f =>
      simp only [LifecycleCall.run, SilKit_LifecycleService_StartLifecycle, Option.some.injEq] at hr
      subst hr
      unfold recordedAfter contains
      dsimp only
      by_cases hh : h2 = h
      · subst hh
        rw [if_pos rfl, future_lookup_assign_self]
        rfl
      · rw [if_neg hh, future_lookup_assign_ne _ _ _ _ (fun x => hh x.symm)]
  | WaitForLifecycleToComplete h2 out =>
    unfold LifecycleCall.run at hr
    dsimp only at hr
    unfold recordedAfter contains
    dsimp only
    rcases Wait_cases M st h2 out with ⟨hl, hw⟩ | ⟨hl, hw⟩ | ⟨hl, hw⟩ | ⟨e, hl, hw⟩ |
      ⟨finalState, hl, hw⟩
    · rw [hw] at hr
      cases hr
      rw [if_neg (by rintro ⟨-, hc⟩; exact SilKit_ReturnCode.noConfusion hc)]
    · rw [hw] at hr
      cases hr
      rw [if_neg (by rintro ⟨-, hc⟩; exact SilKit_ReturnCode.noConfusion hc)]
    · rw [hw] at hr
      exact Option.noConfusion hr
    · rw [hw] at hr
      cases hr
      rw [if_neg (by rintro ⟨-, hc⟩; exact hM e hc)]
      dsimp only
      by_cases hh : h2 = h
      · subst hh
        rw [future_lookup_assign_self, hl]
        rfl
      · rw [future_lookup_assign_ne _ _ _ _ (fun x => hh x.symm)]
    · rw [hw] at hr
      cases hr
      dsimp only
      by_cases hh : h2 = h
      · subst hh
        rw [if_pos ⟨rfl, rfl⟩, future_lookup_erase_self]
        rfl
      · rw [if_neg (by rintro ⟨hc, -⟩; exact hh hc),
          future_lookup_erase_ne _ _ _ (fun x => hh x.symm)]

/-- After calls that return, the map has an entry for a handle exactly when
a `StartLifecycle` of it is on record since the last successful wait. -/
theorem runAll_recorded (M : CapiImpl)
    (hM : ∀ e, (M.CAPI_LEAVE e).1 ≠ SilKit_ReturnCode.SUCCESS)
    (h : Nat) (calls : List LifecycleCall) (st : LifecycleState) (s : LifecycleState × Bool)
    (hs : runAll M h (st, contains st.sRunAsyncFuturePerParticipant h) calls = some s) :
    contains s.1.sRunAsyncFuturePerParticipant h = s.2 := by
  induction calls generalizing st with
  | nil =>
    simp only [runAll, Option.some.injEq] at hs
    subst hs
    rfl
  | cons c rest ih =>
    unfold runAll at hs
    dsimp only at hs
    cases hr : c.run M st with
    | none =>
      rw [hr] at hs
      exact Option.noConfusion hs
    | some r =>
      rw [hr] at hs
      dsimp only at hs
      rw [← run_recorded M hM h st c r hr] at hs
      exact ih r.2 hs

/-- C18. For a handle `h` and an out pointer that are not null, with a `CAPI_LEAVE` that
answers exceptions with neither `BADPARAMETER` nor `SUCCESS`:
`SilKit_LifecycleService_WaitForLifecycleToComplete(h)` returns `BADPARAMETER`, with the out
cell as it was, when the map has no record of `h`, and only then. A wait
that returns `SUCCESS` found a future with a final state, wrote that state
to the out cell and erased the record of `h`, so that another wait on `h`
returns `BADPARAMETER`. Neither function changes the record of another
handle. `SilKit_LifecycleService_StartLifecycle(h)` that gets a future from the lifecycle
service returns `SUCCESS` and records it for `h`; when the lifecycle service
throws, the map is unchanged. Over any sequence of calls that return, from
any state, the map has a record of `h` exactly when a `StartLifecycle(h)` was
recorded since the last successful wait on `h`. -/
theorem lifecycle_records (M : CapiImpl)
    (hM : ∀ e, (M.CAPI_LEAVE e).1 ≠ SilKit_ReturnCode.BADPARAMETER ∧
      (M.CAPI_LEAVE e).1 ≠ SilKit_ReturnCode.SUCCESS)
    (st : LifecycleState) (h : Nat) (out : Core.Orchestration.ParticipantState) :
    (contains st.sRunAsyncFuturePerParticipant h = false →
      SilKit_LifecycleService_WaitForLifecycleToComplete M st (some h) (some out) =
        some (SilKit_ReturnCode.BADPARAMETER, some out,
          { st with SilKit_error_string :=
              "Unknown participant to wait for completion of asynchronous run operation" })) ∧
    (∀ r, SilKit_LifecycleService_WaitForLifecycleToComplete M st (some h) (some out) = some r →
      r.1 = SilKit_ReturnCode.BADPARAMETER →
      contains st.sRunAsyncFuturePerParticipant h = false) ∧
    (∀ r, SilKit_LifecycleService_WaitForLifecycleToComplete M st (some h) (some out) = some r →
      r.1 = SilKit_ReturnCode.SUCCESS →
      ∃ finalState,
        st.sRunAsyncFuturePerParticipant.lookup h = some (Future.valid (some (.ok finalState))) ∧
        r.2.1 = some finalState ∧
        contains r.2.2.sRunAsyncFuturePerParticipant h = false ∧
        ∀ out2, ∃ r2,
          SilKit_LifecycleService_WaitForLifecycleToComplete M r.2.2 (some h) (some out2) =
            some r2 ∧ r2.1 = SilKit_ReturnCode.BADPARAMETER ∧ r2.2.1 = some out2) ∧
    (∀ r h2, h2 ≠ h →
      SilKit_LifecycleService_WaitForLifecycleToComplete M st (some h) (some out) = some r →
      r.2.2.sRunAsyncFuturePerParticipant.lookup h2 =
        st.sRunAsyncFuturePerParticipant.lookup h2) ∧
    (∀ o h2, h2 ≠ h →
      (SilKit_LifecycleService_StartLifecycle M st (some h)
        o).2.sRunAsyncFuturePerParticipant.lookup h2 =
        st.sRunAsyncFuturePerParticipant.lookup h2) ∧
    (∀ f, (SilKit_LifecycleService_StartLifecycle M st (some h) (.ok f)).1 =
        SilKit_ReturnCode.SUCCESS ∧
      (SilKit_LifecycleService_StartLifecycle M st (some h)
        (.ok f)).2.sRunAsyncFuturePerParticipant.lookup h = some f) ∧
    (∀ e, (SilKit_LifecycleService_StartLifecycle M st (some h)
        (.error e)).2.sRunAsyncFuturePerParticipant = st.sRunAsyncFuturePerParticipant) ∧
    (∀ calls s, runAll M h (st, contains st.sRunAsyncFuturePerParticipant h) calls = some s →
      contains s.1.sRunAsyncFuturePerParticipant h = s.2) := by
  have hnone : ∀ (st2 : LifecycleState) (out2 : Core.Orchestration.ParticipantState),
      contains st2.sRunAsyncFuturePerParticipant h = false →
      SilKit_LifecycleService_WaitForLifecycleToComplete M st2 (some h) (some out2) =
        some (SilKit_ReturnCode.BADPARAMETER, some out2,
          { st2 with SilKit_error_string :=
              "Unknown participant to wait for completion of asynchronous run operation" }) := by
    intro st2 out2 hc
    unfold contains at hc
    rcases Wait_cases M st2 h out2 with ⟨_, hw⟩ | ⟨hl, _⟩ | ⟨hl, _⟩ | ⟨e, hl, _⟩ | ⟨fs, hl, _⟩
    · exact hw
    all_goals (rw [hl] at hc; exact Bool.noConfusion hc)
  refine ⟨hnone st out, ?_, ?_, ?_, ?_, ?_, ?_, ?_⟩
  · intro r hr hcode
    unfold contains
    rcases Wait_cases M st h out with ⟨hl, _⟩ | ⟨_, hw⟩ | ⟨_, hw⟩ | ⟨e, _, hw⟩ | ⟨fs, _, hw⟩
    · rw [hl]; rfl
    · rw [hw] at hr; cases hr; exact SilKit_ReturnCode.noConfusion hcode
    · rw [hw] at hr; exact Option.noConfusion hr
    · rw [hw] at hr; cases hr; exact absurd hcode (hM e).1
    · rw [hw] at hr; cases hr; exact SilKit_ReturnCode.noConfusion hcode
  · intro r hr hcode
    rcases Wait_cases M st h out with ⟨_, hw⟩ | ⟨_, hw⟩ | ⟨_, hw⟩ | ⟨e, _, hw⟩ | ⟨fs, hl, hw⟩
    · rw [hw] at hr; cases hr; exact SilKit_ReturnCode.noConfusion hcode
    · rw [hw] at hr; cases hr; exact SilKit_ReturnCode.noConfusion hcode
    · rw [hw] at hr; exact Option.noConfusion hr
    · rw [hw] at hr; cases hr; exact absurd hcode (hM e).2
    · rw [hw] at hr
      cases hr
      have hgone : contains (erase st.sRunAsyncFuturePerParticipant h) h = false := by
        unfold contains
        rw [future_lookup_erase_self]
        rfl
      exact ⟨fs, hl, rfl, hgone, fun out2 => ⟨_, hnone _ out2 hgone, rfl, rfl⟩⟩
  · intro r h2 hne hr
    rcases Wait_cases M st h out with ⟨_, hw⟩ | ⟨_, hw⟩ | ⟨_, hw⟩ | ⟨e, _, hw⟩ | ⟨fs, _, hw⟩
    · rw [hw] at hr; cases hr; rfl
    · rw [hw] at hr; cases hr; rfl
    · rw [hw] at hr; exact Option.noConfusion hr
    · rw [hw] at hr; cases hr; exact future_lookup_assign_ne _ _ _ _ hne
    · rw [hw] at hr; cases hr; exact future_lookup_erase_ne _ _ _ hne
  · intro o h2 hne
    cases o with
    | error e => rfl
    | ok f => exact future_lookup_assign_ne _ _ _ _ hne
  · intro f
    exact ⟨rfl, future_lookup_assign_self _ _ _⟩
  · intro e
    rfl
  · intro calls s hs
    exact runAll_recorded M (fun e => (hM e).2) h calls st s hs

/-- An instance of `lifecycle_records`: before any call a wait on the handle 4 returns
`BADPARAMETER` and leaves the out cell; after `StartLifecycle(4)` whose future
ends in `Shutdown`, a wait that returns `SUCCESS` wrote a final state and the
next wait returns `BADPARAMETER`. -/
theorem lifecycle_records_witness :
    SilKit_LifecycleService_WaitForLifecycleToComplete exampleCapiImpl exampleLifecycleState
        (some 4) (some Core.Orchestration.ParticipantState.Invalid) =
      some (SilKit_ReturnCode.BADPARAMETER, some Core.Orchestration.ParticipantState.Invalid,
        { exampleLifecycleState with SilKit_error_string :=
            "Unknown participant to wait for completion of asynchronous run operation" }) ∧
    (SilKit_LifecycleService_WaitForLifecycleToComplete exampleCapiImpl
        (SilKit_LifecycleService_StartLifecycle exampleCapiImpl exampleLifecycleState (some 4)
          (.ok (Future.valid (some (.ok Core.Orchestration.ParticipantState.Shutdown))))).2
        (some 4) (some Core.Orchestration.ParticipantState.Invalid)).map (fun r => (r.1, r.2.1)) =
      some (SilKit_ReturnCode.SUCCESS, some Core.Orchestration.ParticipantState.Shutdown) :=
  ⟨(lifecycle_records exampleCapiImpl
      (fun _ => ⟨fun h => SilKit_ReturnCode.noConfusion h,
        fun h => SilKit_ReturnCode.noConfusion h⟩)
      exampleLifecycleState 4 Core.Orchestration.ParticipantState.Invalid).1 (by decide),
    by decide⟩

end Capi
end SilKit

/-! ## Theorems: the exit codes of the command-line programs -/

namespace SilKitSystemMonitor

/-- C19. The exit code of the system monitor: -1 when `ParseArguments` throws
a `std::runtime_error`; 0 when the arguments are parsed and the help flag or
the version flag is set; else -2 when loading the configuration (from the
file named, or from the empty string when none is named) throws
a `ConfigurationError`; else -3 when creating the participant or registering
the handlers throws; else 0. -/
theorem main_exit_code {C : Type} (L : Library C) (argv : List String) :
    (∀ e, L.ParseArguments argv = .error e → e.isA "std::runtime_error" = true →
      main L argv = some (-1)) ∧
    (∀ args, L.ParseArguments argv = .ok args → (args.help = true ∨ args.version = true) →
      main L argv = some 0) ∧
    (∀ args e, L.ParseArguments argv = .ok args → args.help = false → args.version = false →
      (if args.configuration ≠ "" then L.ParticipantConfigurationFromFile args.configuration
        else L.ParticipantConfigurationFromString "") = .error e →
      e.isA "SilKit::ConfigurationError" = true →
      main L argv = some (-2)) ∧
    (∀ args configuration e, L.ParseArguments argv = .ok args → args.help = false →
      args.version = false →
      (if args.configuration ≠ "" then L.ParticipantConfigurationFromFile args.configuration
        else L.ParticipantConfigurationFromString "") = .ok configuration →
      L.run configuration args.name args.connectUri = .error e →
      main L argv = some (-3)) ∧
    (∀ args configuration, L.ParseArguments argv = .ok args → args.help = false →
      args.version = false →
      (if args.configuration ≠ "" then L.ParticipantConfigurationFromFile args.configuration
        else L.ParticipantConfigurationFromString "") = .ok configuration →
      L.run configuration args.name args.connectUri = .ok () →
      main L argv = some 0) := by
  refine ⟨?_, ?_, ?_, ?_, ?_⟩
  · intro e hp he
    unfold main
    rw [hp]
    dsimp only
    rw [if_pos he]
  · intro args hp hflag
    unfold main
    rw [hp]
    dsimp only
    rcases hflag with h | h
    · rw [if_pos h]
    · by_cases hh : args.help = true
      · rw [if_pos hh]
      · rw [if_neg hh, if_pos h]
  · intro args e hp hh hv hl he
    unfold main
    rw [hp]
    dsimp only
    rw [if_neg (by rw [hh]; exact Bool.noConfusion), if_neg (by rw [hv]; exact Bool.noConfusion),
      hl]
    dsimp only
    rw [if_pos he]
  · intro args configuration e hp hh hv hl hr
    unfold main
    rw [hp]
    dsimp only
    rw [if_neg (by rw [hh]; exact Bool.noConfusion), if_neg (by rw [hv]; exact Bool.noConfusion),
      hl]
    dsimp only
    rw [hr]
  · intro args configuration hp hh hv hl hr
    unfold main
    rw [hp]
    dsimp only
    rw [if_neg (by rw [hh]; exact Bool.noConfusion), if_neg (by rw [hv]; exact Bool.noConfusion),
      hl]
    dsimp only
    rw [hr]

/-- Instances of `main_exit_code`: an unknown argument gives -1, `--help` gives 0,
a configuration file that cannot be loaded gives -2, a participant name in
use gives -3, and a run without arguments gives 0. -/
theorem main_exit_code_witness :
    main exampleLibrary ["monitor", "--bogus"] = some (-1) ∧
    main exampleLibrary ["monitor", "--help", "--configuration=bad.yaml"] = some 0 ∧
    main exampleLibrary ["monitor", "--configuration=bad.yaml"] = some (-2) ∧
    main exampleLibrary ["monitor", "--name=Taken"] = some (-3) ∧
    main exampleLibrary ["monitor"] = some 0 :=
  ⟨(main_exit_code exampleLibrary ["monitor", "--bogus"]).1
      { what := "Unknown argument --bogus", classes := ["std::runtime_error"] }
      (by decide) (by decide),
    (main_exit_code exampleLibrary ["monitor", "--help", "--configuration=bad.yaml"]).2.1
      { help := true, version := false, connectUri := "silkit://localhost:8500",
        name := "SystemMonitor", configuration := "bad.yaml" }
      (by decide) (Or.inl rfl),
    (main_exit_code exampleLibrary ["monitor", "--configuration=bad.yaml"]).2.2.1
      { help := false, version := false, connectUri := "silkit://localhost:8500",
        name := "SystemMonitor", configuration := "bad.yaml" }
      { what := "cannot load bad.yaml",
        classes := ["SilKit::ConfigurationError", "SilKit::SilKitError"] }
      (by decide) rfl rfl (by decide) (by decide),
    (main_exit_code exampleLibrary ["monitor", "--name=Taken"]).2.2.2.1
      { help := false, version := false, connectUri := "silkit://localhost:8500",
        name := "Taken", configuration := "" }
      "default" { what := "name in use", classes := ["SilKit::SilKitError"] }
      (by decide) rfl rfl (by decide) (by decide),
    (main_exit_code exampleLibrary ["monitor"]).2.2.2.2
      { help := false, version := false, connectUri := "silkit://localhost:8500",
        name := "SystemMonitor", configuration := "" }
      "default" (by decide) rfl rfl (by decide) (by decide)⟩

end SilKitSystemMonitor

namespace RegistryDemo

/-- C20 (the code at the failing input). A domain id that is not a number: for
the arguments `registry IbConfig.json abc`, whatever the library does, `std::stoul`
throws `std::invalid_argument` inside the `try` block and the handler of
`std::exception` makes the exit code -3, not -1; without the file argument the
exit code is -1. With the example library a numeric domain id gives 0 and
a file that is a misconfiguration gives -2. -/
theorem main_invalid_domain_id {C : Type} (L : Library C) :
    Cpp.stoul L.ulongBits "abc" =
      .error { what := "stoul", classes := ["std::invalid_argument", "std::logic_error"] } ∧
    main L ["registry", "IbConfig.json", "abc"] = some (-3) ∧
    main L ["registry"] = some (-1) ∧
    main exampleLibrary ["registry", "IbConfig.json", "7"] = some 0 ∧
    main exampleLibrary ["registry", "Missing.json", "7"] = some (-2) :=
  ⟨rfl, rfl, rfl, by decide, by decide⟩

end RegistryDemo

/-! ## Theorems: `SendFrame` and the reception of a transmission -/

namespace SilKit
namespace Services
namespace Lin
namespace LinController

/-- The ids that `UpdateLinIdsRespondedBySlaves` leaves in `_linIdsRespondedBySlaves` are
those that were there and those of the responses with the mode
`TxUnconditional`. -/
theorem mem_UpdateLinIdsRespondedBySlaves (responses : List LinFrameResponse)
    (self : LinController) (id : Nat) :
    id ∈ (self.UpdateLinIdsRespondedBySlaves responses)._linIdsRespondedBySlaves ↔
      (id ∈ self._linIdsRespondedBySlaves ∨
        ∃ r ∈ responses, r.responseMode = LinFrameResponseMode.TxUnconditional ∧
          r.frame.id = id) := by
  induction responses generalizing self with
  | nil => simp [UpdateLinIdsRespondedBySlaves]
  | cons response rest ih =>
    unfold UpdateLinIdsRespondedBySlaves
    by_cases hm : response.responseMode = LinFrameResponseMode.TxUnconditional
    · rw [if_pos hm]
      by_cases hr : self.HasRespondingSlave response.frame.id = true
      · rw [if_neg (not_not.mpr hr), ih]
        have hmem : response.frame.id ∈ self._linIdsRespondedBySlaves := by
          simpa [HasRespondingSlave] using hr
        constructor
        · rintro (h | ⟨r, hr1, hr2, hr3⟩)
          · exact Or.inl h
          · exact Or.inr ⟨r, List.mem_cons_of_mem _ hr1, hr2, hr3⟩
        · rintro (h | ⟨r, hr1, hr2, hr3⟩)
          · exact Or.inl h
          · rcases List.mem_cons.mp hr1 with heq | hin
            · subst heq
              exact Or.inl (hr3 ▸ hmem)
            · exact Or.inr ⟨r, hin, hr2, hr3⟩
      · rw [if_pos hr, ih]
        constructor
        · rintro (h | ⟨r, hr1, hr2, hr3⟩)
          · rcases List.mem_append.mp h with h1 | h1
            · exact Or.inl h1
            · exact Or.inr ⟨response, List.mem_cons_self _ _, hm,
                (List.mem_singleton.mp h1).symm⟩
          · exact Or.inr ⟨r, List.mem_cons_of_mem _ hr1, hr2, hr3⟩
        · rintro (h | ⟨r, hr1, hr2, hr3⟩)
          · exact Or.inl (List.mem_append_left _ h)
          · rcases List.mem_cons.mp hr1 with heq | hin
            · subst heq
              exact Or.inl (List.mem_append_right _ (List.mem_singleton.mpr hr3.symm))
            · exact Or.inr ⟨r, hin, hr2, hr3⟩
    · rw [if_neg hm, ih]
      constructor
      · rintro (h | ⟨r, hr1, hr2, hr3⟩)
        · exact Or.inl h
        · exact Or.inr ⟨r, List.mem_cons_of_mem _ hr1, hr2, hr3⟩
      · rintro (h | ⟨r, hr1, hr2, hr3⟩)
        · exact Or.inl h
        · rcases List.mem_cons.mp hr1 with heq | hin
          · subst heq
            exact absurd hr2 hm
          · exact Or.inr ⟨r, hin, hr2, hr3⟩

/-- An initialised master gets to the body of `SendFrame`. -/
theorem SendFrame_master (self : LinController) (frame : LinFrame)
    (responseType : LinFrameResponseType)
    (hinit : self._controllerStatus ≠ LinControllerStatus.Unknown)
    (hmaster : self._controllerMode = LinControllerMode.Master) :
    self.SendFrame frame responseType = (.ok (), self.SendFrame_checked frame responseType) := by
  unfold SendFrame
  rw [ThrowIfUninitialized_none self _ hinit]
  dsimp only
  rw [ThrowIfNotMaster_none self _ hmaster]

/-- C21. On an initialised master: for a response type other than `MasterResponse` and
a LIN id that is not among the ids responded by slaves, `SendFrame` returns
with the controller as it was but for one call of the frame-status handlers
with the current time, the frame and `LIN_RX_NO_RESPONSE`, so nothing is sent
and the node table is unchanged. For `MasterResponse`, or when a slave
responds to the id, no handler is called and the simulation behaviour gets
exactly one `LinSendFrameRequest` with the frame and the response type, last,
after at most an update of its transmit buffer. The ids responded by slaves
are those of the `TxUnconditional` responses given to
`UpdateLinIdsRespondedBySlaves`. -/
theorem SendFrame_no_response (self : LinController) (frame : LinFrame)
    (responseType : LinFrameResponseType)
    (hinit : self._controllerStatus ≠ LinControllerStatus.Unknown)
    (hmaster : self._controllerMode = LinControllerMode.Master) :
    (responseType ≠ LinFrameResponseType.MasterResponse →
      self.HasRespondingSlave frame.id = false →
      self.SendFrame frame responseType =
        (.ok (), { self with handlerCalls := self.handlerCalls ++
          [HandlerCall.LinFrameStatusEvent self.now frame LinFrameStatus.LIN_RX_NO_RESPONSE] })) ∧
    ((responseType = LinFrameResponseType.MasterResponse ∨
        self.HasRespondingSlave frame.id = true) →
      (self.SendFrame frame responseType).1 = .ok () ∧
      (self.SendFrame frame responseType).2.handlerCalls = self.handlerCalls ∧
      ∃ extra, (extra = [] ∨ extra = [SimCall.UpdateTxBuffer frame]) ∧
        (self.SendFrame frame responseType).2._simulationBehavior =
          self._simulationBehavior ++ extra ++
            [SimCall.SendMsg_LinSendFrameRequest frame responseType]) ∧
    (∀ responses id,
      (self.UpdateLinIdsRespondedBySlaves responses).HasRespondingSlave id = true ↔
        (self.HasRespondingSlave id = true ∨
          ∃ r ∈ responses, r.responseMode = LinFrameResponseMode.TxUnconditional ∧
            r.frame.id = id)) := by
  rw [SendFrame_master self frame responseType hinit hmaster]
  refine ⟨?_, ?_, ?_⟩
  · intro hrt hresp
    unfold SendFrame_checked
    rw [if_neg hrt, if_pos (by rw [hresp]; exact Bool.noConfusion)]
    rfl
  · intro h
    refine ⟨rfl, ?_⟩
    dsimp only
    unfold SendFrame_checked
    by_cases hrt : responseType = LinFrameResponseType.MasterResponse
    · rw [if_pos hrt]
      by_cases hmode : self.thisResponseMode frame.id ≠ LinFrameResponseMode.TxUnconditional
      · rw [if_pos hmode]
        exact ⟨rfl, [SimCall.UpdateTxBuffer frame], Or.inr rfl, rfl⟩
      · rw [if_neg hmode]
        refine ⟨rfl, [], Or.inl rfl, ?_⟩
        simp [SendMsg]
    · have hresp : self.HasRespondingSlave frame.id = true := by
        rcases h with h | h
        · exact absurd h hrt
        · exact h
      rw [if_neg hrt, if_neg (not_not.mpr hresp)]
      by_cases hs : responseType = LinFrameResponseType.SlaveResponse
      · rw [if_pos hs]
        refine ⟨rfl, [], Or.inl rfl, ?_⟩
        simp [SendMsg, updateThisLinNode]
      · rw [if_neg hs]
        refine ⟨rfl, [], Or.inl rfl, ?_⟩
        simp [SendMsg]
  · intro responses id
    unfold HasRespondingSlave
    rw [decide_eq_true_iff, decide_eq_true_iff]
    exact mem_UpdateLinIdsRespondedBySlaves responses self id

/-- An instance of `SendFrame_no_response`: an initialised master that knows no slave
response for the id 17 calls the handlers with `LIN_RX_NO_RESPONSE` for
a `SlaveResponse` and sends the request for a `MasterResponse`. -/
theorem SendFrame_no_response_witness :
    ((create (1, 1) 64 0).Init masterConfig).2.SendFrame exampleFrame
        LinFrameResponseType.SlaveResponse =
      (.ok (), { ((create (1, 1) 64 0).Init masterConfig).2 with
        handlerCalls := [] ++
          [HandlerCall.LinFrameStatusEvent 0 exampleFrame LinFrameStatus.LIN_RX_NO_RESPONSE] }) ∧
    (((create (1, 1) 64 0).Init masterConfig).2.SendFrame exampleFrame
        LinFrameResponseType.MasterResponse).1 = .ok () :=
  ⟨(SendFrame_no_response ((create (1, 1) 64 0).Init masterConfig).2 exampleFrame
      LinFrameResponseType.SlaveResponse (by decide) (by decide)).1 (by decide) (by decide),
    ((SendFrame_no_response ((create (1, 1) 64 0).Init masterConfig).2 exampleFrame
      LinFrameResponseType.MasterResponse (by decide) (by decide)).2.1 (Or.inl rfl)).1⟩

/-- The update of the checksum model calls no handler and keeps the mode. -/
theorem ReceiveMsg_checksum_frame (X : ReceiveExternals) (self : LinController)
    (frame : LinFrame) (isGoToSleepFrame : Bool) :
    (ReceiveMsg_checksum X self frame isGoToSleepFrame).handlerCalls = self.handlerCalls ∧
    (ReceiveMsg_checksum X self frame isGoToSleepFrame)._controllerMode =
      self._controllerMode := by
  unfold ReceiveMsg_checksum
  dsimp only
  split_ifs <;> exact ⟨rfl, rfl⟩

/-- The handler calls of `ReceiveMsg` for a transmission that is accepted. -/
theorem ReceiveMsg_accepted (X : ReceiveExternals) (self : LinController) (sender : Sender)
    (msg : LinTransmission) (ha : sender.AllowReception = true)
    (hmode : self._controllerMode ≠ LinControllerMode.Inactive)
    (hlen : msg.frame.dataLength ≤ X._maxDataLength) (hid : msg.frame.id < X._maxLinId) :
    ∃ status : List HandlerCall,
      (status = [] ∨ ∃ s, status = [HandlerCall.LinFrameStatusEvent msg.timestamp msg.frame s]) ∧
      (self.ReceiveMsg X sender msg).1.handlerCalls = self.handlerCalls ++ status ++
        (if msg.frame.id = X.GoToSleepFrame.id ∧ msg.frame.data = X.GoToSleepFrame.data ∧
            self._controllerMode = LinControllerMode.Slave then
          [HandlerCall.LinGoToSleepEvent msg.timestamp] else []) := by
  unfold ReceiveMsg
  rw [if_neg (not_not.mpr ha), if_neg hmode]
  dsimp only
  rw [if_neg (by omega), if_neg (by omega)]
  obtain ⟨h1, h2⟩ := ReceiveMsg_checksum_frame X self msg.frame
    (decide (msg.frame.id = X.GoToSleepFrame.id) && decide (msg.frame.data = X.GoToSleepFrame.data))
  generalize ReceiveMsg_checksum X self msg.frame
    (decide (msg.frame.id = X.GoToSleepFrame.id) &&
      decide (msg.frame.data = X.GoToSleepFrame.data)) = self1 at h1 h2 ⊢
  generalize X.CalcFrameStatus self1 msg
    (decide (msg.frame.id = X.GoToSleepFrame.id) &&
      decide (msg.frame.data = X.GoToSleepFrame.data)) = msgStatus
  by_cases hst : msgStatus ≠ LinFrameStatus.LIN_RX_NO_RESPONSE
  · refine ⟨[HandlerCall.LinFrameStatusEvent msg.timestamp msg.frame msgStatus],
      Or.inr ⟨_, rfl⟩, ?_⟩
    rw [if_pos hst]
    by_cases hsleep : msg.frame.id = X.GoToSleepFrame.id ∧ msg.frame.data = X.GoToSleepFrame.data
    · by_cases hslave : self._controllerMode = LinControllerMode.Slave
      · simp [hsleep.1, hsleep.2, hslave, CallHandlers, h1, h2]
      · simp [hsleep.1, hsleep.2, hslave, CallHandlers, h1, h2]
    · have hb : (decide (msg.frame.id = X.GoToSleepFrame.id) &&
          decide (msg.frame.data = X.GoToSleepFrame.data)) = false := by
        simpa using fun h => (not_and.mp hsleep) h
      rw [hb, if_neg Bool.false_ne_true, if_neg (fun h => hsleep ⟨h.1, h.2.1⟩)]
      simp [CallHandlers, h1]
  · refine ⟨[], Or.inl rfl, ?_⟩
    rw [if_neg hst]
    by_cases hsleep : msg.frame.id = X.GoToSleepFrame.id ∧ msg.frame.data = X.GoToSleepFrame.data
    · by_cases hslave : self._controllerMode = LinControllerMode.Slave
      · simp [hsleep.1, hsleep.2, hslave, CallHandlers, h1, h2]
      · simp [hsleep.1, hsleep.2, hslave, CallHandlers, h1, h2]
    · have hb : (decide (msg.frame.id = X.GoToSleepFrame.id) &&
          decide (msg.frame.data = X.GoToSleepFrame.data)) = false := by
        simpa using fun h => (not_and.mp hsleep) h
      rw [hb, if_neg Bool.false_ne_true, if_neg (fun h => hsleep ⟨h.1, h.2.1⟩)]
      simp [h1]

/-- The handler calls of `ReceiveMsg` for a transmission that is not accepted: there
is none, nothing is traced, and only the logger may have changed. -/
theorem ReceiveMsg_rejected (X : ReceiveExternals) (self : LinController) (sender : Sender)
    (msg : LinTransmission)
    (h : ¬ (sender.AllowReception = true ∧ self._controllerMode ≠ LinControllerMode.Inactive ∧
      msg.frame.dataLength ≤ X._maxDataLength ∧ msg.frame.id < X._maxLinId)) :
    (self.ReceiveMsg X sender msg).2 = [] ∧
    ∃ logger, (self.ReceiveMsg X sender msg).1 = { self with _logger := logger } := by
  unfold ReceiveMsg
  by_cases ha : sender.AllowReception = true
  · rw [if_neg (not_not.mpr ha)]
    by_cases hmode : self._controllerMode = LinControllerMode.Inactive
    · rw [if_pos hmode]
      exact ⟨rfl, _, rfl⟩
    · rw [if_neg hmode]
      dsimp only
      by_cases hlen : msg.frame.dataLength > X._maxDataLength
      · rw [if_pos hlen]
        exact ⟨rfl, _, rfl⟩
      · rw [if_neg hlen]
        by_cases hid : msg.frame.id ≥ X._maxLinId
        · rw [if_pos hid]
          exact ⟨rfl, _, rfl⟩
        · exact absurd ⟨ha, hmode, by omega, by omega⟩ h
  · rw [if_pos ha]
    exact ⟨rfl, _, rfl⟩

/-- C23. In `LinController::ReceiveMsg` for a `LinTransmission`, the handler calls made are
a list `new` appended to the record. A go-to-sleep event is among them
exactly when the reception is allowed, the controller is in `Slave` mode, the
data length and the id are within the limits and the frame has the id and
the data of the go-to-sleep frame; for a master there is none. A controller
in `Inactive` mode calls no handler, traces nothing, and is after the call
what it was before, or that with the warning in the logger. -/
theorem ReceiveMsg_goToSleep (X : ReceiveExternals) (self : LinController) (sender : Sender)
    (msg : LinTransmission) :
    ∃ new, (self.ReceiveMsg X sender msg).1.handlerCalls = self.handlerCalls ++ new ∧
      ((∃ t, HandlerCall.LinGoToSleepEvent t ∈ new) ↔
        (sender.AllowReception = true ∧ self._controllerMode = LinControllerMode.Slave ∧
          msg.frame.dataLength ≤ X._maxDataLength ∧ msg.frame.id < X._maxLinId ∧
          msg.frame.id = X.GoToSleepFrame.id ∧ msg.frame.data = X.GoToSleepFrame.data)) ∧
      (self._controllerMode = LinControllerMode.Master →
        ∀ t, HandlerCall.LinGoToSleepEvent t ∉ new) ∧
      (self._controllerMode = LinControllerMode.Inactive →
        new = [] ∧ (self.ReceiveMsg X sender msg).2 = [] ∧
        ((self.ReceiveMsg X sender msg).1 = self ∨
          (self.ReceiveMsg X sender msg).1 = self.WarnOnReceptionWhileInactive)) := by
  by_cases hacc : sender.AllowReception = true ∧
      self._controllerMode ≠ LinControllerMode.Inactive ∧
      msg.frame.dataLength ≤ X._maxDataLength ∧ msg.frame.id < X._maxLinId
  · obtain ⟨ha, hmode, hlen, hid⟩ := hacc
    obtain ⟨status, hstatus, hcalls⟩ := ReceiveMsg_accepted X self sender msg ha hmode hlen hid
    refine ⟨_, by rw [hcalls, List.append_assoc], ?_, ?_, ?_⟩
    · constructor
      · rintro ⟨t, ht⟩
        rcases List.mem_append.mp ht with h1 | h1
        · rcases hstatus with hs | ⟨s, hs⟩
          · rw [hs] at h1
            exact absurd h1 (List.not_mem_nil _)
          · rw [hs] at h1
            exact HandlerCall.noConfusion (List.mem_singleton.mp h1)
        · by_cases hc : msg.frame.id = X.GoToSleepFrame.id ∧
              msg.frame.data = X.GoToSleepFrame.data ∧
              self._controllerMode = LinControllerMode.Slave
          · exact ⟨ha, hc.2.2, hlen, hid, hc.1, hc.2.1⟩
          · rw [if_neg hc] at h1
            exact absurd h1 (List.not_mem_nil _)
      · rintro ⟨-, hslave, -, -, hi, hd⟩
        refine ⟨msg.timestamp, List.mem_append_right _ ?_⟩
        rw [if_pos ⟨hi, hd, hslave⟩]
        exact List.mem_singleton.mpr rfl
    · intro hmaster t ht
      rcases List.mem_append.mp ht with h1 | h1
      · rcases hstatus with hs | ⟨s, hs⟩
        · rw [hs] at h1
          exact absurd h1 (List.not_mem_nil _)
        · rw [hs] at h1
          exact HandlerCall.noConfusion (List.mem_singleton.mp h1)
      · rw [if_neg (by rintro ⟨-, -, h⟩; rw [hmaster] at h; exact LinControllerMode.noConfusion h)]
          at h1
        exact absurd h1 (List.not_mem_nil _)
    · intro hin
      exact absurd hin hmode
  · obtain ⟨htr, logger, hres⟩ := ReceiveMsg_rejected X self sender msg hacc
    refine ⟨[], by rw [hres, List.append_nil], ?_, ?_, ?_⟩
    · constructor
      · rintro ⟨t, ht⟩
        exact absurd ht (List.not_mem_nil _)
      · rintro ⟨ha, hslave, hlen, hid, -, -⟩
        exact absurd ⟨ha, by rw [hslave]; exact LinControllerMode.noConfusion, hlen, hid⟩ hacc
    · intro _ t ht
      exact absurd ht (List.not_mem_nil _)
    · intro hin
      refine ⟨rfl, htr, ?_⟩
      unfold ReceiveMsg
      by_cases ha : sender.AllowReception = true
      · rw [if_neg (not_not.mpr ha), if_pos hin]
        exact Or.inr rfl
      · rw [if_pos ha]
        exact Or.inl rfl

/-- An instance of `ReceiveMsg_goToSleep`: an initialised slave that receives the
go-to-sleep frame calls the frame-status handlers and the go-to-sleep
handlers; an initialised master that receives it calls the frame-status
handlers only. -/
theorem ReceiveMsg_goToSleep_witness :
    (∃ new, ((((create (1, 1) 64 0).Init slaveConfig).2.ReceiveMsg exampleExternals exampleSender
        sleepTransmission).1.handlerCalls = [] ++ new) ∧
      ((∃ t, HandlerCall.LinGoToSleepEvent t ∈ new) ↔
        (exampleSender.AllowReception = true ∧
          ((create (1, 1) 64 0).Init slaveConfig).2._controllerMode = LinControllerMode.Slave ∧
          sleepTransmission.frame.dataLength ≤ exampleExternals._maxDataLength ∧
          sleepTransmission.frame.id < exampleExternals._maxLinId ∧
          sleepTransmission.frame.id = exampleExternals.GoToSleepFrame.id ∧
          sleepTransmission.frame.data = exampleExternals.GoToSleepFrame.data))) ∧
    (((create (1, 1) 64 0).Init slaveConfig).2.ReceiveMsg exampleExternals exampleSender
        sleepTransmission).1.handlerCalls =
      [HandlerCall.LinFrameStatusEvent 100 exampleExternals.GoToSleepFrame LinFrameStatus.LIN_RX_OK,
        HandlerCall.LinGoToSleepEvent 100] ∧
    (((create (1, 1) 64 0).Init masterConfig).2.ReceiveMsg exampleExternals exampleSender
        sleepTransmission).1.handlerCalls =
      [HandlerCall.LinFrameStatusEvent 100 exampleExternals.GoToSleepFrame
        LinFrameStatus.LIN_RX_OK] :=
  ⟨(ReceiveMsg_goToSleep exampleExternals ((create (1, 1) 64 0).Init slaveConfig).2 exampleSender
      sleepTransmission).imp (fun _ h => ⟨h.1, h.2.1⟩),
    by decide, by decide⟩

end LinController
end Lin
end Services
end SilKit

/-! ## Theorems: the LIN controller proxy and the replay controller -/

namespace ib
namespace sim
namespace lin

namespace LinControllerProxy

/-- C22. `LinControllerProxy::ReceiveIbMessage` for a `Transmission`: when the sender has
another participant id and the same endpoint id as the proxy, the data
length is at most 8 and the LIN id is below 64, the invocations made are
those of the registered frame-status handlers, each once, in the order of
their registration, with the frame, the status and the timestamp of the
message, followed by those of the go-to-sleep handlers when the frame is the
go-to-sleep frame and the proxy is a slave. In every other case no handler
is invoked. `RegisterFrameStatusHandler` puts the handler at the end of the
registered ones. -/
theorem ReceiveIbMessage_frameStatus (GoToSleepFrame : Frame) (self : LinControllerProxy)
    (sender : EndpointAddress) (msg : Transmission) :
    ((sender.participant ≠ self._endpointAddr.participant ∧
        sender.endpoint = self._endpointAddr.endpoint ∧
        msg.frame.dataLength ≤ 8 ∧ msg.frame.id < 64) →
      (self.ReceiveIbMessage GoToSleepFrame sender msg).invocations =
        self.invocations ++
          self._frameStatusHandler.map
            (fun handler =>
              Invocation.FrameStatusHandler handler msg.frame msg.status msg.timestamp) ++
          (if msg.frame.id = GoToSleepFrame.id ∧ msg.frame.data = GoToSleepFrame.data ∧
              self._controllerMode = ControllerMode.Slave then
            self._goToSleepHandler.map Invocation.GoToSleepHandler else [])) ∧
    (¬ (sender.participant ≠ self._endpointAddr.participant ∧
        sender.endpoint = self._endpointAddr.endpoint ∧
        msg.frame.dataLength ≤ 8 ∧ msg.frame.id < 64) →
      (self.ReceiveIbMessage GoToSleepFrame sender msg).invocations = self.invocations) ∧
    (∀ handler, (self.RegisterFrameStatusHandler handler)._frameStatusHandler =
      self._frameStatusHandler ++ [handler]) := by
  refine ⟨?_, ?_, fun _ => rfl⟩
  · rintro ⟨hp, he, hlen, hid⟩
    have hmatch : AreMatchingProxyEndpoints sender self._endpointAddr = true := by
      simp [AreMatchingProxyEndpoints, hp, he]
    unfold ReceiveIbMessage
    rw [if_neg (not_not.mpr hmatch)]
    dsimp only
    rw [if_neg (by omega), if_neg (by omega)]
    by_cases hin : self._controllerMode = ControllerMode.Inactive
    · rw [if_pos hin]
      by_cases hsleep : msg.frame.id = GoToSleepFrame.id ∧ msg.frame.data = GoToSleepFrame.data
      · rw [if_pos hsleep]
        have hns : ¬ self._controllerMode = ControllerMode.Slave := by
          rw [hin]; exact ControllerMode.noConfusion
        simp [CallEach, hns]
      · rw [if_neg hsleep, if_neg (fun h => hsleep ⟨h.1, h.2.1⟩)]
        simp [CallEach]
    · rw [if_neg hin]
      by_cases hsleep : msg.frame.id = GoToSleepFrame.id ∧ msg.frame.data = GoToSleepFrame.data
      · rw [if_pos hsleep]
        by_cases hs : self._controllerMode = ControllerMode.Slave
        · simp [CallEach, hs, hsleep.1, hsleep.2]
        · simp [CallEach, hs]
      · rw [if_neg hsleep, if_neg (fun h => hsleep ⟨h.1, h.2.1⟩)]
        simp [CallEach]
  · intro h
    unfold ReceiveIbMessage
    by_cases hmatch : AreMatchingProxyEndpoints sender self._endpointAddr = true
    · rw [if_neg (not_not.mpr hmatch)]
      dsimp only
      by_cases hlen : msg.frame.dataLength > 8
      · rw [if_pos hlen]
      · rw [if_neg hlen]
        by_cases hid : msg.frame.id ≥ 64
        · rw [if_pos hid]
        · have hm : sender.participant ≠ self._endpointAddr.participant ∧
              sender.endpoint = self._endpointAddr.endpoint := by
            simpa [AreMatchingProxyEndpoints] using hmatch
          exact absurd ⟨hm.1, hm.2, by omega, by omega⟩ h
    · rw [if_pos hmatch]

/-- An instance of `ReceiveIbMessage_frameStatus`: the proxy of the participant 1 with the
endpoint 5 gets a transmission from the participant 2 with the endpoint 5
and invokes its three frame-status handlers in the order 10, 11, 12; from its
own participant it invokes none. -/
theorem ReceiveIbMessage_frameStatus_witness :
    ((exampleProxy ControllerMode.Slave).ReceiveIbMessage exampleGoToSleepFrame
        { participant := 2, endpoint := 5 } exampleTransmission).invocations =
      [] ++ [10, 11, 12].map (fun handler => Invocation.FrameStatusHandler handler
        exampleTransmission.frame FrameStatus.LIN_RX_OK 42) ++
        (if exampleTransmission.frame.id = exampleGoToSleepFrame.id ∧
            exampleTransmission.frame.data = exampleGoToSleepFrame.data ∧
            (exampleProxy ControllerMode.Slave)._controllerMode = ControllerMode.Slave then
          [20].map Invocation.GoToSleepHandler else []) ∧
    ((exampleProxy ControllerMode.Slave).ReceiveIbMessage exampleGoToSleepFrame
        { participant := 1, endpoint := 5 } exampleTransmission).invocations = [] :=
  ⟨(ReceiveIbMessage_frameStatus exampleGoToSleepFrame (exampleProxy ControllerMode.Slave)
      { participant := 2, endpoint := 5 } exampleTransmission).1
      ⟨by decide, by decide, by decide, by decide⟩,
    (ReceiveIbMessage_frameStatus exampleGoToSleepFrame (exampleProxy ControllerMode.Slave)
      { participant := 1, endpoint := 5 } exampleTransmission).2.1 (by decide)⟩

end LinControllerProxy

namespace LinControllerReplay

/-- C24. `LinControllerReplay::ReplayMessage`: for a direction that is neither `Send` nor
`Receive` it throws and leaves the controller as it was, so nothing is sent.
For `Send` or `Receive` and a replay message that is a frame it returns, and
what it sent is one `FrameResponseUpdate` with the single response for the
frame, of the mode `Rx` for `Receive` and `TxUnconditional` for `Send`, followed,
on a master only, by one `Transmission` with the timestamp of the replay
message, the frame and the status `LIN_RX_OK`. The frame-status handlers are
invoked, each once, on a master and only when the endpoint address of the
message is that of the controller, with the status `LIN_TX_OK` for `Send` and
`LIN_RX_OK` for `Receive`; the go-to-sleep handlers follow on a master when
the frame is the go-to-sleep frame. -/
theorem ReplayMessage_sends (GoToSleepFrame : Frame) (self : LinControllerReplay)
    (replayMessage : IReplayMessage) :
    ((replayMessage.GetDirection ≠ Direction.Send ∧
        replayMessage.GetDirection ≠ Direction.Receive) →
      self.ReplayMessage GoToSleepFrame replayMessage =
        (.error (ReplayException.runtime_error
          "LinControllerReplay: replay message has undefined Direction"), self)) ∧
    (∀ frame, (replayMessage.GetDirection = Direction.Send ∨
        replayMessage.GetDirection = Direction.Receive) →
      replayMessage.frame = some frame →
      (self.ReplayMessage GoToSleepFrame replayMessage).1 = .ok () ∧
      (self.ReplayMessage GoToSleepFrame replayMessage).2._comAdapter =
        self._comAdapter ++
          [SentMessage.FrameResponseUpdate replayMessage.EndpointAddress
            [{ frame := frame,
               responseMode :=
                if replayMessage.GetDirection = Direction.Receive then FrameResponseMode.Rx
                else FrameResponseMode.TxUnconditional }]] ++
          (if self._mode = ControllerMode.Master then
            [SentMessage.Transmission replayMessage.EndpointAddress
              { timestamp := replayMessage.Timestamp, frame := frame,
                status := FrameStatus.LIN_RX_OK }]
          else []) ∧
      (self.ReplayMessage GoToSleepFrame replayMessage).2.invocations =
        self.invocations ++
          (if self._mode = ControllerMode.Master ∧
              replayMessage.EndpointAddress = self.controllerEndpointAddress then
            self._frameStatusHandler.map (fun handler =>
              Invocation.FrameStatusHandler handler frame
                (if replayMessage.GetDirection = Direction.Send then FrameStatus.LIN_TX_OK
                  else FrameStatus.LIN_RX_OK)
                replayMessage.Timestamp)
          else []) ++
          (if self._mode = ControllerMode.Master ∧ frame.id = GoToSleepFrame.id ∧
              frame.data = GoToSleepFrame.data then
            self._goToSleepHandler.map Invocation.GoToSleepHandler
          else [])) := by
  constructor
  · rintro ⟨hs, hr⟩
    unfold ReplayMessage
    cases hd : replayMessage.GetDirection with
    | Send => exact absurd hd hs
    | Receive => exact absurd hd hr
    | other v => rfl
  · intro frame hdir hframe
    have key : ∀ d, replayMessage.GetDirection = d → (d = Direction.Send ∨ d = Direction.Receive) →
        self.ReplayMessage GoToSleepFrame replayMessage =
          (match replayMessage.frame with
            | none => (.error ReplayException.bad_cast, self)
            | some frame =>
              let mode :=
                if replayMessage.GetDirection = Direction.Receive then FrameResponseMode.Rx
                else FrameResponseMode.TxUnconditional
              let self1 : LinControllerReplay :=
                { self with _tracer := self._tracer ++
                    [{ direction := replayMessage.GetDirection, timestamp := self.now,
                       frame := frame }] }
              let response : FrameResponse := { frame := frame, responseMode := mode }
              let self2 : LinControllerReplay :=
                { self1 with _comAdapter := self1._comAdapter ++
                    [SentMessage.FrameResponseUpdate replayMessage.EndpointAddress [response]] }
              if self2._mode = ControllerMode.Master then
                let tm : Transmission :=
                  { timestamp := replayMessage.Timestamp, frame := frame,
                    status := FrameStatus.LIN_RX_OK }
                let self3 : LinControllerReplay :=
                  { self2 with _comAdapter := self2._comAdapter ++
                      [SentMessage.Transmission replayMessage.EndpointAddress tm] }
                let masterFrameStatus :=
                  if mode = FrameResponseMode.TxUnconditional then FrameStatus.LIN_TX_OK
                  else tm.status
                let self4 : LinControllerReplay :=
                  if replayMessage.EndpointAddress = self3.controllerEndpointAddress then
                    { self3 with invocations := self3.invocations ++
                        self3._frameStatusHandler.map (fun handler =>
                          Invocation.FrameStatusHandler handler tm.frame masterFrameStatus
                            tm.timestamp) }
                  else self3
                if tm.frame.id = GoToSleepFrame.id ∧ tm.frame.data = GoToSleepFrame.data then
                  (.ok (), { self4 with invocations := self4.invocations ++
                      self4._goToSleepHandler.map Invocation.GoToSleepHandler })
                else (.ok (), self4)
              else (.ok (), self2)) := by
      intro d hd hcase
      unfold ReplayMessage
      rcases hcase with h | h <;> subst h <;> simp only [hd]
    rw [key _ rfl hdir, hframe]
    dsimp only
    by_cases hm : self._mode = ControllerMode.Master
    · rw [if_pos hm]
      by_cases ha : replayMessage.EndpointAddress = self.controllerEndpointAddress
      · by_cases hsl : frame.id = GoToSleepFrame.id ∧ frame.data = GoToSleepFrame.data
        · rcases hdir with hd | hd <;> simp [hm, ha, hsl.1, hsl.2, hd]
        · rcases hdir with hd | hd <;>
            simp [hm, ha, hsl, hd, if_neg (fun h : frame.id = GoToSleepFrame.id ∧
              frame.data = GoToSleepFrame.data => hsl h)]
      · by_cases hsl : frame.id = GoToSleepFrame.id ∧ frame.data = GoToSleepFrame.data
        · rcases hdir with hd | hd <;> simp [hm, ha, hsl.1, hsl.2, hd]
        · rcases hdir with hd | hd <;>
            simp [hm, ha, hsl, hd, if_neg (fun h : frame.id = GoToSleepFrame.id ∧
              frame.data = GoToSleepFrame.data => hsl h)]
    · rw [if_neg hm]
      simp [hm]

/-- An instance of `ReplayMessage_sends`: a message of another direction throws; the
replay of a sent frame on a master sends the two messages and invokes the
two frame-status handlers with `LIN_TX_OK`; on a slave only the
`FrameResponseUpdate` is sent. -/
theorem ReplayMessage_sends_witness :
    (exampleReplay ControllerMode.Master).ReplayMessage exampleGoToSleepFrame
        (exampleReplayMessage (Direction.other 2)) =
      (.error (ReplayException.runtime_error
        "LinControllerReplay: replay message has undefined Direction"),
        exampleReplay ControllerMode.Master) ∧
    ((exampleReplay ControllerMode.Master).ReplayMessage exampleGoToSleepFrame
        (exampleReplayMessage Direction.Send)).2.invocations =
      [Invocation.FrameStatusHandler 10 exampleTransmission.frame FrameStatus.LIN_TX_OK 42,
        Invocation.FrameStatusHandler 11 exampleTransmission.frame FrameStatus.LIN_TX_OK 42] ∧
    ((exampleReplay ControllerMode.Slave).ReplayMessage exampleGoToSleepFrame
        (exampleReplayMessage Direction.Receive)).2._comAdapter =
      [SentMessage.FrameResponseUpdate { participant := 1, endpoint := 5 }
        [{ frame := exampleTransmission.frame, responseMode := FrameResponseMode.Rx }]] :=
  ⟨(ReplayMessage_sends exampleGoToSleepFrame (exampleReplay ControllerMode.Master)
      (exampleReplayMessage (Direction.other 2))).1 ⟨by decide, by decide⟩,
    by decide, by decide⟩

end LinControllerReplay

end lin
end sim
end ib

/-! ## Theorems: tracing of sent messages, and the keys of the controller maps -/

namespace ib
namespace mw
namespace ComAdapter

/-- The call `TraceTx(_logger.get(), from, msg)` of `SendIbMessageImpl`, where `from` is
a pointer to const, goes to the template for every message. -/
theorem TraceTx_const (logger : List LogCall) (addr : ServiceDescriptor) (msg : IbMessage) :
    TraceTx true logger addr msg = logger ++ [LogCall.Trace "Send from" addr msg] := by
  unfold TraceTx
  rw [if_neg (fun h => Bool.noConfusion h.2)]
  rfl

/-- C25 (the code at the failing input). Sending a message through `SendIbMessage`,
broadcast or targeted, writes one `Send from` trace entry to the logger for
every kind of message, a `logging::LogMsg` as well: the overload of `TraceTx`
with the empty body takes a pointer to a non-const endpoint and is not viable
for the `const IIbServiceEndpoint*` that `SendIbMessageImpl` passes. -/
theorem SendIbMessage_LogMsg_traced (self : ComAdapter) (sender : ServiceDescriptor)
    (targetParticipantName : String) (msg : IbMessage) :
    (self.SendIbMessage sender msg)._logger =
      self._logger ++ [LogCall.Trace "Send from" sender msg] ∧
    (self.SendIbMessageTo sender targetParticipantName msg)._logger =
      self._logger ++ [LogCall.Trace "Send from" sender msg] ∧
    (self.SendIbMessage sender { kind := MessageKind.LogMsg, content := "text" })._logger =
      self._logger ++
        [LogCall.Trace "Send from" sender { kind := MessageKind.LogMsg, content := "text" }] ∧
    (self.SendIbMessageTo sender targetParticipantName
        { kind := MessageKind.LogMsg, content := "text" })._logger =
      self._logger ++
        [LogCall.Trace "Send from" sender { kind := MessageKind.LogMsg, content := "text" }] := by
  have h1 : ∀ m, (self.SendIbMessage sender m)._logger =
      self._logger ++ [LogCall.Trace "Send from" sender m] := by
    intro m
    unfold SendIbMessage SendIbMessageImpl
    exact TraceTx_const _ _ _
  have h2 : ∀ m, (self.SendIbMessageTo sender targetParticipantName m)._logger =
      self._logger ++ [LogCall.Trace "Send from" sender m] := by
    intro m
    unfold SendIbMessageTo
    split <;> exact TraceTx_const _ _ _
  exact ⟨h1 msg, h2 msg, h1 _, h2 _⟩

/-- C27 (the code at the failing input). The key of a controller in its map is
the network name, a slash and the service name. After a CAN controller is
created on the network `a/b` with the service name `c` and another on the
network `a` with the service name `b/c`, `GetController` for the first pair
returns the second controller, whose descriptor has the network name `a` and
the service name `b/c`: the second creation replaced the controller stored
for the first pair. -/
theorem GetController_key_collision :
    ∃ c1 c2 s1 s2,
      example1.CreateController canControllerFacadeT
          { id := 1, name := "a/b", type := cfg.LinkType.CAN, historyLength := 0 } "c"
          ServiceType.Controller [] = (.ok c1, s1) ∧
      s1.GetController canControllerFacadeT "a/b" "c" = some c1 ∧
      s1.CreateController canControllerFacadeT
          { id := 2, name := "a", type := cfg.LinkType.CAN, historyLength := 0 } "b/c"
          ServiceType.Controller [] = (.ok c2, s2) ∧
      s2.GetController canControllerFacadeT "a/b" "c" = some c2 ∧
      c2.descriptor.networkName = "a" ∧ c2.descriptor.serviceName = "b/c" ∧
      c1 ≠ c2 := by
  refine ⟨_, _, _, _, rfl, by decide, rfl, by decide, by decide, by decide, by decide⟩

end ComAdapter
end mw
end ib

/-! ## Theorems: the watchdog over one job -/

namespace ib
namespace mw
namespace sync
namespace WatchDog

/-- The cast of a duration to milliseconds is monotone. -/
theorem duration_cast_ms_mono (n : Nat) (a b : Int) (h : a ≤ b) :
    duration_cast_ms n a ≤ duration_cast_ms n b := by
  unfold duration_cast_ms
  have hn : (0 : Int) ≤ (n : Int) := Int.ofNat_nonneg n
  rcases Nat.eq_zero_or_pos n with h0 | hpos
  · subst h0
    simp
  · have hpos2 : (0 : Int) < (n : Int) := by exact_mod_cast hpos
    by_cases ha : 0 ≤ a
    · have hb : 0 ≤ b := le_trans ha h
      rw [Int.tdiv_eq_ediv ha hn, Int.tdiv_eq_ediv hb hn]
      exact Int.ediv_le_ediv hpos2 h
    · by_cases hb : 0 ≤ b
      · have h1 := Int.tdiv_nonneg (show 0 ≤ -a by omega) hn
        rw [Int.neg_tdiv] at h1
        have h2 := Int.tdiv_nonneg hb hn
        omega
      · have h1 := Int.tdiv_eq_ediv (show 0 ≤ -a by omega) hn
        have h2 := Int.tdiv_eq_ediv (show 0 ≤ -b by omega) hn
        rw [Int.neg_tdiv] at h1 h2
        have h3 := Int.ediv_le_ediv hpos2 (show -b ≤ -a by omega)
        omega

/-- A pass of the loop while a job runs, by the band of the elapsed time. -/
theorem Run_step_cases (w : WatchDog) (t0 now : Int) (hrun : w._startTime = some t0) :
    (w.currentRunDuration t0 now ≤ w._warnTimeout →
      w.Run_step now = { w with state := WatchDogState.Healthy }) ∧
    (w.currentRunDuration t0 now > w._warnTimeout →
      w.currentRunDuration t0 now ≤ w._errorTimeout →
      w.Run_step now =
        if w.state = WatchDogState.Healthy then
          { w with
            handlerCalls := w.handlerCalls ++
              [WatchDogHandlerCall.warnHandler (w.currentRunDuration t0 now)]
            state := WatchDogState.Warn }
        else w) ∧
    (w.currentRunDuration t0 now > w._warnTimeout →
      w.currentRunDuration t0 now > w._errorTimeout →
      w.Run_step now =
        if w.state ≠ WatchDogState.Error then
          { w with
            handlerCalls := w.handlerCalls ++
              [WatchDogHandlerCall.errorHandler (w.currentRunDuration t0 now)]
            state := WatchDogState.Error }
        else w) := by
  refine ⟨?_, ?_, ?_⟩
  · intro h
    unfold Run_step
    rw [hrun]
    dsimp only
    rw [if_pos h]
  · intro h1 h2
    unfold Run_step
    rw [hrun]
    dsimp only
    rw [if_neg (by omega), if_pos ⟨h1, h2⟩]
  · intro h1 h2
    unfold Run_step
    rw [hrun]
    dsimp only
    rw [if_neg (by omega), if_neg (by rintro ⟨-, h⟩; omega), if_pos h2]

/-- The handler calls of passes that all see an elapsed time above the warn
timeout, by the state before them. -/
theorem Run_late (polls : List Int) : ∀ (w : WatchDog) (t0 : Int),
    w._startTime = some t0 →
    (∀ p ∈ polls, w.currentRunDuration t0 p > w._warnTimeout) →
    ∃ new, (w.Run polls).handlerCalls = w.handlerCalls ++ new ∧
      (w.state = WatchDogState.Error → new = []) ∧
      (w.state = WatchDogState.Warn →
        (new = [] ∨ ∃ d, new = [WatchDogHandlerCall.errorHandler d])) ∧
      (new = [] ∨ (∃ d, new = [WatchDogHandlerCall.warnHandler d]) ∨
        (∃ d, new = [WatchDogHandlerCall.errorHandler d]) ∨
        ∃ d1 d2, new = [WatchDogHandlerCall.warnHandler d1,
          WatchDogHandlerCall.errorHandler d2]) := by
  induction polls with
  | nil =>
    intro w t0 _ _
    exact ⟨[], by simp [Run], fun _ => rfl, fun _ => Or.inl rfl, Or.inl rfl⟩
  | cons p rest ih =>
    intro w t0 hrun hall
    have hp := hall p (List.mem_cons_self _ _)
    have hrest : ∀ q ∈ rest, w.currentRunDuration t0 q > w._warnTimeout :=
      fun q hq => hall q (List.mem_cons_of_mem _ hq)
    obtain ⟨-, hmid, hhigh⟩ := Run_step_cases w t0 p hrun
    show ∃ new, ((w.Run_step p).Run rest).handlerCalls = w.handlerCalls ++ new ∧ _
    by_cases he : w.currentRunDuration t0 p ≤ w._errorTimeout
    · rw [hmid hp he]
      by_cases hs : w.state = WatchDogState.Healthy
      · rw [if_pos hs]
        obtain ⟨new, hnew, -, hw, -⟩ := ih
          { w with
            handlerCalls := w.handlerCalls ++
              [WatchDogHandlerCall.warnHandler (w.currentRunDuration t0 p)]
            state := WatchDogState.Warn } t0 hrun hrest
        refine ⟨WatchDogHandlerCall.warnHandler (w.currentRunDuration t0 p) :: new,
          by rw [hnew]; simp, ?_, ?_, ?_⟩
        · intro h; rw [hs] at h; exact WatchDogState.noConfusion h
        · intro h; rw [hs] at h; exact WatchDogState.noConfusion h
        · rcases hw rfl with h | ⟨d, h⟩
          · exact Or.inr (Or.inl ⟨_, by rw [h]⟩)
          · exact Or.inr (Or.inr (Or.inr ⟨_, d, by rw [h]⟩))
      · rw [if_neg hs]
        exact ih w t0 hrun hrest
    · rw [hhigh hp (by omega)]
      by_cases hs : w.state ≠ WatchDogState.Error
      · rw [if_pos hs]
        obtain ⟨new, hnew, herr, -, -⟩ := ih
          { w with
            handlerCalls := w.handlerCalls ++
              [WatchDogHandlerCall.errorHandler (w.currentRunDuration t0 p)]
            state := WatchDogState.Error } t0 hrun hrest
        have hnil : new = [] := herr rfl
        subst hnil
        refine ⟨[WatchDogHandlerCall.errorHandler (w.currentRunDuration t0 p)],
          by rw [hnew]; simp, ?_, ?_, ?_⟩
        · intro h; exact absurd h hs
        · intro _; exact Or.inr ⟨_, rfl⟩
        · exact Or.inr (Or.inr (Or.inl ⟨_, rfl⟩))
      · rw [if_neg hs]
        exact ih w t0 hrun hrest

/-- The handler calls of the passes over one job at non-decreasing times. -/
theorem Run_sorted (polls : List Int) : ∀ (w : WatchDog) (t0 : Int),
    w._startTime = some t0 →
    polls.Pairwise (fun a b => a ≤ b) →
    ∃ new, (w.Run polls).handlerCalls = w.handlerCalls ++ new ∧
      (new = [] ∨ (∃ d, new = [WatchDogHandlerCall.warnHandler d]) ∨
        (∃ d, new = [WatchDogHandlerCall.errorHandler d]) ∨
        ∃ d1 d2, new = [WatchDogHandlerCall.warnHandler d1,
          WatchDogHandlerCall.errorHandler d2]) := by
  induction polls with
  | nil =>
    intro w t0 _ _
    exact ⟨[], by simp [Run], Or.inl rfl⟩
  | cons p rest ih =>
    intro w t0 hrun hsorted
    obtain ⟨hle, hrestSorted⟩ := List.pairwise_cons.mp hsorted
    by_cases hp : w.currentRunDuration t0 p ≤ w._warnTimeout
    · show ∃ new, ((w.Run_step p).Run rest).handlerCalls = w.handlerCalls ++ new ∧ _
      rw [(Run_step_cases w t0 p hrun).1 hp]
      exact ih { w with state := WatchDogState.Healthy } t0 hrun hrestSorted
    · have hall : ∀ q ∈ p :: rest, w.currentRunDuration t0 q > w._warnTimeout := by
        intro q hq
        rcases List.mem_cons.mp hq with h | h
        · rw [h]; omega
        · have hmono := duration_cast_ms_mono w.ticksPerMs (p - t0) (q - t0)
            (by have := hle q h; omega)
          unfold currentRunDuration at hp ⊢
          omega
      obtain ⟨new, hnew, -, -, hshape⟩ := Run_late (p :: rest) w t0 hrun hall
      exact ⟨new, hnew, hshape⟩

/-- C26. For one job, started at `startTime` and polled at non-decreasing times, the
handler calls of the watchdog are none, or one of the warn handler, or one
of the error handler, or one of the warn handler followed by one of the
error handler: each handler is invoked at most once and the warn handler
never after the error handler. A pass that sees an elapsed time of at most
the warn timeout invokes no handler. After `Reset`, the next pass invokes no
handler and leaves the state `Healthy`. -/
theorem Run_single_job (self : WatchDog) (startTime : Int) (polls : List Int)
    (hsorted : polls.Pairwise (fun a b => a ≤ b)) :
    (∃ new, ((self.Start startTime).Run polls).handlerCalls = self.handlerCalls ++ new ∧
      (new = [] ∨ (∃ d, new = [WatchDogHandlerCall.warnHandler d]) ∨
        (∃ d, new = [WatchDogHandlerCall.errorHandler d]) ∨
        ∃ d1 d2, new = [WatchDogHandlerCall.warnHandler d1,
          WatchDogHandlerCall.errorHandler d2])) ∧
    (∀ now, (self.Start startTime).currentRunDuration startTime now ≤ self._warnTimeout →
      ((self.Start startTime).Run_step now).handlerCalls = self.handlerCalls) ∧
    (∀ now, (self.Reset.Run_step now).handlerCalls = self.handlerCalls ∧
      (self.Reset.Run_step now).state = WatchDogState.Healthy) := by
  refine ⟨Run_sorted polls (self.Start startTime) startTime rfl hsorted, ?_, ?_⟩
  · intro now h
    rw [(Run_step_cases (self.Start startTime) startTime now rfl).1 h]
    rfl
  · intro now
    exact ⟨rfl, rfl⟩

/-- An instance of `Run_single_job`: with a warn timeout of 5 ms and an error timeout
of 10 ms, polls 3, 6, 6.5, 11 and 12 ms after the start invoke the warn
handler with 6 ms and then the error handler with 11 ms. -/
theorem Run_single_job_witness :
    (∃ new, (((exampleOrdered.Reset).Start 0).Run [3000, 6000, 6500, 11000, 12000]).handlerCalls =
        (exampleOrdered.Reset).handlerCalls ++ new ∧
      (new = [] ∨ (∃ d, new = [WatchDogHandlerCall.warnHandler d]) ∨
        (∃ d, new = [WatchDogHandlerCall.errorHandler d]) ∨
        ∃ d1 d2, new = [WatchDogHandlerCall.warnHandler d1,
          WatchDogHandlerCall.errorHandler d2])) ∧
    (((exampleOrdered.Reset).Start 0).Run [3000, 6000, 6500, 11000, 12000]).handlerCalls =
      [WatchDogHandlerCall.warnHandler 6, WatchDogHandlerCall.errorHandler 11] :=
  ⟨(Run_single_job (exampleOrdered.Reset) 0 [3000, 6000, 6500, 11000, 12000]
      (by decide)).1,
    by decide⟩

end WatchDog
end sync
end mw
end ib

/-! ## Theorems: the participant status in the C interface -/

namespace SilKit
namespace Capi

/-- C28 (the code at the failing input). `SilKit_SystemMonitor_GetParticipantStatus` for a status
`s` writes a struct whose `participantName`, `participantState` and `enterReason` are
those that a handler registered with `SilKit_SystemMonitor_AddParticipantStatusHandler`
receives for `s`. Its `enterTime` is the count of ticks of the system clock,
where the handler gets the count of nanoseconds. Its `refreshTime` is never
assigned: it is what `SilKit_Struct_Init` leaves in the cleared struct, whatever
the refresh time of `s`, where the handler gets the refresh time of `s` in
nanoseconds. -/
theorem GetParticipantStatus_refreshTime (M : CapiImpl) (X : StatusExternals)
    (lookup : String → Except CppException ParticipantStatus) (err : String)
    (out : SilKit_ParticipantStatus) (monitor context : Nat) (name : String)
    (s : ParticipantStatus)
    (hheader : X.ASSERT_VALID_STRUCT_HEADER out = none) (hlookup : lookup name = .ok s) :
    ∃ c, SilKit_SystemMonitor_GetParticipantStatus M X lookup err (some out) (some monitor)
        (some name) = (SilKit_ReturnCode.SUCCESS, some c, err) ∧
      c.participantName = (participantStatusHandler X context monitor s).status.participantName ∧
      c.participantState =
        (participantStatusHandler X context monitor s).status.participantState ∧
      c.enterReason = (participantStatusHandler X context monitor s).status.enterReason ∧
      c.enterTime = toUInt64 s.enterTime ∧
      (participantStatusHandler X context monitor s).status.enterTime =
        toUInt64 (s.enterTime * X.nsPerTick) ∧
      c.refreshTime = (X.SilKit_Struct_Init zeroStatus).refreshTime ∧
      (participantStatusHandler X context monitor s).status.refreshTime =
        toUInt64 (s.refreshTime * X.nsPerTick) := by
  unfold SilKit_SystemMonitor_GetParticipantStatus
  dsimp only
  rw [hheader]
  dsimp only
  rw [hlookup]
  exact ⟨_, rfl, rfl, rfl, rfl, rfl, rfl, rfl, rfl⟩

/-- An instance of `GetParticipantStatus_refreshTime`: for the status of `P1` with the refresh
time 9, on a system clock that counts nanoseconds, the struct written by
`SilKit_SystemMonitor_GetParticipantStatus` has the refresh time 0 and the struct that
a registered handler receives has the refresh time 9. -/
theorem GetParticipantStatus_refreshTime_witness :
    (∃ c, SilKit_SystemMonitor_GetParticipantStatus exampleCapiImpl exampleStatusExternals
        (fun _ => .ok exampleParticipantStatus) "" (some { zeroStatus with structHeader := 1 })
        (some 3) (some "P1") = (SilKit_ReturnCode.SUCCESS, some c, "") ∧
      c.refreshTime = 0) ∧
    ((SilKit_SystemMonitor_AddParticipantStatusHandler exampleCapiImpl exampleStatusExternals
        (.ok 1) (some 3) 0 (some 8) (some 0)).2.2.map
      (fun callback => (callback exampleParticipantStatus).status.refreshTime)) = some 9 :=
  ⟨(GetParticipantStatus_refreshTime exampleCapiImpl exampleStatusExternals
      (fun _ => .ok exampleParticipantStatus) "" { zeroStatus with structHeader := 1 } 3 0 "P1"
      exampleParticipantStatus rfl rfl).imp (fun _ h => ⟨h.1, h.2.2.2.2.2.2.1⟩),
    by decide⟩

end Capi
end SilKit
